import Mathlib

/-! # SDRangel: the SDRdaemon frame buffer

Shallow embedding of `plugins/samplesource/sdrdaemon/sdrdaemonbuffer.cpp`.

Conventions of the embedding

* A byte is a `Nat`; a byte array (`char *array, std::size_t length`) is a
  `List Nat` whose length is `length`.
* A heap pointer (`uint8_t *`) is an `Option (List Nat)`: `none` is the null
  pointer, `some bytes` is an allocation of `bytes.length` bytes.
  `new uint8_t[n]` yields `n` bytes (their indeterminate content is taken as 0).
* 32-bit unsigned arithmetic is `Nat` arithmetic reduced `% 4294967296`.
* A function returns `none` where the C++ has no defined result: a failed
  `assert`, an integer division by zero, an access outside an allocation.
* The header `sdrdaemonbuffer.h`, the CRC64 class and the LZ4 library are not
  among the sources; what they provide is gathered in the structure `Env`
  and every statement is quantified over it.
* Output on `std::cerr` is not part of the state.
-/

set_option linter.unusedVariables false
set_option maxRecDepth 1000000

namespace SDRdaemon

/-- The fields of `SDRdaemonBuffer::MetaData`, as they are read in `readMeta`
and `printMeta`. -/
structure MetaData where
  m_centerFrequency : Nat
  m_sampleRate : Nat
  m_sampleBytes : Nat
  m_sampleBits : Nat
  m_blockSize : Nat
  m_nbSamples : Nat
  m_nbBlocks : Nat
  m_nbBytes : Nat
  m_tv_sec : Nat
  m_tv_usec : Nat
  m_crc : Nat
deriving DecidableEq, Repr

/-- What the sources that are not available provide to `sdrdaemonbuffer.cpp`:
the layout of `MetaData` (its size and the reading of a byte array through the
cast `(MetaData *) array`), the value set by `MetaData::init`, the CRC64
calculator and the two LZ4 entry points. `LZ4_decompress_fast src n` gives the
returned `int` together with the bytes it writes to the destination. -/
structure Env where
  sizeofMetaData : Nat
  castMeta : List Nat → MetaData
  metaInit : MetaData
  calculate_crc : List Nat → Nat
  LZ4_compressBound : Nat → Nat
  LZ4_decompress_fast : List Nat → Nat → Int × List Nat

/-- The data members of class `SDRdaemonBuffer` (the CRC64 calculator, which
has no mutable state of interest, lives in `Env`). `m_dataCRC` is kept as its
8-byte object representation, which is what `memcpy` and `memcmp` act on. -/
structure SDRdaemonBuffer where
  m_blockSize : Nat
  m_sync : Bool
  m_lz4 : Bool
  m_currentMeta : MetaData
  m_lz4InBuffer : Option (List Nat)
  m_lz4InCount : Nat
  m_lz4InSize : Nat
  m_lz4OutBuffer : Option (List Nat)
  m_frameSize : Nat
  m_nbDecodes : Nat
  m_nbSuccessfulDecodes : Nat
  m_nbCRCOK : Nat
  m_dataCRC : List Nat
  m_sampleRate : Nat
  m_sampleBytes : Nat
  m_sampleBits : Nat
  m_rawBuffer : Option (List Nat)
deriving DecidableEq, Repr

/-- Number of bytes behind a pointer: 0 for the null pointer. -/
def capacity (p : Option (List Nat)) : Nat := (p.getD []).length

/-- Result of `new uint8_t[n]`. -/
def newBytes (n : Nat) : Option (List Nat) := some (List.replicate n 0)

/-- Effect of `memcpy(&dst[off], src, src.length)` on the bytes of `dst`, for
a copy that stays inside `dst`. -/
def memcpy (dst : List Nat) (off : Nat) (src : List Nat) : List Nat :=
  dst.take off ++ src ++ dst.drop (off + src.length)

/-- Object representation of a `uint64_t` (little-endian, 8 bytes). -/
def u64Bytes (v : Nat) : List Nat :=
  (List.range 8).map (fun i => v / 256 ^ i % 256)

namespace SDRdaemonBuffer

/-- Constructor `SDRdaemonBuffer::SDRdaemonBuffer(blockSize)`. -/
def create (env : Env) (blockSize : Nat) : SDRdaemonBuffer :=
  { m_blockSize := blockSize
    m_sync := false
    m_lz4 := false
    m_currentMeta := env.metaInit
    m_lz4InBuffer := none
    m_lz4InCount := 0
    m_lz4InSize := 0
    m_lz4OutBuffer := none
    m_frameSize := 0
    m_nbDecodes := 0
    m_nbSuccessfulDecodes := 0
    m_nbCRCOK := 0
    m_dataCRC := u64Bytes 0
    m_sampleRate := 1000000
    m_sampleBytes := 2
    m_sampleBits := 12
    m_rawBuffer := none }

/-- Method `updateLZ4Sizes(uint32_t frameSize)`: the bound `masInputSize` is
computed and not used; the input buffer gets `m_lz4InSize` bytes. -/
def updateLZ4Sizes (env : Env) (s : SDRdaemonBuffer) (frameSize : Nat) : SDRdaemonBuffer :=
  let masInputSize := env.LZ4_compressBound frameSize % 4294967296
  { s with
    m_lz4InBuffer := newBytes s.m_lz4InSize
    m_lz4OutBuffer := newBytes frameSize }

/-- Method `updateBufferSize(uint32_t frameSize)`; `none` is the division by a
zero `frameSize`. -/
def updateBufferSize (s : SDRdaemonBuffer) (frameSize : Nat) : Option SDRdaemonBuffer :=
  if frameSize = 0 then none
  else
    let nbFrames := ((s.m_sampleRate * 2 * s.m_sampleBytes) % 4294967296 / frameSize + 1) % 4294967296
    some { s with m_rawBuffer := newBytes (nbFrames * frameSize % 4294967296) }

/-- The value of the local `frameSize` of `readMeta` for a record. -/
def frameSizeOf (metaData : MetaData) : Nat :=
  let sampleBytes := metaData.m_sampleBytes &&& 0x0F
  (sampleBytes * 2 * metaData.m_nbSamples * metaData.m_nbBlocks) % 4294967296

/-- The header checksum computed by `readMeta` over the first
`sizeof(MetaData) - 8` bytes of the array. -/
def headerCRC (env : Env) (array : List Nat) : Nat :=
  env.calculate_crc (array.take (env.sizeofMetaData - 8))

/-- Method `readMeta(char *array, std::size_t length)`: the returned flag and
the state afterwards. `none` is the failed `assert` on `length`, or the
division by zero inside `updateBufferSize`. -/
def readMeta (env : Env) (s : SDRdaemonBuffer) (array : List Nat) :
    Option (Bool × SDRdaemonBuffer) :=
  if array.length < env.sizeofMetaData + 8 then none
  else
    let metaData := env.castMeta array
    if headerCRC env array = metaData.m_crc then
      let s1 : SDRdaemonBuffer :=
        { s with
          m_dataCRC := (array.drop env.sizeofMetaData).take 8
          m_currentMeta := metaData }
      if metaData.m_blockSize = s1.m_blockSize then
        let frameSize := frameSizeOf metaData
        let s2 : SDRdaemonBuffer :=
          if metaData.m_sampleBytes &&& 0x10 ≠ 0 then
            let s2a : SDRdaemonBuffer :=
              { s1 with m_lz4 := true, m_lz4InSize := metaData.m_nbBytes, m_lz4InCount := 0 }
            if frameSize ≠ s2a.m_frameSize then updateLZ4Sizes env s2a frameSize else s2a
          else
            { s1 with m_lz4 := false }
        let s3 : Option SDRdaemonBuffer :=
          if frameSize ≠ s2.m_frameSize then updateBufferSize s2 frameSize else some s2
        s3.map (fun s4 => (true, { s4 with m_frameSize := frameSize, m_sync := true }))
      else
        some (false, { s1 with m_sync := false })
    else
      some (s.m_sync, s)

/-- First statement of `writeDataLZ4` (the `if`/`else` on
`m_lz4InCount + length < m_lz4InSize`): the bytes of the chunk are copied only
in the `else` branch. `none` is a `memcpy` that leaves the input buffer or
reads past the end of `array`. -/
def lz4Accumulate (s : SDRdaemonBuffer) (array : List Nat) : Option SDRdaemonBuffer :=
  if s.m_lz4InCount + array.length < s.m_lz4InSize then
    some { s with m_lz4InCount := (s.m_lz4InCount + array.length) % 4294967296 }
  else
    let n := (s.m_lz4InSize + 4294967296 - s.m_lz4InCount) % 4294967296
    if s.m_lz4InCount + n ≤ capacity s.m_lz4InBuffer ∧ n ≤ array.length then
      some { s with
        m_lz4InBuffer := s.m_lz4InBuffer.map (fun b => memcpy b s.m_lz4InCount (array.take n))
        m_lz4InCount := (s.m_lz4InCount + array.length) % 4294967296 }
    else none

/-- Body of the second statement of `writeDataLZ4` (taken when
`m_lz4InCount >= m_lz4InSize`): periodic reset of the counters, payload
checksum, decompression, counters. `none` is a checksum that reads past the
input buffer or a decompression of `m_frameSize` bytes that does not fit the
output buffer. -/
def lz4Decode (env : Env) (s : SDRdaemonBuffer) : Option SDRdaemonBuffer :=
  let s1 : SDRdaemonBuffer :=
    if s.m_nbDecodes = 100 then
      { s with m_nbDecodes := 0, m_nbSuccessfulDecodes := 0, m_nbCRCOK := 0 }
    else s
  if s1.m_lz4InSize ≤ capacity s1.m_lz4InBuffer ∧ s1.m_frameSize ≤ capacity s1.m_lz4OutBuffer then
    let inBuffer := s1.m_lz4InBuffer.getD []
    let crc64 := env.calculate_crc (inBuffer.take s1.m_lz4InSize)
    let s2 : SDRdaemonBuffer :=
      if u64Bytes crc64 = s1.m_dataCRC then
        { s1 with m_nbCRCOK := (s1.m_nbCRCOK + 1) % 4294967296 }
      else s1
    let r := env.LZ4_decompress_fast inBuffer s2.m_frameSize
    let compressedSize : Int := r.1
    let s3 : SDRdaemonBuffer :=
      { s2 with
        m_lz4OutBuffer := s2.m_lz4OutBuffer.map (fun b => memcpy b 0 (r.2.take s2.m_frameSize))
        m_nbDecodes := (s2.m_nbDecodes + 1) % 4294967296 }
    let s4 : SDRdaemonBuffer :=
      if (compressedSize % 4294967296).toNat = s3.m_lz4InSize then
        { s3 with m_nbSuccessfulDecodes := (s3.m_nbSuccessfulDecodes + 1) % 4294967296 }
      else s3
    some { s4 with m_lz4InCount := 0 }
  else none

/-- Method `writeDataLZ4(char *array, std::size_t length)`. -/
def writeDataLZ4 (env : Env) (s : SDRdaemonBuffer) (array : List Nat) : Option SDRdaemonBuffer :=
  (lz4Accumulate s array).bind (fun s1 =>
    if s1.m_lz4InCount ≥ s1.m_lz4InSize then lz4Decode env s1 else some s1)

/-- Method `writeData(char *array, std::size_t length)`. -/
def writeData (env : Env) (s : SDRdaemonBuffer) (array : List Nat) : Option SDRdaemonBuffer :=
  if s.m_sync then
    if s.m_lz4 then writeDataLZ4 env s array
    else some s
  else some s

end SDRdaemonBuffer

/-! ## A concrete environment

Used to evaluate the model on explicit inputs: the packed little-endian
layout of the record (fields in the order `printMeta` lists them, widths
8, 4, 1, 1, 2, 4, 2, 4, 4, 4, 8: 42 bytes), a byte-sum standing for the CRC64,
the size bound of the LZ4 library and its block decoder restricted to blocks
made of a single run of fewer than 15 literals. -/

/-- Little-endian value of a byte list (each element taken as a byte). -/
def leNat (bytes : List Nat) : Nat := bytes.foldr (fun b acc => b % 256 + 256 * acc) 0

/-- Little-endian bytes of `v` on `width` bytes. -/
def leBytes (width v : Nat) : List Nat := (List.range width).map (fun i => v / 256 ^ i % 256)

/-- Little-endian field of `width` bytes at offset `off`. -/
def fieldAt (array : List Nat) (off width : Nat) : Nat := leNat ((array.drop off).take width)

/-- Reading of a byte array through the packed layout. -/
def packedCast (array : List Nat) : MetaData :=
  { m_centerFrequency := fieldAt array 0 8
    m_sampleRate := fieldAt array 8 4
    m_sampleBytes := fieldAt array 12 1
    m_sampleBits := fieldAt array 13 1
    m_blockSize := fieldAt array 14 2
    m_nbSamples := fieldAt array 16 4
    m_nbBlocks := fieldAt array 20 2
    m_nbBytes := fieldAt array 22 4
    m_tv_sec := fieldAt array 26 4
    m_tv_usec := fieldAt array 30 4
    m_crc := fieldAt array 34 8 }

/-- Bytes of a record in the packed layout, followed by the 8 bytes of the
payload checksum. -/
def packedRecord (md : MetaData) (dataCRC : List Nat) : List Nat :=
  leBytes 8 md.m_centerFrequency ++ leBytes 4 md.m_sampleRate ++ leBytes 1 md.m_sampleBytes
    ++ leBytes 1 md.m_sampleBits ++ leBytes 2 md.m_blockSize ++ leBytes 4 md.m_nbSamples
    ++ leBytes 2 md.m_nbBlocks ++ leBytes 4 md.m_nbBytes ++ leBytes 4 md.m_tv_sec
    ++ leBytes 4 md.m_tv_usec ++ leBytes 8 md.m_crc ++ dataCRC

/-- Sum of the bytes, on 64 bits. -/
def byteSum (bytes : List Nat) : Nat := bytes.sum % 18446744073709551616

/-- Size bound of the LZ4 library: 0 above 0x7E000000, else `n + n/255 + 16`. -/
def lz4Bound (n : Nat) : Nat := if n > 0x7E000000 then 0 else n + n / 255 + 16

/-- LZ4 block decoding of `originalSize` bytes for a block that is one run of
literals: a token `16 * originalSize` (fewer than 15 literals) followed by the
literals. Returns the number of source bytes read and the literals; any other
input gives the error value -1 and no output. -/
def lz4LiteralRun (src : List Nat) (originalSize : Nat) : Int × List Nat :=
  match src with
  | [] => (-1, [])
  | token :: rest =>
    if token = 16 * originalSize ∧ originalSize < 15 ∧ originalSize ≤ rest.length then
      (1 + (originalSize : Int), rest.take originalSize)
    else (-1, [])

/-- The concrete environment. -/
def sampleEnv : Env :=
  { sizeofMetaData := 42
    castMeta := packedCast
    metaInit := packedCast []
    calculate_crc := byteSum
    LZ4_compressBound := lz4Bound
    LZ4_decompress_fast := lz4LiteralRun }

/-- A record declaring 2-byte samples, LZ4 compression (0x12), block size 512,
2 samples per block, 1 block per frame (frame size 8) and 9 compressed bytes;
its header checksum 934 is the sum of its first 34 bytes. -/
def sampleMeta : MetaData :=
  { m_centerFrequency := 435000000
    m_sampleRate := 2000000
    m_sampleBytes := 0x12
    m_sampleBits := 12
    m_blockSize := 512
    m_nbSamples := 2
    m_nbBlocks := 1
    m_nbBytes := 9
    m_tv_sec := 0
    m_tv_usec := 0
    m_crc := 934 }

/-- An LZ4 block of 9 bytes holding the 8 literals 1, ..., 8 (token 0x80);
its byte sum is 164. -/
def sampleFrame : List Nat := [128, 1, 2, 3, 4, 5, 6, 7, 8]

/-- The bytes of `sampleMeta` followed by the payload checksum 164. -/
def sampleRecord : List Nat := packedRecord sampleMeta (leBytes 8 164)

/-- The same bytes with the stored header checksum off by one. -/
def corruptedRecord : List Nat :=
  packedRecord { sampleMeta with m_crc := 935 } (leBytes 8 164)

/-- The same record declaring block size 1024 (checksum adjusted to 936). -/
def otherBlockRecord : List Nat :=
  packedRecord { sampleMeta with m_blockSize := 1024, m_crc := 936 } (leBytes 8 164)

/-- State of a buffer constructed for block size 512 after `sampleRecord` was
accepted. -/
def sampleSynced : SDRdaemonBuffer :=
  { SDRdaemonBuffer.create sampleEnv 512 with
    m_sync := true
    m_lz4 := true
    m_currentMeta := sampleMeta
    m_lz4InBuffer := newBytes 9
    m_lz4InSize := 9
    m_lz4OutBuffer := newBytes 8
    m_frameSize := 8
    m_dataCRC := leBytes 8 164
    m_rawBuffer := newBytes 4000008 }

/-- The record of `sampleMeta` declaring 12 compressed bytes instead of 9
(header checksum adjusted to 937), followed by the payload checksum 164. -/
def paddedRecord : List Nat :=
  packedRecord { sampleMeta with m_nbBytes := 12, m_crc := 937 } (leBytes 8 164)

/-- State of a buffer constructed for block size 512 after `paddedRecord` was
accepted. -/
def paddedSynced : SDRdaemonBuffer :=
  { sampleSynced with
    m_currentMeta := { sampleMeta with m_nbBytes := 12, m_crc := 937 }
    m_lz4InBuffer := newBytes 12
    m_lz4InSize := 12 }

/-- The record of `sampleMeta` without the compression flag (packed byte
0x02, header checksum adjusted to 918). -/
def plainRecord : List Nat :=
  packedRecord { sampleMeta with m_sampleBytes := 0x02, m_crc := 918 } (leBytes 8 164)

/-- State of a buffer constructed for block size 512 after `plainRecord` was
accepted: Synced, compression off, no LZ4 buffer. -/
def plainSynced : SDRdaemonBuffer :=
  { SDRdaemonBuffer.create sampleEnv 512 with
    m_sync := true
    m_currentMeta := { sampleMeta with m_sampleBytes := 0x02, m_crc := 918 }
    m_frameSize := 8
    m_dataCRC := leBytes 8 164
    m_rawBuffer := newBytes 4000008 }

/-- The state `sampleSynced` after 100 frames were decoded with matching
checksum and size. -/
def sampleSynced100 : SDRdaemonBuffer :=
  { sampleSynced with
    m_lz4InBuffer := some sampleFrame
    m_lz4OutBuffer := some [1, 2, 3, 4, 5, 6, 7, 8]
    m_nbDecodes := 100
    m_nbSuccessfulDecodes := 100
    m_nbCRCOK := 100 }

end SDRdaemon

/-! ## The LoRa modulator baseband and the BladeRF2 MIMO device GUI

Shallow embedding of `plugins/channeltx/modlora/loramodbaseband.cpp` and of
the message handling of `plugins/samplemimo/bladerf2mimo/bladerf2mimogui.cpp`.

Conventions of the embedding

* A message (`Message&`, tested with `T::match`) is a value of the type
  `Message`: one constructor for each class the two files recognise, and
  `other` for a message of any other class.
* The classes `SampleSourceFifo`, `UpChannelizer`, `LoRaModSource` and
  `MessageQueue` are not among the sources. The three collaborators
  `m_sampleFifo`, `*m_channelizer` and `m_source` are kept together as one
  value of a type `World`; their methods are the fields of `ModEnv` and every
  statement is quantified over it. The message queue is the list of pending
  messages, oldest first.
* Each state carries the list `m_trace` of the calls made so far, in program
  order: taking and releasing `m_mutex` (`QMutexLocker`), entering
  `handleMessage`, and every call that can change a collaborator. Methods that
  only return a value (`getChannelSampleRate`, `getChannelFrequencyOffset`,
  `remainder`, `getData`) are functions of the `World` and leave no event.
* A loop whose end depends on the collaborators takes a number of iterations
  `fuel` and returns `none` when that number does not suffice.
* `int` arithmetic is exact (`Int`); `unsigned int` indices are `Nat`.
-/

namespace SDRangel

/-- A complex sample (`Sample`): real and imaginary part. -/
abbrev Sample := Int × Int

/-- The members of `LoRaModSettings` read by the baseband; the others are kept
together in `m_others`. -/
structure LoRaModSettings where
  m_inputFrequencyOffset : Int
  m_bandwidthIndex : Int
  m_others : List Int
deriving DecidableEq, Repr

/-- Members of `BladeRF2MIMOSettings`; those the GUI code does not compute
with are kept together in `m_others`. -/
structure BladeRF2MIMOSettings where
  m_devSampleRate : Int
  m_log2Decim : Nat
  m_log2Interp : Nat
  m_rxCenterFrequency : Nat
  m_txCenterFrequency : Nat
  m_rxTransverterMode : Bool
  m_rxTransverterDeltaFrequency : Int
  m_txTransverterMode : Bool
  m_txTransverterDeltaFrequency : Int
  m_others : List Int
deriving DecidableEq, Repr

/-- A queued message, by class. -/
inductive Message where
  | MsgConfigureLoRaModBaseband (settings : LoRaModSettings) (force : Bool)
  | MsgConfigureLoRaModPayload (payload : List Nat)
  | DSPSignalNotification (sampleRate : Int) (centerFrequency : Int)
  | DSPMIMOSignalNotification (sampleRate : Int) (centerFrequency : Nat)
      (sourceOrSink : Bool) (index : Nat)
  | MsgConfigureBladeRF2MIMO (settings : BladeRF2MIMOSettings) (force : Bool)
  | other (identifier : Nat)
deriving DecidableEq, Repr

/-- A call recorded in `m_trace`. -/
inductive Event where
  | lock
  | unlock
  | handleMessage (cmd : Message)
  | fifoResize (size : Nat)
  | fifoReset
  | fifoRead (count : Nat)
  | fifoWrite (count : Nat)
  | setChannelization (channelRate : Int) (frequencyOffset : Int)
  | setBasebandSampleRate (rate : Int)
  | channelizerPull (iBegin : Nat) (count : Nat)
  | sourceApplyChannelSettings (channelSampleRate : Int) (bandwidth : Int)
      (channelFrequencyOffset : Int)
  | sourceApplySettings (settings : LoRaModSettings) (force : Bool)
  | setSymbols (payload : List Nat)
  | getLevels
  | levelChanged
  | spectrumSetSampleRate (rate : Int)
  | spectrumSetCenterFrequency (frequency : Nat)
  | displaySettings
  | displaySampleRate
  | updateTimerStart (msec : Nat)
  | setValueRange (digits : Nat) (min : Int) (max : Int)
deriving DecidableEq, Repr

/-- The message of a `handleMessage` event. -/
def Event.dispatched : Event → Option Message
  | .handleMessage cmd => some cmd
  | _ => none

/-- The messages `handleMessage` was entered with, in order. -/
def dispatchedMessages (trace : List Event) : List Message :=
  trace.filterMap Event.dispatched

/-- Calls on the sample FIFO that write or read sample slots, and the pull of
the channelizer. -/
def Event.touchesSamples : Event → Bool
  | .fifoRead _ => true
  | .fifoWrite _ => true
  | .channelizerPull _ _ => true
  | _ => false

/-- Calls on the channelizer. -/
def Event.onChannelizer : Event → Bool
  | .setChannelization _ _ => true
  | .setBasebandSampleRate _ => true
  | .channelizerPull _ _ => true
  | _ => false

/-- Calls on the sample FIFO or on the channelizer. -/
def Event.isAccess : Event → Bool
  | .fifoResize _ => true
  | .fifoReset => true
  | .fifoRead _ => true
  | .fifoWrite _ => true
  | .setChannelization _ _ => true
  | .setBasebandSampleRate _ => true
  | .channelizerPull _ _ => true
  | _ => false

/-- Whether every call on the FIFO or the channelizer in `trace` is made
while the recursive mutex is held, `depth` being the number of holds at the
start. -/
def guardedFrom : Nat → List Event → Bool
  | _, [] => true
  | depth, .lock :: rest => guardedFrom (depth + 1) rest
  | depth, .unlock :: rest => guardedFrom (depth - 1) rest
  | depth, e :: rest => (!e.isAccess || decide (0 < depth)) && guardedFrom depth rest

/-- What `loramodbaseband.cpp` takes from sources that are not available: the
collaborators (`World`, its value after default construction, and their
methods), the table `LoRaModSettings::bandwidths`, the constant
`LoRaModSettings::oversampling` and the default settings.
`fifoRead` and `fifoWrite` give the four indices part1Begin, part1End,
part2Begin, part2End. -/
structure ModEnv where
  World : Type
  initWorld : World
  defaultSettings : LoRaModSettings
  bandwidths : Int → Int
  oversampling : Int
  getSizePolicy : Int → Nat
  fifoResize : Nat → World → World
  fifoReset : World → World
  fifoRead : Nat → World → (Nat × Nat × Nat × Nat) × World
  fifoWrite : Nat → World → (Nat × Nat × Nat × Nat) × World
  fifoRemainder : World → Nat
  fifoData : World → List Sample
  setChannelization : Int → Int → World → World
  setBasebandSampleRate : Int → World → World
  getChannelSampleRate : World → Int
  getChannelFrequencyOffset : World → Int
  channelizerPull : Nat → Nat → World → World
  sourceApplyChannelSettings : Int → Int → Int → World → World
  sourceApplySettings : LoRaModSettings → Bool → World → World
  setSymbols : List Nat → World → World
  getLevels : World → World

/-- The data members of class `LoRaModBaseband` and the trace of calls. -/
structure LoRaModBaseband (W : Type) where
  m_world : W
  m_settings : LoRaModSettings
  m_inputMessageQueue : List Message
  m_trace : List Event
deriving DecidableEq, Repr

/-- Modelled from the spec: `MessageQueue::pop`, of the class `MessageQueue`
that is not among the sources. The queue is "a FIFO queue" whose messages are
handled "preserving submission order": `pop` removes and returns the message
submitted first, and returns nothing (`nullptr`) for an empty queue. -/
def MessageQueue.pop (queue : List Message) : Option (Message × List Message) :=
  match queue with
  | [] => none
  | message :: rest => some (message, rest)

/-- Modelled from the spec: `MessageQueue::size`, the number of messages
pending in the queue. -/
def MessageQueue.size (queue : List Message) : Nat := queue.length

/-- Effect of `std::copy(data.begin() + first, data.begin() + last, out)`
where `out` is `off` elements into `dest`; `none` when the source range is not
a range of `data` or the copy leaves `dest`. -/
def copyRange (data : List Sample) (first last : Nat) (dest : List Sample) (off : Nat) :
    Option (List Sample) :=
  if first ≤ last ∧ last ≤ data.length ∧ off + (last - first) ≤ dest.length then
    some (dest.take off ++ (data.drop first).take (last - first)
      ++ dest.drop (off + (last - first)))
  else none

namespace LoRaModBaseband

/-- Records one event. -/
def log {W : Type} (e : Event) (st : LoRaModBaseband W) : LoRaModBaseband W :=
  { st with m_trace := st.m_trace ++ [e] }

/-- Makes one call on the collaborators and records it. -/
def call {W : Type} (e : Event) (f : W → W) (st : LoRaModBaseband W) : LoRaModBaseband W :=
  { st with m_world := f st.m_world, m_trace := st.m_trace ++ [e] }

/-- Constructor `LoRaModBaseband::LoRaModBaseband()`. -/
def create (env : ModEnv) : LoRaModBaseband env.World :=
  { m_world := env.fifoResize (env.getSizePolicy 48000) env.initWorld
    m_settings := env.defaultSettings
    m_inputMessageQueue := []
    m_trace := [Event.fifoResize (env.getSizePolicy 48000)] }

/-- Method `reset()`. -/
def reset (env : ModEnv) (st : LoRaModBaseband env.World) : LoRaModBaseband env.World :=
  log Event.unlock (call Event.fifoReset env.fifoReset (log Event.lock st))

/-- Method `pull(begin, nbSamples)`: `dest` is the destination from `begin`
to its end. The result is the destination afterwards and the state; `none`
when a copy is not defined. In every defined case part1Begin is at most
part1End, so that `shift` is their plain difference. -/
def pull (env : ModEnv) (st : LoRaModBaseband env.World) (dest : List Sample) (nbSamples : Nat) :
    Option (List Sample × LoRaModBaseband env.World) :=
  let r := env.fifoRead nbSamples st.m_world
  let part1Begin := r.1.1
  let part1End := r.1.2.1
  let part2Begin := r.1.2.2.1
  let part2End := r.1.2.2.2
  let st1 : LoRaModBaseband env.World :=
    { st with m_world := r.2, m_trace := st.m_trace ++ [Event.fifoRead nbSamples] }
  let data := env.fifoData st1.m_world
  let dest1 : Option (List Sample) :=
    if part1Begin ≠ part1End then copyRange data part1Begin part1End dest 0 else some dest
  let shift := part1End - part1Begin
  dest1.bind (fun d1 =>
    let dest2 : Option (List Sample) :=
      if part2Begin ≠ part2End then copyRange data part2Begin part2End d1 shift else some d1
    dest2.map (fun d2 => (d2, st1)))

/-- Method `processFifo(data, iBegin, iEnd)`; the count `iEnd - iBegin` is an
`unsigned int` difference. -/
def processFifo (env : ModEnv) (st : LoRaModBaseband env.World) (iBegin iEnd : Nat) :
    LoRaModBaseband env.World :=
  let count := (iEnd + 4294967296 - iBegin) % 4294967296
  call (Event.channelizerPull iBegin count) (env.channelizerPull iBegin count) st

/-- Condition of the `while` of `handleData`. -/
def handleDataCondition (env : ModEnv) (st : LoRaModBaseband env.World) : Bool :=
  decide (env.fifoRemainder st.m_world > 0)
    && decide (MessageQueue.size st.m_inputMessageQueue = 0)

/-- Body of the `while` of `handleData`. -/
def handleDataStep (env : ModEnv) (st : LoRaModBaseband env.World) : LoRaModBaseband env.World :=
  let remainder := env.fifoRemainder st.m_world
  let r := env.fifoWrite remainder st.m_world
  let ipart1begin := r.1.1
  let ipart1end := r.1.2.1
  let ipart2begin := r.1.2.2.1
  let ipart2end := r.1.2.2.2
  let st1 : LoRaModBaseband env.World :=
    { st with m_world := r.2, m_trace := st.m_trace ++ [Event.fifoWrite remainder] }
  let st2 := if ipart1begin ≠ ipart1end then processFifo env st1 ipart1begin ipart1end else st1
  if ipart2begin ≠ ipart2end then processFifo env st2 ipart2begin ipart2end else st2

/-- The `while` of `handleData`, for at most `fuel` iterations. -/
def handleDataLoop (env : ModEnv) : Nat → LoRaModBaseband env.World →
    Option (LoRaModBaseband env.World)
  | 0, st => if handleDataCondition env st then none else some st
  | fuel + 1, st =>
    if handleDataCondition env st then handleDataLoop env fuel (handleDataStep env st)
    else some st

/-- Method `handleData()`. -/
def handleData (env : ModEnv) (fuel : Nat) (st : LoRaModBaseband env.World) :
    Option (LoRaModBaseband env.World) :=
  (handleDataLoop env fuel (log Event.lock st)).map (fun st1 =>
    log Event.unlock (log Event.levelChanged (call Event.getLevels env.getLevels st1)))

/-- The loop iteration of `handleData` as the specification states it, to be
compared with `handleDataStep`: the FIFO is asked for its writable slots; then
each non-empty region it returned, region one before region two, is passed to
the channelizer once, with a pull count equal to the length of the region. -/
def drainIterationSpec (env : ModEnv) (st : LoRaModBaseband env.World) :
    LoRaModBaseband env.World :=
  let remainder := env.fifoRemainder st.m_world
  let r := env.fifoWrite remainder st.m_world
  let regions : List (Nat × Nat) := [(r.1.1, r.1.2.1), (r.1.2.2.1, r.1.2.2.2)]
  (regions.filter (fun region => decide (region.1 < region.2))).foldl
    (fun s region =>
      { s with
        m_world := env.channelizerPull region.1 (region.2 - region.1) s.m_world
        m_trace := s.m_trace ++ [Event.channelizerPull region.1 (region.2 - region.1)] })
    { st with m_world := r.2, m_trace := st.m_trace ++ [Event.fifoWrite remainder] }

/-- Method `applySettings(settings, force)`. -/
def applySettings (env : ModEnv) (st : LoRaModBaseband env.World) (settings : LoRaModSettings)
    (force : Bool) : LoRaModBaseband env.World :=
  let st1 : LoRaModBaseband env.World :=
    if settings.m_bandwidthIndex ≠ st.m_settings.m_bandwidthIndex
        ∨ settings.m_inputFrequencyOffset ≠ st.m_settings.m_inputFrequencyOffset
        ∨ force = true then
      let thisBW := env.bandwidths settings.m_bandwidthIndex
      let sa := call
        (Event.setChannelization (thisBW * env.oversampling) settings.m_inputFrequencyOffset)
        (env.setChannelization (thisBW * env.oversampling) settings.m_inputFrequencyOffset) st
      call
        (Event.sourceApplyChannelSettings (env.getChannelSampleRate sa.m_world) thisBW
          (env.getChannelFrequencyOffset sa.m_world))
        (env.sourceApplyChannelSettings (env.getChannelSampleRate sa.m_world) thisBW
          (env.getChannelFrequencyOffset sa.m_world)) sa
    else st
  let st2 := call (Event.sourceApplySettings settings force)
    (env.sourceApplySettings settings force) st1
  { st2 with m_settings := settings }

/-- The classes `handleMessage` tests with `match`:
`MsgConfigureLoRaModBaseband`, `MsgConfigureLoRaModPayload` and
`DSPSignalNotification`. -/
def recognises : Message → Bool
  | .MsgConfigureLoRaModBaseband _ _ => true
  | .MsgConfigureLoRaModPayload _ => true
  | .DSPSignalNotification _ _ => true
  | _ => false

/-- Method `handleMessage(cmd)`: the returned flag and the state. -/
def handleMessage (env : ModEnv) (st : LoRaModBaseband env.World) (cmd : Message) :
    Bool × LoRaModBaseband env.World :=
  let st0 := log (Event.handleMessage cmd) st
  match cmd with
  | .MsgConfigureLoRaModBaseband settings force =>
    (true, log Event.unlock (applySettings env (log Event.lock st0) settings force))
  | .MsgConfigureLoRaModPayload payload =>
    (true, log Event.unlock
      (call (Event.setSymbols payload) (env.setSymbols payload) (log Event.lock st0)))
  | .DSPSignalNotification sampleRate _ =>
    let sa := call (Event.fifoResize (env.getSizePolicy sampleRate))
      (env.fifoResize (env.getSizePolicy sampleRate)) (log Event.lock st0)
    let sb := call (Event.setBasebandSampleRate sampleRate)
      (env.setBasebandSampleRate sampleRate) sa
    let sc := call
      (Event.sourceApplyChannelSettings (env.getChannelSampleRate sb.m_world)
        (env.bandwidths sb.m_settings.m_bandwidthIndex)
        (env.getChannelFrequencyOffset sb.m_world))
      (env.sourceApplyChannelSettings (env.getChannelSampleRate sb.m_world)
        (env.bandwidths sb.m_settings.m_bandwidthIndex)
        (env.getChannelFrequencyOffset sb.m_world)) sb
    (true, log Event.unlock sc)
  | _ => (false, st0)

/-- Method `handleInputMessages()`, for at most `fuel` iterations of its
`while`; the loop ends when `pop` returns nothing. Deleting a handled message
has no effect on the state. -/
def handleInputMessages (env : ModEnv) : Nat → LoRaModBaseband env.World →
    Option (LoRaModBaseband env.World)
  | 0, st =>
    match MessageQueue.pop st.m_inputMessageQueue with
    | none => some st
    | some _ => none
  | fuel + 1, st =>
    match MessageQueue.pop st.m_inputMessageQueue with
    | none => some st
    | some (message, rest) =>
      handleInputMessages env fuel
        (handleMessage env { st with m_inputMessageQueue := rest } message).2

end LoRaModBaseband

/-- Data members of class `BladeRF2MIMOGui` used by its message handling, and
the trace of calls. -/
structure BladeRF2MIMOGui where
  m_settings : BladeRF2MIMOSettings
  m_rxElseTx : Bool
  m_streamIndex : Int
  m_spectrumRxElseTx : Bool
  m_spectrumStreamIndex : Int
  m_sampleRateMode : Bool
  m_doApplySettings : Bool
  m_forceSettings : Bool
  m_updateTimerActive : Bool
  m_rxBasebandSampleRate : Int
  m_txBasebandSampleRate : Int
  m_rxDeviceCenterFrequency : Nat
  m_txDeviceCenterFrequency : Nat
  m_inputMessageQueue : List Message
  m_trace : List Event
deriving DecidableEq, Repr

/-- What the GUI code takes from sources that are not available: the value
the sample rate dial returns (`ui->sampleRate->getValueNew()`) and the
frequency ranges of the device (`getRxFrequencyRange`, `getTxFrequencyRange`:
minimum and maximum in Hz). -/
structure GuiEnv where
  getValueNew : BladeRF2MIMOGui → Nat
  rxFrequencyRange : Nat × Nat
  txFrequencyRange : Nat × Nat

namespace BladeRF2MIMOGui

/-- Records one event. -/
def log (e : Event) (g : BladeRF2MIMOGui) : BladeRF2MIMOGui :=
  { g with m_trace := g.m_trace ++ [e] }

/-- Method `updateSampleRateAndFrequency()`. -/
def updateSampleRateAndFrequency (g : BladeRF2MIMOGui) : BladeRF2MIMOGui :=
  if g.m_spectrumRxElseTx then
    log (Event.spectrumSetCenterFrequency g.m_rxDeviceCenterFrequency)
      (log (Event.spectrumSetSampleRate g.m_rxBasebandSampleRate) g)
  else
    log (Event.spectrumSetCenterFrequency g.m_txDeviceCenterFrequency)
      (log (Event.spectrumSetSampleRate g.m_txBasebandSampleRate) g)

/-- The classes `handleMessage` tests with `match`:
`DSPMIMOSignalNotification` and `MsgConfigureBladeRF2MIMO`. -/
def recognises : Message → Bool
  | .DSPMIMOSignalNotification _ _ _ _ => true
  | .MsgConfigureBladeRF2MIMO _ _ => true
  | _ => false

/-- Method `handleMessage(message)`: the returned flag and the state.
`displaySettings()` only drives widgets and is recorded as an event. -/
def handleMessage (g : BladeRF2MIMOGui) (message : Message) : Bool × BladeRF2MIMOGui :=
  let g0 := log (Event.handleMessage message) g
  match message with
  | .DSPMIMOSignalNotification sampleRate centerFrequency sourceOrSink _ =>
    let g1 : BladeRF2MIMOGui :=
      if sourceOrSink then
        { g0 with m_rxBasebandSampleRate := sampleRate, m_rxDeviceCenterFrequency := centerFrequency }
      else
        { g0 with m_txBasebandSampleRate := sampleRate, m_txDeviceCenterFrequency := centerFrequency }
    (true, updateSampleRateAndFrequency g1)
  | .MsgConfigureBladeRF2MIMO settings _ =>
    (true, log Event.displaySettings { g0 with m_settings := settings })
  | _ => (false, g0)

/-- Method `handleInputMessages()`, for at most `fuel` iterations of its
`while`. -/
def handleInputMessages : Nat → BladeRF2MIMOGui → Option BladeRF2MIMOGui
  | 0, g =>
    match MessageQueue.pop g.m_inputMessageQueue with
    | none => some g
    | some _ => none
  | fuel + 1, g =>
    match MessageQueue.pop g.m_inputMessageQueue with
    | none => some g
    | some (message, rest) =>
      handleInputMessages fuel (handleMessage { g with m_inputMessageQueue := rest } message).2

/-- Method `sendSettings()`: starts the update timer unless it is running. -/
def sendSettings (g : BladeRF2MIMOGui) : BladeRF2MIMOGui :=
  if g.m_updateTimerActive then g
  else log (Event.updateTimerStart 100) { g with m_updateTimerActive := true }

/-- Conversion of an unsigned value to a 32-bit `int`. -/
def toInt32 (n : Nat) : Int := ((n + 2147483648) % 4294967296 : Nat) - 2147483648

/-- Conversion of an integer to a 64-bit `qint64`. -/
def toInt64 (x : Int) : Int := (x + 9223372036854775808) % 18446744073709551616
  - 9223372036854775808

/-- Method `on_decim_currentIndexChanged(index)`. `displaySampleRate()` only
drives widgets and is recorded as an event; `env.getValueNew` is what
`ui->sampleRate->getValueNew()` returns afterwards. -/
def on_decim_currentIndexChanged (env : GuiEnv) (g : BladeRF2MIMOGui) (index : Int) :
    BladeRF2MIMOGui :=
  if index < 0 ∨ index > 6 then g
  else
    let g1 : BladeRF2MIMOGui :=
      if g.m_rxElseTx then
        { g with m_settings := { g.m_settings with m_log2Decim := index.toNat } }
      else
        { g with m_settings := { g.m_settings with m_log2Interp := index.toNat } }
    let g2 := log Event.displaySampleRate g1
    let log2Factor := if g2.m_rxElseTx then g2.m_settings.m_log2Decim
      else g2.m_settings.m_log2Interp
    let rate : Int :=
      if g2.m_sampleRateMode then toInt32 (env.getValueNew g2)
      else toInt32 (env.getValueNew g2 * 2 ^ log2Factor % 18446744073709551616)
    let g3 : BladeRF2MIMOGui :=
      { g2 with m_settings := { g2.m_settings with m_devSampleRate := rate } }
    sendSettings g3

/-- The limits `updateFrequencyLimits()` computes, in kHz: the frequency range
is asked with `getRxFrequencyRange` in both branches. The sum of the `uint64_t`
bound and the `qint64` delta is taken on 64 bits. -/
def frequencyLimits (env : GuiEnv) (g : BladeRF2MIMOGui) : Int × Int :=
  let clamp : Int → Int := fun x => if x < 0 then 0 else if x > 9999999 then 9999999 else x
  if g.m_rxElseTx then
    let deltaFrequency : Int :=
      if g.m_settings.m_rxTransverterMode then
        Int.tdiv g.m_settings.m_rxTransverterDeltaFrequency 1000
      else 0
    let f_min := env.rxFrequencyRange.1
    let f_max := env.rxFrequencyRange.2
    let minLimit := toInt64 ((f_min / 1000 : Nat) + deltaFrequency)
    let maxLimit := toInt64 ((f_max / 1000 : Nat) + deltaFrequency)
    (clamp minLimit, clamp maxLimit)
  else
    let deltaFrequency : Int :=
      if g.m_settings.m_txTransverterMode then
        Int.tdiv g.m_settings.m_txTransverterDeltaFrequency 1000
      else 0
    let f_min := env.rxFrequencyRange.1
    let f_max := env.rxFrequencyRange.2
    let minLimit := toInt64 ((f_min / 1000 : Nat) + deltaFrequency)
    let maxLimit := toInt64 ((f_max / 1000 : Nat) + deltaFrequency)
    (clamp minLimit, clamp maxLimit)

/-- Method `updateFrequencyLimits()`: the limits are given to
`ui->centerFrequency->setValueRange(7, minLimit, maxLimit)`. -/
def updateFrequencyLimits (env : GuiEnv) (g : BladeRF2MIMOGui) : BladeRF2MIMOGui :=
  log (Event.setValueRange 7 (frequencyLimits env g).1 (frequencyLimits env g).2) g

end BladeRF2MIMOGui

/-! ## A concrete environment for the modulator

Used to evaluate the model on explicit inputs. -/

/-- Modelled from the spec: the state of the collaborators, whose classes
`SampleSourceFifo`, `UpChannelizer` and `LoRaModSource` are not among the
sources. The FIFO is its backing store with a read cursor and the number of
unread samples; the channelizer is the baseband rate, channel rate and
frequency offset installed last; the source is what it was given last. -/
structure SampleWorld where
  fifoData : List Sample
  fifoHead : Nat
  fifoFill : Nat
  basebandSampleRate : Int
  channelSampleRate : Int
  channelFrequencyOffset : Int
  sourceChannel : Int × Int × Int
  sourceSettings : Option (LoRaModSettings × Bool)
  symbols : List Nat
  produced : Nat
deriving DecidableEq, Repr

namespace SampleWorld

/-- Modelled from the spec: a request of `n` slots at cursor `start` of a
backing store of `size` slots "is split into two contiguous regions (region
two empty if no wraparound)". -/
def regions (size start n : Nat) : Nat × Nat × Nat × Nat :=
  if start + n ≤ size then (start, start + n, 0, 0) else (start, size, 0, start + n - size)

/-- Modelled from the spec: `SampleSourceFifo::resize(capacity)`
"reallocates; any unread data is dropped". -/
def resize (capacity : Nat) (w : SampleWorld) : SampleWorld :=
  { w with fifoData := List.replicate capacity (0, 0), fifoHead := 0, fifoFill := 0 }

/-- Modelled from the spec: `SampleSourceFifo::reset()` "clears cursors without
reallocating". -/
def reset (w : SampleWorld) : SampleWorld :=
  { w with fifoHead := 0, fifoFill := 0 }

/-- Modelled from the spec: `SampleSourceFifo::remainder()`, the "number of
sample slots currently writable without overwrite". -/
def remainder (w : SampleWorld) : Nat := w.fifoData.length - w.fifoFill

/-- Modelled from the spec: `SampleSourceFifo::write(n)` "reserves space for up
to `n` samples at the write cursor" and returns the two regions. -/
def write (n : Nat) (w : SampleWorld) : (Nat × Nat × Nat × Nat) × SampleWorld :=
  let m := min n (remainder w)
  (regions w.fifoData.length ((w.fifoHead + w.fifoFill) % w.fifoData.length) m,
    { w with fifoFill := w.fifoFill + m })

/-- Modelled from the spec: `SampleSourceFifo::read(n)`, the "same contract for
the read side; returns fewer than `n` indices if fewer are available". -/
def read (n : Nat) (w : SampleWorld) : (Nat × Nat × Nat × Nat) × SampleWorld :=
  let m := min n w.fifoFill
  (regions w.fifoData.length w.fifoHead m,
    { w with fifoHead := (w.fifoHead + m) % w.fifoData.length, fifoFill := w.fifoFill - m })

/-- Modelled from the spec: `UpChannelizer::setChannelization(channelRate,
frequencyOffset)` installs the channel rate and the frequency offset. -/
def setChannelization (channelRate frequencyOffset : Int) (w : SampleWorld) : SampleWorld :=
  { w with channelSampleRate := channelRate, channelFrequencyOffset := frequencyOffset }

/-- Modelled from the spec: `UpChannelizer::setBasebandSampleRate(rate)`,
"called on upstream rate-change notification", installs the baseband rate. -/
def setBasebandSampleRate (rate : Int) (w : SampleWorld) : SampleWorld :=
  { w with basebandSampleRate := rate }

/-- Modelled from the spec: `UpChannelizer::pull(sampleIterator, count)`
produces `count` samples into the storage of the caller; here the samples are
numbered in the order they are produced. -/
def channelizerPull (iBegin count : Nat) (w : SampleWorld) : SampleWorld :=
  { w with
    fifoData := w.fifoData.take iBegin
      ++ (List.range count).map (fun j => (((w.produced + j : Nat) : Int), (0 : Int)))
      ++ w.fifoData.drop (iBegin + count)
    produced := w.produced + count }

end SampleWorld

/-- The concrete environment of the modulator: the collaborators of
`SampleWorld`, a FIFO size of 0.64 s of samples at the given rate (the `int`
rate converted to `unsigned int`), a table of seven bandwidths and an
oversampling of 2. -/
def sampleModEnv : ModEnv :=
  { World := SampleWorld
    initWorld :=
      { fifoData := [], fifoHead := 0, fifoFill := 0, basebandSampleRate := 0,
        channelSampleRate := 0, channelFrequencyOffset := 0, sourceChannel := (0, 0, 0),
        sourceSettings := none, symbols := [], produced := 0 }
    defaultSettings := { m_inputFrequencyOffset := 0, m_bandwidthIndex := 5, m_others := [] }
    bandwidths := fun i => [7813, 15625, 31250, 62500, 125000, 250000, 500000].getD i.toNat 0
    oversampling := 2
    getSizePolicy := fun rate => (rate % 4294967296).toNat / 100 * 64
    fifoResize := SampleWorld.resize
    fifoReset := SampleWorld.reset
    fifoRead := SampleWorld.read
    fifoWrite := SampleWorld.write
    fifoRemainder := SampleWorld.remainder
    fifoData := fun w => w.fifoData
    setChannelization := SampleWorld.setChannelization
    setBasebandSampleRate := SampleWorld.setBasebandSampleRate
    getChannelSampleRate := fun w => w.channelSampleRate
    getChannelFrequencyOffset := fun w => w.channelFrequencyOffset
    channelizerPull := SampleWorld.channelizerPull
    sourceApplyChannelSettings := fun r b o w => { w with sourceChannel := (r, b, o) }
    sourceApplySettings := fun s f w => { w with sourceSettings := some (s, f) }
    setSymbols := fun p w => { w with symbols := p }
    getLevels := fun w => w }

/-- A world with a FIFO of 6 slots holding 4 unread samples from slot 4 on
(they wrap around the end of the backing store). -/
def wrappedWorld : SampleWorld :=
  { sampleModEnv.initWorld with
    fifoData := [(10, 0), (11, 0), (12, 0), (13, 0), (14, 0), (15, 0)]
    fifoHead := 4
    fifoFill := 4 }

/-- A modulator over `wrappedWorld` with no pending message. -/
def wrappedBaseband : LoRaModBaseband SampleWorld :=
  { m_world := wrappedWorld
    m_settings := sampleModEnv.defaultSettings
    m_inputMessageQueue := []
    m_trace := [] }

/-- A freshly constructed modulator after a rate-change notification of
48000 samples per second. -/
def tunedBaseband : LoRaModBaseband SampleWorld :=
  (LoRaModBaseband.handleMessage sampleModEnv (LoRaModBaseband.create sampleModEnv)
    (Message.DSPSignalNotification 48000 0)).2

/-- Settings with another bandwidth index and frequency offset. -/
def otherSettings : LoRaModSettings :=
  { m_inputFrequencyOffset := 10000, m_bandwidthIndex := 4, m_others := [7] }

/-- Three pending messages: a configuration, a message of an unknown class
and a payload. -/
def sampleQueue : List Message :=
  [Message.MsgConfigureLoRaModBaseband otherSettings false, Message.other 42,
    Message.MsgConfigureLoRaModPayload [1, 2, 3]]

/-- A GUI state with the Rx side selected, the sample rate dial showing the
device rate, no transverter and the update timer idle. -/
def sampleGui : BladeRF2MIMOGui :=
  { m_settings :=
      { m_devSampleRate := 3072000, m_log2Decim := 0, m_log2Interp := 0,
        m_rxCenterFrequency := 435000000, m_txCenterFrequency := 435000000,
        m_rxTransverterMode := false, m_rxTransverterDeltaFrequency := 0,
        m_txTransverterMode := false, m_txTransverterDeltaFrequency := 0, m_others := [] }
    m_rxElseTx := true
    m_streamIndex := 0
    m_spectrumRxElseTx := true
    m_spectrumStreamIndex := 0
    m_sampleRateMode := true
    m_doApplySettings := true
    m_forceSettings := true
    m_updateTimerActive := false
    m_rxBasebandSampleRate := 3072000
    m_txBasebandSampleRate := 3072000
    m_rxDeviceCenterFrequency := 435000
    m_txDeviceCenterFrequency := 435000
    m_inputMessageQueue := []
    m_trace := [] }

/-- A GUI environment with the frequency ranges of a BladeRF2 (Rx from 70 MHz,
Tx from 47 MHz, both up to 6 GHz) and a dial that shows the device sample
rate. -/
def sampleGuiEnv : GuiEnv :=
  { getValueNew := fun g => g.m_settings.m_devSampleRate.toNat
    rxFrequencyRange := (70000000, 6000000000)
    txFrequencyRange := (47000000, 6000000000) }

/-- The modulator over a FIFO of 6 slots, all writable, with the write cursor
at slot 4. -/
def drainedBaseband : LoRaModBaseband SampleWorld :=
  { wrappedBaseband with m_world := { wrappedWorld with fifoFill := 0 } }

/-- Three pending GUI messages: a notification, a message of an unknown class
and a configuration. -/
def sampleGuiQueue : List Message :=
  [Message.DSPMIMOSignalNotification 1536000 868000000 true 0, Message.other 42,
    Message.MsgConfigureBladeRF2MIMO sampleGui.m_settings false]

end SDRangel

namespace SDRangel

/-! ## The analog TV screen (`sdrgui/gui/tvscreenanalog.cpp`) -/

/-- A `QImage` of format ARGB32: `width * height` pixels of 32 bits stored row
by row without padding. `id` names the allocation that holds the pixels, so
that a pointer into an image that has been replaced can be told apart from a
pointer into the current one. An image created with a width or height that is
not positive is a null image, of width 0 and height 0. -/
structure QImage where
  id : Nat
  width : Nat
  height : Nat
  pixels : List Int
  deriving DecidableEq, Repr

namespace QImage

/-- Constructor `QImage(width, height, format)` followed by `fill(pixel)`. -/
def create (id : Nat) (width height : Int) (pixel : Int) : QImage :=
  if width ≤ 0 ∨ height ≤ 0 then { id := id, width := 0, height := 0, pixels := [] }
  else
    { id := id, width := width.toNat, height := height.toNat,
      pixels := List.replicate (width.toNat * height.toNat) pixel }

/-- Method `setPixel(x, y, index_or_rgb)`: coordinates outside the image are
ignored. -/
def setPixel (img : QImage) (x y : Int) (v : Int) : QImage :=
  if 0 ≤ x ∧ x < img.width ∧ 0 ≤ y ∧ y < img.height then
    { img with pixels := img.pixels.set (y.toNat * img.width + x.toNat) v }
  else img

/-- Pixel of column `x` in row `y`. -/
def pixel (img : QImage) (x y : Nat) : Option Int :=
  if x < img.width ∧ y < img.height then img.pixels.get? (y * img.width + x) else none

end QImage

/-- The value of `(int*) image->scanLine(line)`: a pointer to the first pixel
of row `line` in the allocation `image`. -/
structure RowPointer where
  image : Nat
  line : Nat
  deriving DecidableEq, Repr

/-- State of a `TVScreenAnalog` that the four methods below read or write.
`m_allocations` counts the images created so far and gives the next one its
`id`. The textures, the shader and the mutex are left out. -/
structure TVScreenAnalog where
  m_cols : Int
  m_rows : Int
  m_image : Option QImage
  m_lineShifts : Option QImage
  m_objCurrentRow : Option RowPointer
  m_isDataChanged : Bool
  m_allocations : Nat
  deriving DecidableEq, Repr

namespace TVScreenAnalog

/-- Constructor `TVScreenAnalog(parent)`. -/
def create : TVScreenAnalog :=
  { m_cols := 1, m_rows := 1, m_image := none, m_lineShifts := none, m_objCurrentRow := none,
    m_isDataChanged := false, m_allocations := 0 }

/-- Method `resizeTVScreen(intCols, intRows)`, for `intCols + 4` in the range
of `int`. -/
def resizeTVScreen (tv : TVScreenAnalog) (intCols intRows : Int) : TVScreenAnalog :=
  { tv with m_cols := intCols + 4, m_rows := intRows }

/-- Method `initializeTextures()`: the two images are replaced by new ones of
the current size; the images they replace are destroyed. -/
def initializeTextures (tv : TVScreenAnalog) : TVScreenAnalog :=
  { tv with
    m_image := some (QImage.create tv.m_allocations tv.m_cols tv.m_rows 0),
    m_lineShifts := some (QImage.create (tv.m_allocations + 1) 1 tv.m_rows 127),
    m_allocations := tv.m_allocations + 2 }

/-- Method `selectRow(intLine, shift)`. `shiftPixel` is the value of
`(1.0f + shift) * 127.5f` converted to a pixel. -/
def selectRow (tv : TVScreenAnalog) (intLine : Int) (shiftPixel : Int) : TVScreenAnalog :=
  match tv.m_image with
  | none => tv
  | some img =>
    if (img.height : Int) ≠ tv.m_rows then tv
    else if intLine < tv.m_rows ∧ intLine ≥ 0 then
      { tv with
        m_objCurrentRow := some { image := img.id, line := intLine.toNat },
        m_lineShifts := tv.m_lineShifts.map (fun l => l.setPixel 0 intLine shiftPixel) }
    else { tv with m_objCurrentRow := none }

/-- Method `setDataColor(intCol, objColor)`. The store
`m_objCurrentRow[intCol + 2] = objColor` writes the pixel `intCol + 2` places
after the first pixel of the selected row. The result is `none` when that
place is outside the pixels of the image the row pointer was taken from, or
when that image has been replaced since. -/
def setDataColor (tv : TVScreenAnalog) (intCol objColor : Int) : Option TVScreenAnalog :=
  if intCol < tv.m_cols - 2 ∧ intCol ≥ -2 then
    match tv.m_objCurrentRow with
    | none => some tv
    | some row =>
      match tv.m_image with
      | none => none
      | some img =>
        if row.image = img.id
            ∧ row.line * img.width + (intCol + 2).toNat < img.pixels.length then
          some { tv with
            m_image := some { img with
              pixels := img.pixels.set (row.line * img.width + (intCol + 2).toNat) objColor } }
        else none
  else some tv

end TVScreenAnalog

/-- A screen of 4 columns and 3 rows (an image 8 pixels wide) after its
textures have been initialised. -/
def sampleScreen : TVScreenAnalog :=
  TVScreenAnalog.initializeTextures (TVScreenAnalog.resizeTVScreen TVScreenAnalog.create 4 3)

/-- The screen `sampleScreen` after `resizeTVScreen(12, 3)`: the image has not
been replaced yet. -/
def widenedScreen : TVScreenAnalog :=
  TVScreenAnalog.resizeTVScreen sampleScreen 12 3

end SDRangel

namespace SDRangel

/-! ## The settings object of the Metis MISO device in the REST API client
(`swagger/sdrangel/code/qt5/client/SWGMetisMISOSettings.cpp`) -/

/-- A `QJsonValue` holding a number or a string. -/
inductive QJsonValue where
  | int (v : Int)
  | string (v : String)
  deriving DecidableEq, Repr

/-- A `QJsonObject`: the list of its keys with their values. -/
abbrev QJsonObject := List (String × QJsonValue)

namespace QJsonObject

/-- Method `insert(key, value)`: a value already stored for the key is replaced. -/
def insert (obj : QJsonObject) (key : String) (value : QJsonValue) : QJsonObject :=
  obj.filter (fun e => e.1 ≠ key) ++ [(key, value)]

/-- Method `keys()`. -/
def keys (obj : QJsonObject) : List String :=
  obj.map Prod.fst

end QJsonObject

/-- The helper of `SWGHelpers.h` that `asJsonObject` calls:
`toJsonValue(name, value, output, type)`, here for a value of type `QString*`. -/
structure SWGEnv where
  toJsonValue : String → Option String → QJsonObject → String → QJsonObject

/-- The members of a `SWGMetisMISOSettings`; `reverse_api_address` is a
`QString*`, `none` being the null pointer. -/
structure SWGMetisMISOSettings where
  nb_receivers : Int
  m_nb_receivers_isSet : Bool
  tx_enable : Int
  m_tx_enable_isSet : Bool
  rx1_center_frequency : Int
  m_rx1_center_frequency_isSet : Bool
  rx2_center_frequency : Int
  m_rx2_center_frequency_isSet : Bool
  rx3_center_frequency : Int
  m_rx3_center_frequency_isSet : Bool
  rx4_center_frequency : Int
  m_rx4_center_frequency_isSet : Bool
  rx5_center_frequency : Int
  m_rx5_center_frequency_isSet : Bool
  rx6_center_frequency : Int
  m_rx6_center_frequency_isSet : Bool
  rx7_center_frequency : Int
  m_rx7_center_frequency_isSet : Bool
  rx8_center_frequency : Int
  m_rx8_center_frequency_isSet : Bool
  tx_center_frequency : Int
  m_tx_center_frequency_isSet : Bool
  sample_rate_index : Int
  m_sample_rate_index_isSet : Bool
  log2_decim : Int
  m_log2_decim_isSet : Bool
  preamp : Int
  m_preamp_isSet : Bool
  random : Int
  m_random_isSet : Bool
  dither : Int
  m_dither_isSet : Bool
  duplex : Int
  m_duplex_isSet : Bool
  dc_block : Int
  m_dc_block_isSet : Bool
  iq_correction : Int
  m_iq_correction_isSet : Bool
  tx_drive : Int
  m_tx_drive_isSet : Bool
  use_reverse_api : Int
  m_use_reverse_api_isSet : Bool
  reverse_api_address : Option String
  m_reverse_api_address_isSet : Bool
  reverse_api_port : Int
  m_reverse_api_port_isSet : Bool
  reverse_api_device_index : Int
  m_reverse_api_device_index_isSet : Bool

namespace SWGMetisMISOSettings

/-- Constructor `SWGMetisMISOSettings()`. -/
def create : SWGMetisMISOSettings :=
  { nb_receivers := 0,
    m_nb_receivers_isSet := false,
    tx_enable := 0,
    m_tx_enable_isSet := false,
    rx1_center_frequency := 0,
    m_rx1_center_frequency_isSet := false,
    rx2_center_frequency := 0,
    m_rx2_center_frequency_isSet := false,
    rx3_center_frequency := 0,
    m_rx3_center_frequency_isSet := false,
    rx4_center_frequency := 0,
    m_rx4_center_frequency_isSet := false,
    rx5_center_frequency := 0,
    m_rx5_center_frequency_isSet := false,
    rx6_center_frequency := 0,
    m_rx6_center_frequency_isSet := false,
    rx7_center_frequency := 0,
    m_rx7_center_frequency_isSet := false,
    rx8_center_frequency := 0,
    m_rx8_center_frequency_isSet := false,
    tx_center_frequency := 0,
    m_tx_center_frequency_isSet := false,
    sample_rate_index := 0,
    m_sample_rate_index_isSet := false,
    log2_decim := 0,
    m_log2_decim_isSet := false,
    preamp := 0,
    m_preamp_isSet := false,
    random := 0,
    m_random_isSet := false,
    dither := 0,
    m_dither_isSet := false,
    duplex := 0,
    m_duplex_isSet := false,
    dc_block := 0,
    m_dc_block_isSet := false,
    iq_correction := 0,
    m_iq_correction_isSet := false,
    tx_drive := 0,
    m_tx_drive_isSet := false,
    use_reverse_api := 0,
    m_use_reverse_api_isSet := false,
    reverse_api_address := none,
    m_reverse_api_address_isSet := false,
    reverse_api_port := 0,
    m_reverse_api_port_isSet := false,
    reverse_api_device_index := 0,
    m_reverse_api_device_index_isSet := false }

/-- Method `init()`: every member is assigned, whatever the object held. -/
def init (s : SWGMetisMISOSettings) : SWGMetisMISOSettings :=
  { nb_receivers := 0,
    m_nb_receivers_isSet := false,
    tx_enable := 0,
    m_tx_enable_isSet := false,
    rx1_center_frequency := 0,
    m_rx1_center_frequency_isSet := false,
    rx2_center_frequency := 0,
    m_rx2_center_frequency_isSet := false,
    rx3_center_frequency := 0,
    m_rx3_center_frequency_isSet := false,
    rx4_center_frequency := 0,
    m_rx4_center_frequency_isSet := false,
    rx5_center_frequency := 0,
    m_rx5_center_frequency_isSet := false,
    rx6_center_frequency := 0,
    m_rx6_center_frequency_isSet := false,
    rx7_center_frequency := 0,
    m_rx7_center_frequency_isSet := false,
    rx8_center_frequency := 0,
    m_rx8_center_frequency_isSet := false,
    tx_center_frequency := 0,
    m_tx_center_frequency_isSet := false,
    sample_rate_index := 0,
    m_sample_rate_index_isSet := false,
    log2_decim := 0,
    m_log2_decim_isSet := false,
    preamp := 0,
    m_preamp_isSet := false,
    random := 0,
    m_random_isSet := false,
    dither := 0,
    m_dither_isSet := false,
    duplex := 0,
    m_duplex_isSet := false,
    dc_block := 0,
    m_dc_block_isSet := false,
    iq_correction := 0,
    m_iq_correction_isSet := false,
    tx_drive := 0,
    m_tx_drive_isSet := false,
    use_reverse_api := 0,
    m_use_reverse_api_isSet := false,
    reverse_api_address := some "",
    m_reverse_api_address_isSet := false,
    reverse_api_port := 0,
    m_reverse_api_port_isSet := false,
    reverse_api_device_index := 0,
    m_reverse_api_device_index_isSet := false }

/-- Method `setNbReceivers(nb_receivers)`. -/
def setNbReceivers (s : SWGMetisMISOSettings) (nb_receivers : Int) : SWGMetisMISOSettings :=
  { s with nb_receivers := nb_receivers, m_nb_receivers_isSet := true }

/-- Method `setTxEnable(tx_enable)`. -/
def setTxEnable (s : SWGMetisMISOSettings) (tx_enable : Int) : SWGMetisMISOSettings :=
  { s with tx_enable := tx_enable, m_tx_enable_isSet := true }

/-- Method `setRx1CenterFrequency(rx1_center_frequency)`. -/
def setRx1CenterFrequency (s : SWGMetisMISOSettings) (rx1_center_frequency : Int) : SWGMetisMISOSettings :=
  { s with rx1_center_frequency := rx1_center_frequency, m_rx1_center_frequency_isSet := true }

/-- Method `setRx2CenterFrequency(rx2_center_frequency)`. -/
def setRx2CenterFrequency (s : SWGMetisMISOSettings) (rx2_center_frequency : Int) : SWGMetisMISOSettings :=
  { s with rx2_center_frequency := rx2_center_frequency, m_rx2_center_frequency_isSet := true }

/-- Method `setRx3CenterFrequency(rx3_center_frequency)`. -/
def setRx3CenterFrequency (s : SWGMetisMISOSettings) (rx3_center_frequency : Int) : SWGMetisMISOSettings :=
  { s with rx3_center_frequency := rx3_center_frequency, m_rx3_center_frequency_isSet := true }

/-- Method `setRx4CenterFrequency(rx4_center_frequency)`. -/
def setRx4CenterFrequency (s : SWGMetisMISOSettings) (rx4_center_frequency : Int) : SWGMetisMISOSettings :=
  { s with rx4_center_frequency := rx4_center_frequency, m_rx4_center_frequency_isSet := true }

/-- Method `setRx5CenterFrequency(rx5_center_frequency)`. -/
def setRx5CenterFrequency (s : SWGMetisMISOSettings) (rx5_center_frequency : Int) : SWGMetisMISOSettings :=
  { s with rx5_center_frequency := rx5_center_frequency, m_rx5_center_frequency_isSet := true }

/-- Method `setRx6CenterFrequency(rx6_center_frequency)`. -/
def setRx6CenterFrequency (s : SWGMetisMISOSettings) (rx6_center_frequency : Int) : SWGMetisMISOSettings :=
  { s with rx6_center_frequency := rx6_center_frequency, m_rx6_center_frequency_isSet := true }

/-- Method `setRx7CenterFrequency(rx7_center_frequency)`. -/
def setRx7CenterFrequency (s : SWGMetisMISOSettings) (rx7_center_frequency : Int) : SWGMetisMISOSettings :=
  { s with rx7_center_frequency := rx7_center_frequency, m_rx7_center_frequency_isSet := true }

/-- Method `setRx8CenterFrequency(rx8_center_frequency)`. -/
def setRx8CenterFrequency (s : SWGMetisMISOSettings) (rx8_center_frequency : Int) : SWGMetisMISOSettings :=
  { s with rx8_center_frequency := rx8_center_frequency, m_rx8_center_frequency_isSet := true }

/-- Method `setTxCenterFrequency(tx_center_frequency)`. -/
def setTxCenterFrequency (s : SWGMetisMISOSettings) (tx_center_frequency : Int) : SWGMetisMISOSettings :=
  { s with tx_center_frequency := tx_center_frequency, m_tx_center_frequency_isSet := true }

/-- Method `setSampleRateIndex(sample_rate_index)`. -/
def setSampleRateIndex (s : SWGMetisMISOSettings) (sample_rate_index : Int) : SWGMetisMISOSettings :=
  { s with sample_rate_index := sample_rate_index, m_sample_rate_index_isSet := true }

/-- Method `setLog2Decim(log2_decim)`. -/
def setLog2Decim (s : SWGMetisMISOSettings) (log2_decim : Int) : SWGMetisMISOSettings :=
  { s with log2_decim := log2_decim, m_log2_decim_isSet := true }

/-- Method `setPreamp(preamp)`. -/
def setPreamp (s : SWGMetisMISOSettings) (preamp : Int) : SWGMetisMISOSettings :=
  { s with preamp := preamp, m_preamp_isSet := true }

/-- Method `setRandom(random)`. -/
def setRandom (s : SWGMetisMISOSettings) (random : Int) : SWGMetisMISOSettings :=
  { s with random := random, m_random_isSet := true }

/-- Method `setDither(dither)`. -/
def setDither (s : SWGMetisMISOSettings) (dither : Int) : SWGMetisMISOSettings :=
  { s with dither := dither, m_dither_isSet := true }

/-- Method `setDuplex(duplex)`. -/
def setDuplex (s : SWGMetisMISOSettings) (duplex : Int) : SWGMetisMISOSettings :=
  { s with duplex := duplex, m_duplex_isSet := true }

/-- Method `setDcBlock(dc_block)`. -/
def setDcBlock (s : SWGMetisMISOSettings) (dc_block : Int) : SWGMetisMISOSettings :=
  { s with dc_block := dc_block, m_dc_block_isSet := true }

/-- Method `setIqCorrection(iq_correction)`. -/
def setIqCorrection (s : SWGMetisMISOSettings) (iq_correction : Int) : SWGMetisMISOSettings :=
  { s with iq_correction := iq_correction, m_iq_correction_isSet := true }

/-- Method `setTxDrive(tx_drive)`. -/
def setTxDrive (s : SWGMetisMISOSettings) (tx_drive : Int) : SWGMetisMISOSettings :=
  { s with tx_drive := tx_drive, m_tx_drive_isSet := true }

/-- Method `setUseReverseApi(use_reverse_api)`. -/
def setUseReverseApi (s : SWGMetisMISOSettings) (use_reverse_api : Int) : SWGMetisMISOSettings :=
  { s with use_reverse_api := use_reverse_api, m_use_reverse_api_isSet := true }

/-- Method `setReverseApiAddress(reverse_api_address)`. -/
def setReverseApiAddress (s : SWGMetisMISOSettings) (reverse_api_address : Option String) : SWGMetisMISOSettings :=
  { s with reverse_api_address := reverse_api_address, m_reverse_api_address_isSet := true }

/-- Method `setReverseApiPort(reverse_api_port)`. -/
def setReverseApiPort (s : SWGMetisMISOSettings) (reverse_api_port : Int) : SWGMetisMISOSettings :=
  { s with reverse_api_port := reverse_api_port, m_reverse_api_port_isSet := true }

/-- Method `setReverseApiDeviceIndex(reverse_api_device_index)`. -/
def setReverseApiDeviceIndex (s : SWGMetisMISOSettings) (reverse_api_device_index : Int) : SWGMetisMISOSettings :=
  { s with reverse_api_device_index := reverse_api_device_index, m_reverse_api_device_index_isSet := true }


/-- Method `asJsonObject()`. -/
def asJsonObject (env : SWGEnv) (s : SWGMetisMISOSettings) : QJsonObject :=
  let obj : QJsonObject := []
  let obj := if s.m_nb_receivers_isSet then
      obj.insert "nbReceivers" (QJsonValue.int s.nb_receivers) else obj
  let obj := if s.m_tx_enable_isSet then
      obj.insert "txEnable" (QJsonValue.int s.tx_enable) else obj
  let obj := if s.m_rx1_center_frequency_isSet then
      obj.insert "rx1CenterFrequency" (QJsonValue.int s.rx1_center_frequency) else obj
  let obj := if s.m_rx2_center_frequency_isSet then
      obj.insert "rx2CenterFrequency" (QJsonValue.int s.rx2_center_frequency) else obj
  let obj := if s.m_rx3_center_frequency_isSet then
      obj.insert "rx3CenterFrequency" (QJsonValue.int s.rx3_center_frequency) else obj
  let obj := if s.m_rx4_center_frequency_isSet then
      obj.insert "rx4CenterFrequency" (QJsonValue.int s.rx4_center_frequency) else obj
  let obj := if s.m_rx5_center_frequency_isSet then
      obj.insert "rx5CenterFrequency" (QJsonValue.int s.rx5_center_frequency) else obj
  let obj := if s.m_rx6_center_frequency_isSet then
      obj.insert "rx6CenterFrequency" (QJsonValue.int s.rx6_center_frequency) else obj
  let obj := if s.m_rx7_center_frequency_isSet then
      obj.insert "rx7CenterFrequency" (QJsonValue.int s.rx7_center_frequency) else obj
  let obj := if s.m_rx8_center_frequency_isSet then
      obj.insert "rx8CenterFrequency" (QJsonValue.int s.rx8_center_frequency) else obj
  let obj := if s.m_tx_center_frequency_isSet then
      obj.insert "txCenterFrequency" (QJsonValue.int s.tx_center_frequency) else obj
  let obj := if s.m_sample_rate_index_isSet then
      obj.insert "sampleRateIndex" (QJsonValue.int s.sample_rate_index) else obj
  let obj := if s.m_log2_decim_isSet then
      obj.insert "log2Decim" (QJsonValue.int s.log2_decim) else obj
  let obj := if s.m_preamp_isSet then
      obj.insert "preamp" (QJsonValue.int s.preamp) else obj
  let obj := if s.m_random_isSet then
      obj.insert "random" (QJsonValue.int s.random) else obj
  let obj := if s.m_dither_isSet then
      obj.insert "dither" (QJsonValue.int s.dither) else obj
  let obj := if s.m_duplex_isSet then
      obj.insert "duplex" (QJsonValue.int s.duplex) else obj
  let obj := if s.m_dc_block_isSet then
      obj.insert "dcBlock" (QJsonValue.int s.dc_block) else obj
  let obj := if s.m_iq_correction_isSet then
      obj.insert "iqCorrection" (QJsonValue.int s.iq_correction) else obj
  let obj := if s.m_tx_drive_isSet then
      obj.insert "txDrive" (QJsonValue.int s.tx_drive) else obj
  let obj := if s.m_use_reverse_api_isSet then
      obj.insert "useReverseAPI" (QJsonValue.int s.use_reverse_api) else obj
  let obj := if s.reverse_api_address ≠ none ∧ s.reverse_api_address ≠ some "" then
      env.toJsonValue "reverseAPIAddress" s.reverse_api_address obj "QString" else obj
  let obj := if s.m_reverse_api_port_isSet then
      obj.insert "reverseAPIPort" (QJsonValue.int s.reverse_api_port) else obj
  let obj := if s.m_reverse_api_device_index_isSet then
      obj.insert "reverseAPIDeviceIndex" (QJsonValue.int s.reverse_api_device_index) else obj
  obj

/-- Method `isSet()`. -/
def isSet (s : SWGMetisMISOSettings) : Bool :=
  if s.m_nb_receivers_isSet then true
  else if s.m_tx_enable_isSet then true
  else if s.m_rx1_center_frequency_isSet then true
  else if s.m_rx2_center_frequency_isSet then true
  else if s.m_rx3_center_frequency_isSet then true
  else if s.m_rx4_center_frequency_isSet then true
  else if s.m_rx5_center_frequency_isSet then true
  else if s.m_rx6_center_frequency_isSet then true
  else if s.m_rx7_center_frequency_isSet then true
  else if s.m_rx8_center_frequency_isSet then true
  else if s.m_tx_center_frequency_isSet then true
  else if s.m_sample_rate_index_isSet then true
  else if s.m_log2_decim_isSet then true
  else if s.m_preamp_isSet then true
  else if s.m_random_isSet then true
  else if s.m_dither_isSet then true
  else if s.m_duplex_isSet then true
  else if s.m_dc_block_isSet then true
  else if s.m_iq_correction_isSet then true
  else if s.m_tx_drive_isSet then true
  else if s.m_use_reverse_api_isSet then true
  else if s.reverse_api_address ≠ none ∧ s.reverse_api_address ≠ some "" then true
  else if s.m_reverse_api_port_isSet then true
  else if s.m_reverse_api_device_index_isSet then true
  else false

/-- The members of the object. -/
inductive Field where
  | nb_receivers
  | tx_enable
  | rx1_center_frequency
  | rx2_center_frequency
  | rx3_center_frequency
  | rx4_center_frequency
  | rx5_center_frequency
  | rx6_center_frequency
  | rx7_center_frequency
  | rx8_center_frequency
  | tx_center_frequency
  | sample_rate_index
  | log2_decim
  | preamp
  | random
  | dither
  | duplex
  | dc_block
  | iq_correction
  | tx_drive
  | use_reverse_api
  | reverse_api_address
  | reverse_api_port
  | reverse_api_device_index
  deriving DecidableEq, Repr

/-- The key of a member in the JSON object. -/
def Field.key : Field → String
  | .nb_receivers => "nbReceivers"
  | .tx_enable => "txEnable"
  | .rx1_center_frequency => "rx1CenterFrequency"
  | .rx2_center_frequency => "rx2CenterFrequency"
  | .rx3_center_frequency => "rx3CenterFrequency"
  | .rx4_center_frequency => "rx4CenterFrequency"
  | .rx5_center_frequency => "rx5CenterFrequency"
  | .rx6_center_frequency => "rx6CenterFrequency"
  | .rx7_center_frequency => "rx7CenterFrequency"
  | .rx8_center_frequency => "rx8CenterFrequency"
  | .tx_center_frequency => "txCenterFrequency"
  | .sample_rate_index => "sampleRateIndex"
  | .log2_decim => "log2Decim"
  | .preamp => "preamp"
  | .random => "random"
  | .dither => "dither"
  | .duplex => "duplex"
  | .dc_block => "dcBlock"
  | .iq_correction => "iqCorrection"
  | .tx_drive => "txDrive"
  | .use_reverse_api => "useReverseAPI"
  | .reverse_api_address => "reverseAPIAddress"
  | .reverse_api_port => "reverseAPIPort"
  | .reverse_api_device_index => "reverseAPIDeviceIndex"

/-- All the members, in the order of the source. -/
def Field.all : List Field :=
  [.nb_receivers, .tx_enable, .rx1_center_frequency,
   .rx2_center_frequency, .rx3_center_frequency, .rx4_center_frequency,
   .rx5_center_frequency, .rx6_center_frequency, .rx7_center_frequency,
   .rx8_center_frequency, .tx_center_frequency, .sample_rate_index,
   .log2_decim, .preamp, .random,
   .dither, .duplex, .dc_block,
   .iq_correction, .tx_drive, .use_reverse_api,
   .reverse_api_address, .reverse_api_port, .reverse_api_device_index]

/-- The flag `m_..._isSet` of a member. -/
def flag (s : SWGMetisMISOSettings) : Field → Bool
  | .nb_receivers => s.m_nb_receivers_isSet
  | .tx_enable => s.m_tx_enable_isSet
  | .rx1_center_frequency => s.m_rx1_center_frequency_isSet
  | .rx2_center_frequency => s.m_rx2_center_frequency_isSet
  | .rx3_center_frequency => s.m_rx3_center_frequency_isSet
  | .rx4_center_frequency => s.m_rx4_center_frequency_isSet
  | .rx5_center_frequency => s.m_rx5_center_frequency_isSet
  | .rx6_center_frequency => s.m_rx6_center_frequency_isSet
  | .rx7_center_frequency => s.m_rx7_center_frequency_isSet
  | .rx8_center_frequency => s.m_rx8_center_frequency_isSet
  | .tx_center_frequency => s.m_tx_center_frequency_isSet
  | .sample_rate_index => s.m_sample_rate_index_isSet
  | .log2_decim => s.m_log2_decim_isSet
  | .preamp => s.m_preamp_isSet
  | .random => s.m_random_isSet
  | .dither => s.m_dither_isSet
  | .duplex => s.m_duplex_isSet
  | .dc_block => s.m_dc_block_isSet
  | .iq_correction => s.m_iq_correction_isSet
  | .tx_drive => s.m_tx_drive_isSet
  | .use_reverse_api => s.m_use_reverse_api_isSet
  | .reverse_api_address => s.m_reverse_api_address_isSet
  | .reverse_api_port => s.m_reverse_api_port_isSet
  | .reverse_api_device_index => s.m_reverse_api_device_index_isSet

/-- A call of one of the setters, with its argument. -/
inductive Setter where
  | setNbReceivers (v : Int)
  | setTxEnable (v : Int)
  | setRx1CenterFrequency (v : Int)
  | setRx2CenterFrequency (v : Int)
  | setRx3CenterFrequency (v : Int)
  | setRx4CenterFrequency (v : Int)
  | setRx5CenterFrequency (v : Int)
  | setRx6CenterFrequency (v : Int)
  | setRx7CenterFrequency (v : Int)
  | setRx8CenterFrequency (v : Int)
  | setTxCenterFrequency (v : Int)
  | setSampleRateIndex (v : Int)
  | setLog2Decim (v : Int)
  | setPreamp (v : Int)
  | setRandom (v : Int)
  | setDither (v : Int)
  | setDuplex (v : Int)
  | setDcBlock (v : Int)
  | setIqCorrection (v : Int)
  | setTxDrive (v : Int)
  | setUseReverseApi (v : Int)
  | setReverseApiAddress (v : Option String)
  | setReverseApiPort (v : Int)
  | setReverseApiDeviceIndex (v : Int)
  deriving DecidableEq, Repr

/-- The member a setter assigns. -/
def Setter.field : Setter → Field
  | .setNbReceivers _ => .nb_receivers
  | .setTxEnable _ => .tx_enable
  | .setRx1CenterFrequency _ => .rx1_center_frequency
  | .setRx2CenterFrequency _ => .rx2_center_frequency
  | .setRx3CenterFrequency _ => .rx3_center_frequency
  | .setRx4CenterFrequency _ => .rx4_center_frequency
  | .setRx5CenterFrequency _ => .rx5_center_frequency
  | .setRx6CenterFrequency _ => .rx6_center_frequency
  | .setRx7CenterFrequency _ => .rx7_center_frequency
  | .setRx8CenterFrequency _ => .rx8_center_frequency
  | .setTxCenterFrequency _ => .tx_center_frequency
  | .setSampleRateIndex _ => .sample_rate_index
  | .setLog2Decim _ => .log2_decim
  | .setPreamp _ => .preamp
  | .setRandom _ => .random
  | .setDither _ => .dither
  | .setDuplex _ => .duplex
  | .setDcBlock _ => .dc_block
  | .setIqCorrection _ => .iq_correction
  | .setTxDrive _ => .tx_drive
  | .setUseReverseApi _ => .use_reverse_api
  | .setReverseApiAddress _ => .reverse_api_address
  | .setReverseApiPort _ => .reverse_api_port
  | .setReverseApiDeviceIndex _ => .reverse_api_device_index

/-- The call of a setter on an object. -/
def Setter.apply (s : SWGMetisMISOSettings) : Setter → SWGMetisMISOSettings
  | .setNbReceivers v => SWGMetisMISOSettings.setNbReceivers s v
  | .setTxEnable v => SWGMetisMISOSettings.setTxEnable s v
  | .setRx1CenterFrequency v => SWGMetisMISOSettings.setRx1CenterFrequency s v
  | .setRx2CenterFrequency v => SWGMetisMISOSettings.setRx2CenterFrequency s v
  | .setRx3CenterFrequency v => SWGMetisMISOSettings.setRx3CenterFrequency s v
  | .setRx4CenterFrequency v => SWGMetisMISOSettings.setRx4CenterFrequency s v
  | .setRx5CenterFrequency v => SWGMetisMISOSettings.setRx5CenterFrequency s v
  | .setRx6CenterFrequency v => SWGMetisMISOSettings.setRx6CenterFrequency s v
  | .setRx7CenterFrequency v => SWGMetisMISOSettings.setRx7CenterFrequency s v
  | .setRx8CenterFrequency v => SWGMetisMISOSettings.setRx8CenterFrequency s v
  | .setTxCenterFrequency v => SWGMetisMISOSettings.setTxCenterFrequency s v
  | .setSampleRateIndex v => SWGMetisMISOSettings.setSampleRateIndex s v
  | .setLog2Decim v => SWGMetisMISOSettings.setLog2Decim s v
  | .setPreamp v => SWGMetisMISOSettings.setPreamp s v
  | .setRandom v => SWGMetisMISOSettings.setRandom s v
  | .setDither v => SWGMetisMISOSettings.setDither s v
  | .setDuplex v => SWGMetisMISOSettings.setDuplex s v
  | .setDcBlock v => SWGMetisMISOSettings.setDcBlock s v
  | .setIqCorrection v => SWGMetisMISOSettings.setIqCorrection s v
  | .setTxDrive v => SWGMetisMISOSettings.setTxDrive s v
  | .setUseReverseApi v => SWGMetisMISOSettings.setUseReverseApi s v
  | .setReverseApiAddress v => SWGMetisMISOSettings.setReverseApiAddress s v
  | .setReverseApiPort v => SWGMetisMISOSettings.setReverseApiPort s v
  | .setReverseApiDeviceIndex v => SWGMetisMISOSettings.setReverseApiDeviceIndex s v

/-- The object after a sequence of setter calls. -/
def applyAll (s : SWGMetisMISOSettings) (setters : List Setter) : SWGMetisMISOSettings :=
  setters.foldl Setter.apply s

/-- The test that `asJsonObject` and `isSet` make for a member: the flag of
the member, and for `reverse_api_address` that the pointer is not null and the
string not empty. -/
def present (s : SWGMetisMISOSettings) (f : Field) : Bool :=
  if f = Field.reverse_api_address then
    decide (s.reverse_api_address ≠ none ∧ s.reverse_api_address ≠ some "")
  else flag s f

end SWGMetisMISOSettings

/-- A `toJsonValue` that stores the string under its name. -/
def sampleSWGEnv : SWGEnv :=
  { toJsonValue := fun name value output type =>
      match value with
      | some str => output.insert name (QJsonValue.string str)
      | none => output }

/-- Three setter calls: two members, one of them twice. -/
def sampleSetters : List SWGMetisMISOSettings.Setter :=
  [.setPreamp 1, .setTxDrive 7, .setPreamp 0]

end SDRangel


namespace SDRdaemon

/-! ## Sequences of calls on the frame buffer -/

namespace SDRdaemonBuffer

/-- A call of one of the two public methods that change the buffer. -/
inductive Call where
  | readMeta (array : List Nat)
  | writeData (array : List Nat)
deriving DecidableEq, Repr

/-- The state after one call; `none` when the call has no defined result. -/
def step (env : Env) (s : SDRdaemonBuffer) : Call → Option SDRdaemonBuffer
  | .readMeta array => (readMeta env s array).map Prod.snd
  | .writeData array => writeData env s array

/-- The states a buffer can be in: the constructed one, and every state a call
with a defined result leads to from such a state. -/
inductive Reachable (env : Env) : SDRdaemonBuffer → Prop
  | construct (blockSize : Nat) : Reachable env (create env blockSize)
  | call (s s' : SDRdaemonBuffer) (c : Call) :
      Reachable env s → step env s c = some s' → Reachable env s'

/-- Whether the call is a `writeData` that reaches `writeDataLZ4` and fills the
input buffer up to the declared compressed size, so that the frame is
checksummed and decompressed. -/
def frameCompletes (s : SDRdaemonBuffer) : Call → Bool
  | .readMeta _ => false
  | .writeData array =>
    s.m_sync && s.m_lz4 &&
      match lz4Accumulate s array with
      | some s1 => decide (s1.m_lz4InCount ≥ s1.m_lz4InSize)
      | none => false

end SDRdaemonBuffer

/-- The record of `sampleMeta` declaring 0 samples per block (frame size 0;
header checksum adjusted to 932). -/
def zeroRecord : List Nat :=
  packedRecord { sampleMeta with m_nbSamples := 0, m_crc := 932 } (leBytes 8 164)

end SDRdaemon

namespace SDRdaemon

/-! ## Theorems on `readMeta` -/

/-- Capacity of a fresh allocation. -/
theorem capacity_newBytes (n : Nat) : capacity (newBytes n) = n := by
  simp [capacity, newBytes]

/-- The arithmetic of `updateBufferSize` for a byte rate `R` below 2^31 and a
non-zero 32-bit frame size: no reduction modulo 2^32 takes effect, and the
allocated size is the least multiple of `f` above `R`. -/
theorem nbFrames_mul_frameSize (R f : Nat) (hR : R < 2147483648) (hf0 : f ≠ 0)
    (hf : f < 4294967296) :
    (R % 4294967296 / f + 1) % 4294967296 * f % 4294967296 = (R / f + 1) * f ∧
    R < (R / f + 1) * f ∧ (R / f + 1) * f ≤ R + f := by
  have h1 : R / f * f ≤ R := Nat.div_mul_le_self R f
  have h2 : R < f * (R / f + 1) := Nat.lt_mul_div_succ R (Nat.pos_of_ne_zero hf0)
  have h3 : (R / f + 1) * f = R / f * f + f := Nat.succ_mul _ _
  have h4 : R / f ≤ R := Nat.div_le_self R f
  have h5 : R / f = 0 ∨ f ≤ R / f * f := by
    rcases Nat.eq_zero_or_pos (R / f) with h | h
    · exact Or.inl h
    · exact Or.inr (Nat.le_mul_of_pos_left f h)
  rw [Nat.mul_comm] at h2
  have h6 : (R / f + 1) * f < 4294967296 := by
    rcases h5 with h | h
    · rw [h]; omega
    · omega
  rw [Nat.mod_eq_of_lt (by omega : R < 4294967296),
    Nat.mod_eq_of_lt (by omega : R / f + 1 < 4294967296), Nat.mod_eq_of_lt h6]
  exact ⟨rfl, h2, by omega⟩

namespace SDRdaemonBuffer

/-- A record whose stored header checksum differs from the computed one is
skipped: no field changes and the sync flag held before is returned. -/
theorem readMeta_of_crc_ne (env : Env) (s : SDRdaemonBuffer) (array : List Nat)
    (hlen : env.sizeofMetaData + 8 ≤ array.length)
    (hcrc : headerCRC env array ≠ (env.castMeta array).m_crc) :
    readMeta env s array = some (s.m_sync, s) := by
  unfold readMeta
  rw [if_neg (by omega)]
  simp only [if_neg hcrc]

/-- A record with a valid header checksum and another block size: only the
payload checksum, the stored record and the sync flag are written. -/
theorem readMeta_of_blockSize_ne (env : Env) (s : SDRdaemonBuffer) (array : List Nat)
    (hlen : env.sizeofMetaData + 8 ≤ array.length)
    (hcrc : headerCRC env array = (env.castMeta array).m_crc)
    (hbs : (env.castMeta array).m_blockSize ≠ s.m_blockSize) :
    readMeta env s array = some (false,
      { s with
        m_dataCRC := (array.drop env.sizeofMetaData).take 8
        m_currentMeta := env.castMeta array
        m_sync := false }) := by
  unfold readMeta
  rw [if_neg (by omega)]
  simp only [if_pos hcrc, if_neg hbs]

/-- Shape of the result for a record with a valid header checksum and the
configured block size: a result is the flag `true` with a Synced state that
holds the frame size of the record. -/
theorem readMeta_accept_some (env : Env) (s s' : SDRdaemonBuffer) (array : List Nat) (r : Bool)
    (hlen : env.sizeofMetaData + 8 ≤ array.length)
    (hcrc : headerCRC env array = (env.castMeta array).m_crc)
    (hbs : (env.castMeta array).m_blockSize = s.m_blockSize)
    (h : readMeta env s array = some (r, s')) :
    r = true ∧ s'.m_sync = true ∧ s'.m_frameSize = frameSizeOf (env.castMeta array) := by
  unfold readMeta at h
  rw [if_neg (by omega)] at h
  simp only [if_pos hcrc, if_pos hbs, Option.map_eq_some'] at h
  obtain ⟨s4, -, h4⟩ := h
  simp only [Prod.mk.injEq] at h4
  obtain ⟨h1, h2⟩ := h4
  subst h2
  exact ⟨h1.symm, rfl, rfl⟩

/-- A record with a valid header checksum and the configured block size has
no result exactly when its frame size is 0 and the previous one is not (the
division by zero of `updateBufferSize`). -/
theorem readMeta_accept_none (env : Env) (s : SDRdaemonBuffer) (array : List Nat)
    (hlen : env.sizeofMetaData + 8 ≤ array.length)
    (hcrc : headerCRC env array = (env.castMeta array).m_crc)
    (hbs : (env.castMeta array).m_blockSize = s.m_blockSize) :
    readMeta env s array = none ↔
      (frameSizeOf (env.castMeta array) = 0 ∧ s.m_frameSize ≠ 0) := by
  unfold readMeta
  rw [if_neg (by omega)]
  simp only [if_pos hcrc, if_pos hbs, Option.map_eq_none']
  have key : ∀ s2 : SDRdaemonBuffer, s2.m_frameSize = s.m_frameSize →
      ((if frameSizeOf (env.castMeta array) ≠ s2.m_frameSize then
          updateBufferSize s2 (frameSizeOf (env.castMeta array)) else some s2) = none ↔
        (frameSizeOf (env.castMeta array) = 0 ∧ s.m_frameSize ≠ 0)) := by
    intro s2 h2
    rw [h2]
    unfold updateBufferSize
    by_cases hf : frameSizeOf (env.castMeta array) = s.m_frameSize <;>
    by_cases h0 : frameSizeOf (env.castMeta array) = 0 <;>
    simp [hf, h0]
    all_goals omega
  apply key
  split_ifs <;> rfl

/-- Compression fields after a record with the compression flag is accepted:
the declared compressed size is stored, the fill count is 0, and the two LZ4
buffers are allocated anew (with `m_nbBytes` and `frameSize` bytes) only when
the frame size changes. -/
theorem readMeta_accept_lz4 (env : Env) (s s' : SDRdaemonBuffer) (array : List Nat) (r : Bool)
    (hlen : env.sizeofMetaData + 8 ≤ array.length)
    (hcrc : headerCRC env array = (env.castMeta array).m_crc)
    (hbs : (env.castMeta array).m_blockSize = s.m_blockSize)
    (hflag : (env.castMeta array).m_sampleBytes &&& 0x10 ≠ 0)
    (h : readMeta env s array = some (r, s')) :
    s'.m_lz4 = true ∧ s'.m_lz4InSize = (env.castMeta array).m_nbBytes ∧ s'.m_lz4InCount = 0 ∧
    (frameSizeOf (env.castMeta array) ≠ s.m_frameSize →
      s'.m_lz4InBuffer = newBytes (env.castMeta array).m_nbBytes ∧
      s'.m_lz4OutBuffer = newBytes (frameSizeOf (env.castMeta array))) ∧
    (frameSizeOf (env.castMeta array) = s.m_frameSize →
      s'.m_lz4InBuffer = s.m_lz4InBuffer ∧ s'.m_lz4OutBuffer = s.m_lz4OutBuffer) := by
  unfold readMeta at h
  rw [if_neg (by omega)] at h
  simp only [if_pos hcrc, if_pos hbs, if_pos hflag, Option.map_eq_some'] at h
  obtain ⟨s4, h3, h4⟩ := h
  simp only [Prod.mk.injEq] at h4
  obtain ⟨-, h2⟩ := h4
  subst h2
  by_cases hf : frameSizeOf (env.castMeta array) = s.m_frameSize
  · simp only [hf, ne_eq, not_true_eq_false, if_false, Option.some.injEq] at h3
    subst h3
    exact ⟨rfl, rfl, rfl, fun hne => absurd hf hne, fun _ => ⟨rfl, rfl⟩⟩
  · simp only [hf, ne_eq, not_false_eq_true, if_true, updateLZ4Sizes, updateBufferSize] at h3
    split_ifs at h3
    simp only [Option.some.injEq] at h3
    subst h3
    exact ⟨rfl, rfl, rfl, fun _ => ⟨rfl, rfl⟩, fun he => absurd he hf⟩

/-- Raw buffer after a record whose frame size differs from the previous one
is accepted: `nbFrames * frameSize` bytes, with `nbFrames` computed from the
sample rate and sample width held by the buffer; these two members are not
written. -/
theorem readMeta_accept_rawBuffer (env : Env) (s s' : SDRdaemonBuffer) (array : List Nat) (r : Bool)
    (hlen : env.sizeofMetaData + 8 ≤ array.length)
    (hcrc : headerCRC env array = (env.castMeta array).m_crc)
    (hbs : (env.castMeta array).m_blockSize = s.m_blockSize)
    (hf : frameSizeOf (env.castMeta array) ≠ s.m_frameSize)
    (h : readMeta env s array = some (r, s')) :
    s'.m_rawBuffer = newBytes
      (((s.m_sampleRate * 2 * s.m_sampleBytes) % 4294967296 / frameSizeOf (env.castMeta array) + 1)
        % 4294967296 * frameSizeOf (env.castMeta array) % 4294967296) ∧
    s'.m_sampleRate = s.m_sampleRate ∧ s'.m_sampleBytes = s.m_sampleBytes := by
  unfold readMeta at h
  rw [if_neg (by omega)] at h
  simp only [if_pos hcrc, if_pos hbs, Option.map_eq_some'] at h
  obtain ⟨s4, h3, h4⟩ := h
  simp only [Prod.mk.injEq] at h4
  obtain ⟨-, h2⟩ := h4
  subst h2
  by_cases hflag : (env.castMeta array).m_sampleBytes &&& 0x10 ≠ 0
  · simp only [hflag, hf, ne_eq, not_false_eq_true, if_true, updateLZ4Sizes, updateBufferSize] at h3
    split_ifs at h3
    simp only [Option.some.injEq] at h3
    subst h3
    simp
  · simp only [hflag, hf, ne_eq, not_false_eq_true, if_true, if_false, updateBufferSize] at h3
    split_ifs at h3
    simp only [Option.some.injEq] at h3
    subst h3
    simp

/-- Claim C1, as the code has it: a record whose stored header checksum
differs from the CRC64 computed over its first `sizeof(MetaData) - 8` bytes
changes no field of the buffer, and `readMeta` returns the sync flag held
before the call; an Unsynced buffer stays Unsynced and gets `false`. -/
theorem readMeta_crc_mismatch_unchanged (env : Env) (s : SDRdaemonBuffer) (array : List Nat)
    (hlen : env.sizeofMetaData + 8 ≤ array.length)
    (hcrc : headerCRC env array ≠ (env.castMeta array).m_crc) :
    readMeta env s array = some (s.m_sync, s) ∧
      (s.m_sync = false → ∃ s', readMeta env s array = some (false, s') ∧ s'.m_sync = false) := by
  have h := readMeta_of_crc_ne env s array hlen hcrc
  refine ⟨h, fun hs => ⟨s, ?_, hs⟩⟩
  rw [h, hs]

/-- Witness of C1 as amended: the corrupted record on a fresh buffer. -/
theorem readMeta_crc_mismatch_unchanged_witness :
    sampleEnv.sizeofMetaData + 8 ≤ corruptedRecord.length ∧
    headerCRC sampleEnv corruptedRecord ≠ (sampleEnv.castMeta corruptedRecord).m_crc ∧
    (readMeta sampleEnv (create sampleEnv 512) corruptedRecord
        = some ((create sampleEnv 512).m_sync, create sampleEnv 512) ∧
      ((create sampleEnv 512).m_sync = false →
        ∃ s', readMeta sampleEnv (create sampleEnv 512) corruptedRecord = some (false, s') ∧
          s'.m_sync = false)) :=
  ⟨by decide, by decide,
    readMeta_crc_mismatch_unchanged sampleEnv (create sampleEnv 512) corruptedRecord
      (by decide) (by decide)⟩

/-- Counterexample to C1 as stated: `sampleSynced` is the state reached from
construction by accepting `sampleRecord`; fed the record with a corrupted
header checksum, `readMeta` returns `true` and the buffer is still Synced. -/
theorem readMeta_crc_mismatch_stays_synced :
    readMeta sampleEnv (create sampleEnv 512) sampleRecord = some (true, sampleSynced) ∧
    sampleEnv.sizeofMetaData + 8 ≤ corruptedRecord.length ∧
    headerCRC sampleEnv corruptedRecord ≠ (sampleEnv.castMeta corruptedRecord).m_crc ∧
    readMeta sampleEnv sampleSynced corruptedRecord = some (true, sampleSynced) ∧
    sampleSynced.m_sync = true :=
  ⟨rfl, by decide, by decide,
    readMeta_of_crc_ne sampleEnv sampleSynced corruptedRecord (by decide) (by decide), rfl⟩

/-- Claim C2: for a record with a valid header checksum, whenever `readMeta`
has a result the returned value is the sync flag afterwards, and that flag is
true exactly when the declared block size equals the block size of the
buffer; the only call with no result is the division by a zero frame size
(block sizes equal, frame size 0, previous frame size not 0). -/
theorem readMeta_sync_iff_blockSize (env : Env) (s : SDRdaemonBuffer) (array : List Nat)
    (hlen : env.sizeofMetaData + 8 ≤ array.length)
    (hcrc : headerCRC env array = (env.castMeta array).m_crc) :
    (∀ r s', readMeta env s array = some (r, s') →
      r = s'.m_sync ∧ (s'.m_sync = true ↔ (env.castMeta array).m_blockSize = s.m_blockSize)) ∧
    (readMeta env s array = none ↔
      ((env.castMeta array).m_blockSize = s.m_blockSize ∧
        frameSizeOf (env.castMeta array) = 0 ∧ s.m_frameSize ≠ 0)) := by
  by_cases hbs : (env.castMeta array).m_blockSize = s.m_blockSize
  · refine ⟨fun r s' h => ?_, ?_⟩
    · obtain ⟨h1, h2, -⟩ := readMeta_accept_some env s s' array r hlen hcrc hbs h
      rw [h1, h2]
      exact ⟨rfl, fun _ => hbs, fun _ => rfl⟩
    · rw [readMeta_accept_none env s array hlen hcrc hbs]
      exact ⟨fun h => ⟨hbs, h⟩, fun h => h.2⟩
  · have h := readMeta_of_blockSize_ne env s array hlen hcrc hbs
    refine ⟨fun r s' h' => ?_, ?_⟩
    · rw [h] at h'
      simp only [Option.some.injEq, Prod.mk.injEq] at h'
      obtain ⟨h1, h2⟩ := h'
      subst h1 h2
      exact ⟨rfl, fun h3 => absurd h3 (by simp), fun h3 => absurd h3 hbs⟩
    · rw [h]
      exact ⟨fun h3 => absurd h3 (by simp), fun h3 => absurd h3.1 hbs⟩

/-- Witness of C2: the valid record declaring block size 1024 on a Synced
buffer built for block size 512. -/
theorem readMeta_sync_iff_blockSize_witness :
    sampleEnv.sizeofMetaData + 8 ≤ otherBlockRecord.length ∧
    headerCRC sampleEnv otherBlockRecord = (sampleEnv.castMeta otherBlockRecord).m_crc ∧
    ((∀ r s', readMeta sampleEnv sampleSynced otherBlockRecord = some (r, s') →
      r = s'.m_sync ∧
        (s'.m_sync = true ↔
          (sampleEnv.castMeta otherBlockRecord).m_blockSize = sampleSynced.m_blockSize)) ∧
    (readMeta sampleEnv sampleSynced otherBlockRecord = none ↔
      ((sampleEnv.castMeta otherBlockRecord).m_blockSize = sampleSynced.m_blockSize ∧
        frameSizeOf (sampleEnv.castMeta otherBlockRecord) = 0 ∧ sampleSynced.m_frameSize ≠ 0))) :=
  ⟨by decide, by decide,
    readMeta_sync_iff_blockSize sampleEnv sampleSynced otherBlockRecord (by decide) (by decide)⟩


/-- Claim C3: a `readMeta` call that rejects its record (header checksum
mismatch, or valid checksum with another block size) has a result and leaves
`m_frameSize`, `m_lz4`, `m_lz4InSize`, `m_lz4InCount`, the raw buffer and both
LZ4 buffers as they were; a freshly constructed buffer fed a record with a
corrupted checksum stays Unsynced with all three buffers null. -/
theorem readMeta_reject_keeps_buffers (env : Env) (s : SDRdaemonBuffer) (array : List Nat)
    (blockSize : Nat)
    (hlen : env.sizeofMetaData + 8 ≤ array.length)
    (hrej : headerCRC env array ≠ (env.castMeta array).m_crc ∨
      (headerCRC env array = (env.castMeta array).m_crc ∧
        (env.castMeta array).m_blockSize ≠ s.m_blockSize)) :
    (∃ r s', readMeta env s array = some (r, s') ∧
      s'.m_frameSize = s.m_frameSize ∧ s'.m_lz4 = s.m_lz4 ∧
      s'.m_lz4InSize = s.m_lz4InSize ∧ s'.m_lz4InCount = s.m_lz4InCount ∧
      s'.m_rawBuffer = s.m_rawBuffer ∧ s'.m_lz4InBuffer = s.m_lz4InBuffer ∧
      s'.m_lz4OutBuffer = s.m_lz4OutBuffer) ∧
    (headerCRC env array ≠ (env.castMeta array).m_crc →
      ∃ s', readMeta env (create env blockSize) array = some (false, s') ∧
        s'.m_sync = false ∧ s'.m_rawBuffer = none ∧ s'.m_lz4InBuffer = none ∧
        s'.m_lz4OutBuffer = none) := by
  constructor
  · rcases hrej with hne | ⟨hcrc, hbs⟩
    · exact ⟨s.m_sync, s, readMeta_of_crc_ne env s array hlen hne,
        rfl, rfl, rfl, rfl, rfl, rfl, rfl⟩
    · exact ⟨false, _, readMeta_of_blockSize_ne env s array hlen hcrc hbs,
        rfl, rfl, rfl, rfl, rfl, rfl, rfl⟩
  · intro hne
    exact ⟨create env blockSize, readMeta_of_crc_ne env (create env blockSize) array hlen hne,
      rfl, rfl, rfl, rfl⟩

/-- Witness of C3: the record with a corrupted header checksum, on the Synced
sample state and on a fresh buffer. -/
theorem readMeta_reject_keeps_buffers_witness :
    sampleEnv.sizeofMetaData + 8 ≤ corruptedRecord.length ∧
    headerCRC sampleEnv corruptedRecord ≠ (sampleEnv.castMeta corruptedRecord).m_crc ∧
    (∃ r s', readMeta sampleEnv sampleSynced corruptedRecord = some (r, s') ∧
      s'.m_frameSize = sampleSynced.m_frameSize ∧ s'.m_lz4 = sampleSynced.m_lz4 ∧
      s'.m_lz4InSize = sampleSynced.m_lz4InSize ∧ s'.m_lz4InCount = sampleSynced.m_lz4InCount ∧
      s'.m_rawBuffer = sampleSynced.m_rawBuffer ∧ s'.m_lz4InBuffer = sampleSynced.m_lz4InBuffer ∧
      s'.m_lz4OutBuffer = sampleSynced.m_lz4OutBuffer) ∧
    (∃ s', readMeta sampleEnv (create sampleEnv 512) corruptedRecord = some (false, s') ∧
        s'.m_sync = false ∧ s'.m_rawBuffer = none ∧ s'.m_lz4InBuffer = none ∧
        s'.m_lz4OutBuffer = none) :=
  ⟨by decide, by decide,
    (readMeta_reject_keeps_buffers sampleEnv sampleSynced corruptedRecord 512 (by decide)
      (Or.inl (by decide))).1,
    (readMeta_reject_keeps_buffers sampleEnv sampleSynced corruptedRecord 512 (by decide)
      (Or.inl (by decide))).2 (by decide)⟩

/-- Claim C4: for a record with a valid header checksum and the configured
block size whose product `w * 2 * nbSamples * nbBlocks` (`w` the low 4 bits of
the packed sample-bytes field) is below 2^32, every result of `readMeta` is
`true` with `m_frameSize` equal to that product; and there is a result unless
the product is 0 while the previous frame size is not. -/
theorem readMeta_accept_frameSize (env : Env) (s : SDRdaemonBuffer) (array : List Nat)
    (hlen : env.sizeofMetaData + 8 ≤ array.length)
    (hcrc : headerCRC env array = (env.castMeta array).m_crc)
    (hbs : (env.castMeta array).m_blockSize = s.m_blockSize)
    (hprod : ((env.castMeta array).m_sampleBytes &&& 0x0F) * 2 * (env.castMeta array).m_nbSamples
      * (env.castMeta array).m_nbBlocks < 4294967296) :
    (∀ r s', readMeta env s array = some (r, s') →
      r = true ∧ s'.m_frameSize = ((env.castMeta array).m_sampleBytes &&& 0x0F) * 2
        * (env.castMeta array).m_nbSamples * (env.castMeta array).m_nbBlocks) ∧
    ((((env.castMeta array).m_sampleBytes &&& 0x0F) * 2 * (env.castMeta array).m_nbSamples
        * (env.castMeta array).m_nbBlocks ≠ 0 ∨ s.m_frameSize = 0) →
      ∃ s', readMeta env s array = some (true, s')) := by
  have hfs : frameSizeOf (env.castMeta array) = ((env.castMeta array).m_sampleBytes &&& 0x0F) * 2
      * (env.castMeta array).m_nbSamples * (env.castMeta array).m_nbBlocks := by
    unfold frameSizeOf
    exact Nat.mod_eq_of_lt hprod
  constructor
  · intro r s' h
    obtain ⟨h1, -, h3⟩ := readMeta_accept_some env s s' array r hlen hcrc hbs h
    exact ⟨h1, h3.trans hfs⟩
  · intro hdef
    have hnone := readMeta_accept_none env s array hlen hcrc hbs
    rw [hfs] at hnone
    cases hres : readMeta env s array with
    | none => exact absurd (hnone.mp hres) (by tauto)
    | some p =>
      obtain ⟨r, s'⟩ := p
      obtain ⟨h1, -, -⟩ := readMeta_accept_some env s s' array r hlen hcrc hbs hres
      exact ⟨s', by rw [h1]⟩

/-- Witness of C4: `sampleRecord` (2-byte samples, 2 samples per block, 1
block per frame) on a fresh buffer of block size 512. -/
theorem readMeta_accept_frameSize_witness :
    sampleEnv.sizeofMetaData + 8 ≤ sampleRecord.length ∧
    headerCRC sampleEnv sampleRecord = (sampleEnv.castMeta sampleRecord).m_crc ∧
    (sampleEnv.castMeta sampleRecord).m_blockSize = (create sampleEnv 512).m_blockSize ∧
    ((sampleEnv.castMeta sampleRecord).m_sampleBytes &&& 0x0F) * 2
      * (sampleEnv.castMeta sampleRecord).m_nbSamples
      * (sampleEnv.castMeta sampleRecord).m_nbBlocks = 8 ∧
    (∀ r s', readMeta sampleEnv (create sampleEnv 512) sampleRecord = some (r, s') →
      r = true ∧ s'.m_frameSize = ((sampleEnv.castMeta sampleRecord).m_sampleBytes &&& 0x0F) * 2
        * (sampleEnv.castMeta sampleRecord).m_nbSamples
        * (sampleEnv.castMeta sampleRecord).m_nbBlocks) ∧
    ∃ s', readMeta sampleEnv (create sampleEnv 512) sampleRecord = some (true, s') :=
  ⟨by decide, by decide, by decide, by decide,
    (readMeta_accept_frameSize sampleEnv (create sampleEnv 512) sampleRecord
      (by decide) (by decide) (by decide) (by decide)).1,
    (readMeta_accept_frameSize sampleEnv (create sampleEnv 512) sampleRecord
      (by decide) (by decide) (by decide) (by decide)).2 (Or.inl (by decide))⟩


/-- Claim C5 fails on the code. The 9-byte frame `sampleFrame` is written to
the Synced, compressed state `sampleSynced` as the two chunks `[128, 1, 2, 3]`
and `[4, 5, 6, 7, 8]`: the first call only advances `m_lz4InCount` to 4, the
second copies its 5 bytes at offset 4, and when the frame is checksummed the
input buffer holds `[0, 0, 0, 0, 4, 5, 6, 7, 8]`, not the concatenation of the
chunks; the checksum and the decoding fail. Written as one chunk, the same
frame is stored, checksummed and decoded with success. -/
theorem writeData_split_frame_drops_first_chunk :
    writeData sampleEnv sampleSynced [128, 1, 2, 3]
      = some { sampleSynced with m_lz4InCount := 4 } ∧
    lz4Accumulate { sampleSynced with m_lz4InCount := 4 } [4, 5, 6, 7, 8]
      = some { sampleSynced with
          m_lz4InCount := 9
          m_lz4InBuffer := some [0, 0, 0, 0, 4, 5, 6, 7, 8] } ∧
    [0, 0, 0, 0, 4, 5, 6, 7, 8] ≠ [128, 1, 2, 3] ++ [4, 5, 6, 7, 8] ∧
    writeData sampleEnv { sampleSynced with m_lz4InCount := 4 } [4, 5, 6, 7, 8]
      = some { sampleSynced with
          m_lz4InBuffer := some [0, 0, 0, 0, 4, 5, 6, 7, 8]
          m_nbDecodes := 1 } ∧
    writeData sampleEnv sampleSynced ([128, 1, 2, 3] ++ [4, 5, 6, 7, 8])
      = some { sampleSynced with
          m_lz4InBuffer := some [128, 1, 2, 3, 4, 5, 6, 7, 8]
          m_lz4OutBuffer := some [1, 2, 3, 4, 5, 6, 7, 8]
          m_nbDecodes := 1
          m_nbSuccessfulDecodes := 1
          m_nbCRCOK := 1 } :=
  ⟨rfl, rfl, by decide, rfl, rfl⟩

/-- Claim C6 fails on the code. Accepting `sampleRecord` (compression flag
set, frame size 8, 9 compressed bytes) on a fresh buffer allocates 9 bytes for
the compression input buffer, the declared compressed size, while
`LZ4_compressBound(8)` is 24. Accepting it after the uncompressed record
`plainRecord` of the same frame size allocates nothing: both LZ4 buffers are
still null. -/
theorem readMeta_lz4InBuffer_not_compressBound :
    readMeta sampleEnv (create sampleEnv 512) sampleRecord = some (true, sampleSynced) ∧
    (sampleEnv.castMeta sampleRecord).m_sampleBytes &&& 0x10 ≠ 0 ∧
    sampleSynced.m_frameSize = 8 ∧
    sampleSynced.m_lz4InBuffer = newBytes 9 ∧
    sampleEnv.LZ4_compressBound 8 = 24 ∧
    sampleSynced.m_lz4OutBuffer = newBytes 8 ∧
    readMeta sampleEnv (create sampleEnv 512) plainRecord = some (true, plainSynced) ∧
    readMeta sampleEnv plainSynced sampleRecord
      = some (true, { plainSynced with
          m_lz4 := true
          m_lz4InSize := 9
          m_currentMeta := sampleMeta }) ∧
    plainSynced.m_lz4InBuffer = none ∧ plainSynced.m_lz4OutBuffer = none :=
  ⟨rfl, by decide, rfl, rfl, by decide, rfl, rfl, rfl, rfl, rfl⟩

/-- Size of the raw buffer that `readMeta` does guarantee: when a record with
a valid header checksum, the configured block size and a non-zero frame size
different from the previous one is read, `readMeta` returns `true` and the raw
buffer holds more than `m_sampleRate * 2 * m_sampleBytes` bytes, one second of
samples at the rate and width held by the buffer itself (and at most one frame
more); `readMeta` does not write these two members. -/
theorem readMeta_rawBuffer_one_second (env : Env) (s : SDRdaemonBuffer) (array : List Nat)
    (hlen : env.sizeofMetaData + 8 ≤ array.length)
    (hcrc : headerCRC env array = (env.castMeta array).m_crc)
    (hbs : (env.castMeta array).m_blockSize = s.m_blockSize)
    (hf : frameSizeOf (env.castMeta array) ≠ s.m_frameSize)
    (h0 : frameSizeOf (env.castMeta array) ≠ 0)
    (hrate : s.m_sampleRate * 2 * s.m_sampleBytes < 2147483648) :
    ∃ s', readMeta env s array = some (true, s') ∧
      s.m_sampleRate * 2 * s.m_sampleBytes < capacity s'.m_rawBuffer ∧
      capacity s'.m_rawBuffer
        ≤ s.m_sampleRate * 2 * s.m_sampleBytes + frameSizeOf (env.castMeta array) ∧
      s'.m_sampleRate = s.m_sampleRate ∧ s'.m_sampleBytes = s.m_sampleBytes := by
  have hnone := readMeta_accept_none env s array hlen hcrc hbs
  cases hres : readMeta env s array with
  | none => exact absurd (hnone.mp hres).1 h0
  | some p =>
    obtain ⟨r, s'⟩ := p
    obtain ⟨h1, -, -⟩ := readMeta_accept_some env s s' array r hlen hcrc hbs hres
    obtain ⟨hraw, hsr, hsb⟩ := readMeta_accept_rawBuffer env s s' array r hlen hcrc hbs hf hres
    have hlt : frameSizeOf (env.castMeta array) < 4294967296 := by
      unfold frameSizeOf
      exact Nat.mod_lt _ (by decide)
    obtain ⟨e1, e2, e3⟩ := nbFrames_mul_frameSize (s.m_sampleRate * 2 * s.m_sampleBytes)
      (frameSizeOf (env.castMeta array)) hrate h0 hlt
    refine ⟨s', by rw [h1], ?_, ?_, hsr, hsb⟩
    · rw [hraw, capacity_newBytes, e1]
      exact e2
    · rw [hraw, capacity_newBytes, e1]
      exact e3

/-- Instance of `readMeta_rawBuffer_one_second`: `sampleRecord` on a fresh
buffer, which holds the rate 1000000 and the width 2. -/
theorem readMeta_rawBuffer_one_second_witness :
    sampleEnv.sizeofMetaData + 8 ≤ sampleRecord.length ∧
    headerCRC sampleEnv sampleRecord = (sampleEnv.castMeta sampleRecord).m_crc ∧
    (sampleEnv.castMeta sampleRecord).m_blockSize = (create sampleEnv 512).m_blockSize ∧
    frameSizeOf (sampleEnv.castMeta sampleRecord) ≠ (create sampleEnv 512).m_frameSize ∧
    frameSizeOf (sampleEnv.castMeta sampleRecord) ≠ 0 ∧
    (create sampleEnv 512).m_sampleRate * 2 * (create sampleEnv 512).m_sampleBytes = 4000000 ∧
    ∃ s', readMeta sampleEnv (create sampleEnv 512) sampleRecord = some (true, s') ∧
      (create sampleEnv 512).m_sampleRate * 2 * (create sampleEnv 512).m_sampleBytes
        < capacity s'.m_rawBuffer ∧
      capacity s'.m_rawBuffer
        ≤ (create sampleEnv 512).m_sampleRate * 2 * (create sampleEnv 512).m_sampleBytes
          + frameSizeOf (sampleEnv.castMeta sampleRecord) ∧
      s'.m_sampleRate = (create sampleEnv 512).m_sampleRate ∧
      s'.m_sampleBytes = (create sampleEnv 512).m_sampleBytes :=
  ⟨by decide, by decide, by decide, by decide, by decide, by decide,
    readMeta_rawBuffer_one_second sampleEnv (create sampleEnv 512) sampleRecord
      (by decide) (by decide) (by decide) (by decide) (by decide) (by decide)⟩

/-- Claim C7 fails on the code. `sampleRecord` declares 2000000 samples per
second of 2-byte samples, 8000000 bytes for one second; accepted on a fresh
buffer (previous frame size 0, new frame size 8) it leaves a raw buffer of
4000008 bytes, sized from the rate 1000000 and the width 2 that the
constructor stored. -/
theorem readMeta_rawBuffer_below_declared_rate :
    readMeta sampleEnv (create sampleEnv 512) sampleRecord = some (true, sampleSynced) ∧
    frameSizeOf (sampleEnv.castMeta sampleRecord) ≠ (create sampleEnv 512).m_frameSize ∧
    (sampleEnv.castMeta sampleRecord).m_sampleRate * 2
      * ((sampleEnv.castMeta sampleRecord).m_sampleBytes &&& 0x0F) = 8000000 ∧
    capacity sampleSynced.m_rawBuffer = 4000008 ∧
    ¬ ((sampleEnv.castMeta sampleRecord).m_sampleRate * 2
      * ((sampleEnv.castMeta sampleRecord).m_sampleBytes &&& 0x0F)
        ≤ capacity sampleSynced.m_rawBuffer) := by
  have hcap : capacity sampleSynced.m_rawBuffer = 4000008 := capacity_newBytes 4000008
  refine ⟨rfl, by decide, by decide, hcap, ?_⟩
  rw [hcap]
  decide

/-! ## The header checksum and the payload checksum -/

/-- The packed layout reads the 42 bytes of the record only. -/
theorem packedCast_take (a : List Nat) : packedCast a = packedCast (a.take 42) := by
  simp [packedCast, fieldAt, List.drop_take, List.take_take]

/-- The header checksum is computed from the bytes of the record only. -/
theorem headerCRC_congr (env : Env) (a1 a2 : List Nat)
    (hrec : a1.take env.sizeofMetaData = a2.take env.sizeofMetaData) :
    headerCRC env a1 = headerCRC env a2 := by
  unfold headerCRC
  have h : ∀ a : List Nat, a.take (env.sizeofMetaData - 8)
      = (a.take env.sizeofMetaData).take (env.sizeofMetaData - 8) := by
    intro a
    rw [List.take_take, Nat.min_eq_left (Nat.sub_le _ _)]
  rw [h a1, h a2, hrec]

/-- The state after `readMeta` depends on the array through the record it is
read as, its header checksum and the 8 bytes behind the record; the latter
only reach `m_dataCRC`. -/
theorem readMeta_congr (env : Env) (s : SDRdaemonBuffer) (a1 a2 : List Nat)
    (hlen1 : env.sizeofMetaData + 8 ≤ a1.length)
    (hlen2 : env.sizeofMetaData + 8 ≤ a2.length)
    (hcast : env.castMeta a1 = env.castMeta a2)
    (hcrc : headerCRC env a1 = headerCRC env a2) :
    (readMeta env s a1).map (fun p => (p.1, { p.2 with m_dataCRC := [] }))
      = (readMeta env s a2).map (fun p => (p.1, { p.2 with m_dataCRC := [] })) := by
  unfold readMeta
  rw [if_neg (show ¬ a1.length < env.sizeofMetaData + 8 by omega),
    if_neg (show ¬ a2.length < env.sizeofMetaData + 8 by omega)]
  simp only [hcast, hcrc]
  by_cases h1 : headerCRC env a2 = (env.castMeta a2).m_crc
  · by_cases h2 : (env.castMeta a2).m_blockSize = s.m_blockSize
    · by_cases h3 : (env.castMeta a2).m_sampleBytes &&& 0x10 ≠ 0 <;>
      by_cases h4 : frameSizeOf (env.castMeta a2) = s.m_frameSize <;>
      simp only [h1, h2, h3, h4, updateLZ4Sizes, updateBufferSize, if_true, if_false, ne_eq,
        not_true_eq_false, not_false_eq_true, Option.map_some', Option.map_map] <;>
      split_ifs <;> rfl
    · simp [h1, h2]
  · simp [h1]

/-- A record with a valid header checksum stores the 8 bytes behind the record
in `m_dataCRC`. -/
theorem readMeta_valid_dataCRC (env : Env) (s s' : SDRdaemonBuffer) (array : List Nat) (r : Bool)
    (hlen : env.sizeofMetaData + 8 ≤ array.length)
    (hcrc : headerCRC env array = (env.castMeta array).m_crc)
    (h : readMeta env s array = some (r, s')) :
    s'.m_dataCRC = (array.drop env.sizeofMetaData).take 8 := by
  unfold readMeta at h
  rw [if_neg (show ¬ array.length < env.sizeofMetaData + 8 by omega)] at h
  simp only [if_pos hcrc] at h
  by_cases h2 : (env.castMeta array).m_blockSize = s.m_blockSize
  · simp only [if_pos h2, Option.map_eq_some'] at h
    obtain ⟨s4, h3, h4⟩ := h
    simp only [Prod.mk.injEq] at h4
    obtain ⟨-, h5⟩ := h4
    subst h5
    by_cases h6 : (env.castMeta array).m_sampleBytes &&& 0x10 ≠ 0 <;>
    by_cases h7 : frameSizeOf (env.castMeta array) = s.m_frameSize <;>
    simp only [h6, h7, updateLZ4Sizes, updateBufferSize, if_true, if_false, ne_eq,
      not_true_eq_false, not_false_eq_true] at h3
    all_goals first
      | (simp only [Option.some.injEq] at h3
         subst h3
         rfl)
      | (split_ifs at h3
         simp only [Option.some.injEq] at h3
         subst h3
         rfl)
  · simp only [if_neg h2, Option.some.injEq, Prod.mk.injEq] at h
    obtain ⟨-, h5⟩ := h
    subst h5
    rfl

/-- Claim C11, as the code has it: two arrays that agree on the
`sizeof(MetaData)` bytes of the record (read through a layout that looks at
these bytes only) get the same decision from the same state: both calls have a
result or none has, the returned values, sync flags, frame sizes and
compression settings agree, and the states afterwards differ at most in
`m_dataCRC`. That member holds the 8 bytes behind the record when the header
checksum is valid and keeps its previous value when it is not. -/
theorem readMeta_ignores_payload_checksum (env : Env) (s : SDRdaemonBuffer) (a1 a2 : List Nat)
    (hlayout : ∀ a, env.castMeta a = env.castMeta (a.take env.sizeofMetaData))
    (hlen1 : env.sizeofMetaData + 8 ≤ a1.length)
    (hlen2 : env.sizeofMetaData + 8 ≤ a2.length)
    (hrec : a1.take env.sizeofMetaData = a2.take env.sizeofMetaData) :
    (readMeta env s a1 = none ↔ readMeta env s a2 = none) ∧
    (∀ r1 s1 r2 s2, readMeta env s a1 = some (r1, s1) → readMeta env s a2 = some (r2, s2) →
      r1 = r2 ∧ s1.m_sync = s2.m_sync ∧ s1.m_frameSize = s2.m_frameSize ∧
      s1.m_lz4 = s2.m_lz4 ∧ s1.m_lz4InSize = s2.m_lz4InSize ∧
      s1.m_lz4InCount = s2.m_lz4InCount ∧ s1 = { s2 with m_dataCRC := s1.m_dataCRC }) ∧
    (∀ r1 s1, readMeta env s a1 = some (r1, s1) →
      (headerCRC env a1 = (env.castMeta a1).m_crc →
        s1.m_dataCRC = (a1.drop env.sizeofMetaData).take 8) ∧
      (headerCRC env a1 ≠ (env.castMeta a1).m_crc → s1.m_dataCRC = s.m_dataCRC)) := by
  have hcast : env.castMeta a1 = env.castMeta a2 := by
    rw [hlayout a1, hlayout a2, hrec]
  have hcrc := headerCRC_congr env a1 a2 hrec
  have hmap := readMeta_congr env s a1 a2 hlen1 hlen2 hcast hcrc
  refine ⟨?_, ?_, ?_⟩
  · cases h1 : readMeta env s a1 <;> cases h2 : readMeta env s a2 <;>
      simp [h1, h2] at hmap ⊢
  · intro r1 s1 r2 s2 h1 h2
    rw [h1, h2] at hmap
    simp only [Option.map_some', Option.some.injEq, Prod.mk.injEq] at hmap
    obtain ⟨hr, hs⟩ := hmap
    cases s1
    cases s2
    simp only [SDRdaemonBuffer.mk.injEq] at hs
    simp only [SDRdaemonBuffer.mk.injEq]
    tauto
  · intro r1 s1 h1
    refine ⟨fun hv => readMeta_valid_dataCRC env s s1 a1 r1 hlen1 hv h1, fun hne => ?_⟩
    rw [readMeta_of_crc_ne env s a1 hlen1 hne] at h1
    simp only [Option.some.injEq, Prod.mk.injEq] at h1
    rw [← h1.2]

/-- Witness of C11 as amended: `sampleRecord` and the same record followed by
the payload checksum 999, on a fresh buffer. -/
theorem readMeta_ignores_payload_checksum_witness :
    (∀ a, sampleEnv.castMeta a = sampleEnv.castMeta (a.take sampleEnv.sizeofMetaData)) ∧
    sampleEnv.sizeofMetaData + 8 ≤ sampleRecord.length ∧
    sampleEnv.sizeofMetaData + 8 ≤ (packedRecord sampleMeta (leBytes 8 999)).length ∧
    sampleRecord.take sampleEnv.sizeofMetaData
      = (packedRecord sampleMeta (leBytes 8 999)).take sampleEnv.sizeofMetaData ∧
    sampleRecord ≠ packedRecord sampleMeta (leBytes 8 999) ∧
    ((readMeta sampleEnv (create sampleEnv 512) sampleRecord = none ↔
      readMeta sampleEnv (create sampleEnv 512) (packedRecord sampleMeta (leBytes 8 999)) = none) ∧
    (∀ r1 s1 r2 s2, readMeta sampleEnv (create sampleEnv 512) sampleRecord = some (r1, s1) →
      readMeta sampleEnv (create sampleEnv 512) (packedRecord sampleMeta (leBytes 8 999))
        = some (r2, s2) →
      r1 = r2 ∧ s1.m_sync = s2.m_sync ∧ s1.m_frameSize = s2.m_frameSize ∧
      s1.m_lz4 = s2.m_lz4 ∧ s1.m_lz4InSize = s2.m_lz4InSize ∧
      s1.m_lz4InCount = s2.m_lz4InCount ∧ s1 = { s2 with m_dataCRC := s1.m_dataCRC }) ∧
    (∀ r1 s1, readMeta sampleEnv (create sampleEnv 512) sampleRecord = some (r1, s1) →
      (headerCRC sampleEnv sampleRecord = (sampleEnv.castMeta sampleRecord).m_crc →
        s1.m_dataCRC = (sampleRecord.drop sampleEnv.sizeofMetaData).take 8) ∧
      (headerCRC sampleEnv sampleRecord ≠ (sampleEnv.castMeta sampleRecord).m_crc →
        s1.m_dataCRC = (create sampleEnv 512).m_dataCRC))) :=
  ⟨packedCast_take, by decide, by decide, by decide, by decide,
    readMeta_ignores_payload_checksum sampleEnv (create sampleEnv 512) sampleRecord
      (packedRecord sampleMeta (leBytes 8 999)) packedCast_take (by decide) (by decide)
      (by decide)⟩

/-- Counterexample to C11 as stated: the record with a corrupted header
checksum, read by a fresh buffer, leaves `m_dataCRC` at its initial eight zero
bytes, while the 8 bytes behind the record are those of 164. -/
theorem readMeta_dataCRC_kept_on_mismatch :
    sampleEnv.sizeofMetaData + 8 ≤ corruptedRecord.length ∧
    readMeta sampleEnv (create sampleEnv 512) corruptedRecord
      = some (false, create sampleEnv 512) ∧
    (create sampleEnv 512).m_dataCRC = [0, 0, 0, 0, 0, 0, 0, 0] ∧
    (corruptedRecord.drop sampleEnv.sizeofMetaData).take 8 = [164, 0, 0, 0, 0, 0, 0, 0] ∧
    (create sampleEnv 512).m_dataCRC ≠ (corruptedRecord.drop sampleEnv.sizeofMetaData).take 8 :=
  ⟨by decide, rfl, by decide, by decide, by decide⟩

/-! ## Theorems on `writeData` -/

/-- The first statement of `writeDataLZ4` writes only the input buffer and
its fill count. -/
theorem lz4Accumulate_frame (s s1 : SDRdaemonBuffer) (array : List Nat)
    (h : lz4Accumulate s array = some s1) :
    s1.m_sync = s.m_sync ∧ s1.m_lz4 = s.m_lz4 ∧ s1.m_lz4InSize = s.m_lz4InSize ∧
    s1.m_lz4OutBuffer = s.m_lz4OutBuffer ∧ s1.m_frameSize = s.m_frameSize ∧
    s1.m_nbDecodes = s.m_nbDecodes ∧ s1.m_nbSuccessfulDecodes = s.m_nbSuccessfulDecodes ∧
    s1.m_nbCRCOK = s.m_nbCRCOK ∧ s1.m_dataCRC = s.m_dataCRC := by
  unfold lz4Accumulate at h
  by_cases h1 : s.m_lz4InCount + array.length < s.m_lz4InSize
  · simp only [if_pos h1, Option.some.injEq] at h
    subst h
    exact ⟨rfl, rfl, rfl, rfl, rfl, rfl, rfl, rfl, rfl⟩
  · simp only [if_neg h1] at h
    split_ifs at h
    simp only [Option.some.injEq] at h
    subst h
    exact ⟨rfl, rfl, rfl, rfl, rfl, rfl, rfl, rfl, rfl⟩

/-- When the fill count has reached the declared compressed size,
`writeDataLZ4` goes on with the checksum and the decompression. -/
theorem writeDataLZ4_of_full (env : Env) (s s1 : SDRdaemonBuffer) (array : List Nat)
    (hacc : lz4Accumulate s array = some s1)
    (hfull : s1.m_lz4InCount ≥ s1.m_lz4InSize) :
    writeDataLZ4 env s array = lz4Decode env s1 := by
  unfold writeDataLZ4
  rw [hacc]
  simp only [Option.some_bind, if_pos hfull]

/-- The checksum and the decompression have a result exactly when they stay
inside the two LZ4 buffers. -/
theorem lz4Decode_isSome (env : Env) (s : SDRdaemonBuffer) :
    (lz4Decode env s).isSome ↔
      (s.m_lz4InSize ≤ capacity s.m_lz4InBuffer ∧ s.m_frameSize ≤ capacity s.m_lz4OutBuffer) := by
  unfold lz4Decode
  by_cases h100 : s.m_nbDecodes = 100 <;>
  by_cases hb : s.m_lz4InSize ≤ capacity s.m_lz4InBuffer ∧
      s.m_frameSize ≤ capacity s.m_lz4OutBuffer <;>
  simp [h100, hb]

/-- Result of the checksum and decompression step: the counters start from 0
when `m_nbDecodes` was 100 and from their previous values otherwise;
`m_nbDecodes` gets one more, `m_nbCRCOK` gets one more when the CRC64 of the
first `m_lz4InSize` bytes of the input buffer is `m_dataCRC`,
`m_nbSuccessfulDecodes` gets one more when the value returned by
`LZ4_decompress_fast` is `m_lz4InSize`; the output buffer receives the
decompressed bytes. -/
theorem lz4Decode_some (env : Env) (s s' : SDRdaemonBuffer) (h : lz4Decode env s = some s') :
    s'.m_nbDecodes = ((if s.m_nbDecodes = 100 then 0 else s.m_nbDecodes) + 1) % 4294967296 ∧
    s'.m_nbCRCOK =
      (if u64Bytes (env.calculate_crc ((s.m_lz4InBuffer.getD []).take s.m_lz4InSize)) = s.m_dataCRC
        then ((if s.m_nbDecodes = 100 then 0 else s.m_nbCRCOK) + 1) % 4294967296
        else (if s.m_nbDecodes = 100 then 0 else s.m_nbCRCOK)) ∧
    s'.m_nbSuccessfulDecodes =
      (if ((env.LZ4_decompress_fast (s.m_lz4InBuffer.getD []) s.m_frameSize).1
            % 4294967296).toNat = s.m_lz4InSize
        then ((if s.m_nbDecodes = 100 then 0 else s.m_nbSuccessfulDecodes) + 1) % 4294967296
        else (if s.m_nbDecodes = 100 then 0 else s.m_nbSuccessfulDecodes)) ∧
    s'.m_lz4OutBuffer = s.m_lz4OutBuffer.map (fun b => memcpy b 0
      ((env.LZ4_decompress_fast (s.m_lz4InBuffer.getD []) s.m_frameSize).2.take s.m_frameSize)) ∧
    s'.m_sync = s.m_sync ∧ s'.m_lz4 = s.m_lz4 ∧ s'.m_lz4InCount = 0 ∧
    s'.m_lz4InBuffer = s.m_lz4InBuffer ∧ s'.m_lz4InSize = s.m_lz4InSize ∧
    s'.m_frameSize = s.m_frameSize := by
  unfold lz4Decode at h
  by_cases h100 : s.m_nbDecodes = 100 <;>
  by_cases hc : u64Bytes (env.calculate_crc ((s.m_lz4InBuffer.getD []).take s.m_lz4InSize))
      = s.m_dataCRC <;>
  by_cases hr : ((env.LZ4_decompress_fast (s.m_lz4InBuffer.getD []) s.m_frameSize).1
      % 4294967296).toNat = s.m_lz4InSize <;>
  · simp only [h100, hc, hr, if_true, if_false] at h
    split_ifs at h
    simp only [Option.some.injEq] at h
    subst h
    simp [h100, hc, hr]

/-- Claim C8, as the code has it: when the first statement of `writeDataLZ4`
has filled the input buffer up to the declared compressed size, the call has a
result exactly when the checksum and the decompression stay inside the two LZ4
buffers, and in that result the output buffer has received the output of
`LZ4_decompress_fast`, `m_nbDecodes` is `d + 1` and `m_nbCRCOK` is `c + 1`
or `c` (32-bit), the former exactly when the CRC64 of the first `m_lz4InSize`
bytes of the input buffer is `m_dataCRC`; here `d` and `c` are 0 when
`m_nbDecodes` was 100 on entry and the previous values otherwise. The sync
flag is unchanged. -/
theorem writeDataLZ4_full_frame_counters (env : Env) (s s1 : SDRdaemonBuffer) (array : List Nat)
    (hacc : lz4Accumulate s array = some s1)
    (hfull : s1.m_lz4InCount ≥ s1.m_lz4InSize) :
    ((writeDataLZ4 env s array).isSome ↔
      (s.m_lz4InSize ≤ capacity s1.m_lz4InBuffer ∧ s.m_frameSize ≤ capacity s.m_lz4OutBuffer)) ∧
    ∀ s', writeDataLZ4 env s array = some s' →
      s'.m_lz4OutBuffer = s.m_lz4OutBuffer.map (fun b => memcpy b 0
        ((env.LZ4_decompress_fast (s1.m_lz4InBuffer.getD []) s.m_frameSize).2.take
          s.m_frameSize)) ∧
      s'.m_nbDecodes = ((if s.m_nbDecodes = 100 then 0 else s.m_nbDecodes) + 1) % 4294967296 ∧
      (s'.m_nbCRCOK = ((if s.m_nbDecodes = 100 then 0 else s.m_nbCRCOK) + 1) % 4294967296 ↔
        u64Bytes (env.calculate_crc ((s1.m_lz4InBuffer.getD []).take s.m_lz4InSize))
          = s.m_dataCRC) ∧
      (s'.m_nbCRCOK = (if s.m_nbDecodes = 100 then 0 else s.m_nbCRCOK) ↔
        u64Bytes (env.calculate_crc ((s1.m_lz4InBuffer.getD []).take s.m_lz4InSize))
          ≠ s.m_dataCRC) ∧
      s'.m_sync = s.m_sync := by
  obtain ⟨a1, -, a3, a4, a5, a6, -, a8, a9⟩ := lz4Accumulate_frame s s1 array hacc
  rw [writeDataLZ4_of_full env s s1 array hacc hfull]
  constructor
  · rw [lz4Decode_isSome, a3, a4, a5]
  · intro s' h
    obtain ⟨d1, d2, -, d4, d5, -⟩ := lz4Decode_some env s1 s' h
    rw [a3, a6, a8, a9] at d2
    rw [a6] at d1
    rw [a4, a5] at d4
    rw [a1] at d5
    refine ⟨d4, d1, ?_, ?_, d5⟩
    · by_cases hc : u64Bytes (env.calculate_crc ((s1.m_lz4InBuffer.getD []).take s.m_lz4InSize))
          = s.m_dataCRC
      · rw [if_pos hc] at d2
        exact ⟨fun _ => hc, fun _ => d2⟩
      · rw [if_neg hc] at d2
        refine ⟨fun h2 => ?_, fun h2 => absurd h2 hc⟩
        rw [d2] at h2
        omega
    · by_cases hc : u64Bytes (env.calculate_crc ((s1.m_lz4InBuffer.getD []).take s.m_lz4InSize))
          = s.m_dataCRC
      · rw [if_pos hc] at d2
        refine ⟨fun h2 => ?_, fun h2 => absurd hc h2⟩
        rw [d2] at h2
        omega
      · rw [if_neg hc] at d2
        exact ⟨fun _ => hc, fun _ => d2⟩

/-- Witness of C8 as amended: one more frame written to `sampleSynced100`,
where the counters are reset before they are advanced. -/
theorem writeDataLZ4_full_frame_counters_witness :
    lz4Accumulate sampleSynced100 sampleFrame
      = some { sampleSynced100 with m_lz4InCount := 9 } ∧
    ({ sampleSynced100 with m_lz4InCount := 9 } : SDRdaemonBuffer).m_lz4InCount
      ≥ ({ sampleSynced100 with m_lz4InCount := 9 } : SDRdaemonBuffer).m_lz4InSize ∧
    (((writeDataLZ4 sampleEnv sampleSynced100 sampleFrame).isSome ↔
      (sampleSynced100.m_lz4InSize
          ≤ capacity ({ sampleSynced100 with m_lz4InCount := 9 } : SDRdaemonBuffer).m_lz4InBuffer ∧
        sampleSynced100.m_frameSize ≤ capacity sampleSynced100.m_lz4OutBuffer)) ∧
    ∀ s', writeDataLZ4 sampleEnv sampleSynced100 sampleFrame = some s' →
      s'.m_lz4OutBuffer = sampleSynced100.m_lz4OutBuffer.map (fun b => memcpy b 0
        ((sampleEnv.LZ4_decompress_fast
          (({ sampleSynced100 with m_lz4InCount := 9 } : SDRdaemonBuffer).m_lz4InBuffer.getD [])
          sampleSynced100.m_frameSize).2.take sampleSynced100.m_frameSize)) ∧
      s'.m_nbDecodes = ((if sampleSynced100.m_nbDecodes = 100 then 0
        else sampleSynced100.m_nbDecodes) + 1) % 4294967296 ∧
      (s'.m_nbCRCOK = ((if sampleSynced100.m_nbDecodes = 100 then 0
          else sampleSynced100.m_nbCRCOK) + 1) % 4294967296 ↔
        u64Bytes (sampleEnv.calculate_crc
          ((({ sampleSynced100 with m_lz4InCount := 9 } : SDRdaemonBuffer).m_lz4InBuffer.getD
            []).take sampleSynced100.m_lz4InSize)) = sampleSynced100.m_dataCRC) ∧
      (s'.m_nbCRCOK = (if sampleSynced100.m_nbDecodes = 100 then 0
          else sampleSynced100.m_nbCRCOK) ↔
        u64Bytes (sampleEnv.calculate_crc
          ((({ sampleSynced100 with m_lz4InCount := 9 } : SDRdaemonBuffer).m_lz4InBuffer.getD
            []).take sampleSynced100.m_lz4InSize)) ≠ sampleSynced100.m_dataCRC) ∧
      s'.m_sync = sampleSynced100.m_sync) :=
  ⟨rfl, by decide,
    writeDataLZ4_full_frame_counters sampleEnv sampleSynced100
      { sampleSynced100 with m_lz4InCount := 9 } sampleFrame rfl (by decide)⟩

/-- Counterexample to C8 as stated: `sampleSynced100` is reached from
`sampleSynced` by 100 calls of `writeData` with `sampleFrame`; there
`m_nbDecodes` and `m_nbCRCOK` are 100. One more full frame with a matching
payload checksum leaves both at 1, not at 101. -/
theorem writeDataLZ4_counters_reset_at_100 :
    (List.replicate 100 sampleFrame).foldlM (fun s a => writeData sampleEnv s a) sampleSynced
      = some sampleSynced100 ∧
    sampleSynced100.m_nbDecodes = 100 ∧ sampleSynced100.m_nbCRCOK = 100 ∧
    lz4Accumulate sampleSynced100 sampleFrame
      = some { sampleSynced100 with m_lz4InCount := 9 } ∧
    u64Bytes (sampleEnv.calculate_crc (sampleFrame.take 9)) = sampleSynced100.m_dataCRC ∧
    writeDataLZ4 sampleEnv sampleSynced100 sampleFrame
      = some { sampleSynced100 with
          m_nbDecodes := 1
          m_nbSuccessfulDecodes := 1
          m_nbCRCOK := 1 } ∧
    (1 : Nat) ≠ sampleSynced100.m_nbDecodes + 1 ∧ (1 : Nat) ≠ sampleSynced100.m_nbCRCOK + 1 :=
  ⟨rfl, rfl, rfl, rfl, by decide, rfl, by decide, by decide⟩

/-- Claim C9, as the code has it: for every completed compressed frame whose
processing has a result, `m_nbSuccessfulDecodes` is `b + 1` (32-bit) exactly
when the value returned by `LZ4_decompress_fast`, converted to 32-bit
unsigned, equals the declared compressed size `m_lz4InSize`, and `b`
otherwise; `b` is 0 when `m_nbDecodes` was 100 on entry and the previous
value otherwise. -/
theorem writeDataLZ4_success_iff_compressedSize (env : Env) (s s1 : SDRdaemonBuffer)
    (array : List Nat)
    (hacc : lz4Accumulate s array = some s1)
    (hfull : s1.m_lz4InCount ≥ s1.m_lz4InSize) :
    ((writeDataLZ4 env s array).isSome ↔
      (s.m_lz4InSize ≤ capacity s1.m_lz4InBuffer ∧ s.m_frameSize ≤ capacity s.m_lz4OutBuffer)) ∧
    ∀ s', writeDataLZ4 env s array = some s' →
      (s'.m_nbSuccessfulDecodes
          = ((if s.m_nbDecodes = 100 then 0 else s.m_nbSuccessfulDecodes) + 1) % 4294967296 ↔
        ((env.LZ4_decompress_fast (s1.m_lz4InBuffer.getD []) s.m_frameSize).1
          % 4294967296).toNat = s.m_lz4InSize) ∧
      (s'.m_nbSuccessfulDecodes = (if s.m_nbDecodes = 100 then 0 else s.m_nbSuccessfulDecodes) ↔
        ((env.LZ4_decompress_fast (s1.m_lz4InBuffer.getD []) s.m_frameSize).1
          % 4294967296).toNat ≠ s.m_lz4InSize) := by
  obtain ⟨-, -, a3, a4, a5, a6, a7, -, -⟩ := lz4Accumulate_frame s s1 array hacc
  rw [writeDataLZ4_of_full env s s1 array hacc hfull]
  constructor
  · rw [lz4Decode_isSome, a3, a4, a5]
  · intro s' h
    obtain ⟨-, -, d3, -⟩ := lz4Decode_some env s1 s' h
    rw [a3, a5, a6, a7] at d3
    by_cases hr : ((env.LZ4_decompress_fast (s1.m_lz4InBuffer.getD []) s.m_frameSize).1
        % 4294967296).toNat = s.m_lz4InSize
    · rw [if_pos hr] at d3
      refine ⟨⟨fun _ => hr, fun _ => d3⟩, ⟨fun h2 => ?_, fun h2 => absurd hr h2⟩⟩
      rw [d3] at h2
      omega
    · rw [if_neg hr] at d3
      refine ⟨⟨fun h2 => ?_, fun h2 => absurd h2 hr⟩, ⟨fun _ => hr, fun _ => d3⟩⟩
      rw [d3] at h2
      omega

/-- Witness of C9 as amended: `sampleFrame` written in one chunk to
`sampleSynced`; the decoder reads 9 bytes, the declared compressed size. -/
theorem writeDataLZ4_success_iff_compressedSize_witness :
    lz4Accumulate sampleSynced sampleFrame
      = some { sampleSynced with m_lz4InBuffer := some sampleFrame, m_lz4InCount := 9 } ∧
    ({ sampleSynced with m_lz4InBuffer := some sampleFrame, m_lz4InCount := 9 }
        : SDRdaemonBuffer).m_lz4InCount
      ≥ ({ sampleSynced with m_lz4InBuffer := some sampleFrame, m_lz4InCount := 9 }
        : SDRdaemonBuffer).m_lz4InSize ∧
    (((writeDataLZ4 sampleEnv sampleSynced sampleFrame).isSome ↔
      (sampleSynced.m_lz4InSize ≤ capacity (some sampleFrame) ∧
        sampleSynced.m_frameSize ≤ capacity sampleSynced.m_lz4OutBuffer)) ∧
    ∀ s', writeDataLZ4 sampleEnv sampleSynced sampleFrame = some s' →
      (s'.m_nbSuccessfulDecodes
          = ((if sampleSynced.m_nbDecodes = 100 then 0
            else sampleSynced.m_nbSuccessfulDecodes) + 1) % 4294967296 ↔
        ((sampleEnv.LZ4_decompress_fast ((some sampleFrame).getD []) sampleSynced.m_frameSize).1
          % 4294967296).toNat = sampleSynced.m_lz4InSize) ∧
      (s'.m_nbSuccessfulDecodes = (if sampleSynced.m_nbDecodes = 100 then 0
          else sampleSynced.m_nbSuccessfulDecodes) ↔
        ((sampleEnv.LZ4_decompress_fast ((some sampleFrame).getD []) sampleSynced.m_frameSize).1
          % 4294967296).toNat ≠ sampleSynced.m_lz4InSize)) :=
  ⟨rfl, by decide,
    writeDataLZ4_success_iff_compressedSize sampleEnv sampleSynced
      { sampleSynced with m_lz4InBuffer := some sampleFrame, m_lz4InCount := 9 } sampleFrame
      rfl (by decide)⟩

/-- Counterexample to C9 as stated: `paddedSynced` is reached from
construction by accepting `paddedRecord` (frame size 8, 12 compressed bytes).
The 12 bytes `sampleFrame ++ [0, 0, 0]` complete a frame; the decoder reads 9
of them and produces 8 bytes, the expected frame size, yet
`m_nbSuccessfulDecodes` stays 0 because 9 is not 12. -/
theorem writeDataLZ4_success_not_frameSize :
    readMeta sampleEnv (create sampleEnv 512) paddedRecord = some (true, paddedSynced) ∧
    lz4Accumulate paddedSynced (sampleFrame ++ [0, 0, 0])
      = some { paddedSynced with
          m_lz4InBuffer := some (sampleFrame ++ [0, 0, 0])
          m_lz4InCount := 12 } ∧
    sampleEnv.LZ4_decompress_fast (sampleFrame ++ [0, 0, 0]) paddedSynced.m_frameSize
      = (9, [1, 2, 3, 4, 5, 6, 7, 8]) ∧
    (sampleEnv.LZ4_decompress_fast (sampleFrame ++ [0, 0, 0]) paddedSynced.m_frameSize).2.length
      = paddedSynced.m_frameSize ∧
    paddedSynced.m_nbSuccessfulDecodes = 0 ∧
    writeDataLZ4 sampleEnv paddedSynced (sampleFrame ++ [0, 0, 0])
      = some { paddedSynced with
          m_lz4InBuffer := some (sampleFrame ++ [0, 0, 0])
          m_lz4OutBuffer := some [1, 2, 3, 4, 5, 6, 7, 8]
          m_nbDecodes := 1
          m_nbSuccessfulDecodes := 0
          m_nbCRCOK := 1 } :=
  ⟨rfl, rfl, by decide, by decide, rfl, rfl⟩

/-- Claim C10: when the buffer is Unsynced, or Synced with compression
disabled, `writeData` with any byte array returns the state it was given: no
field changes. -/
theorem writeData_unsynced_or_uncompressed (env : Env) (s : SDRdaemonBuffer) (array : List Nat)
    (h : s.m_sync = false ∨ (s.m_sync = true ∧ s.m_lz4 = false)) :
    writeData env s array = some s := by
  unfold writeData
  rcases h with h | ⟨h1, h2⟩
  · simp [h]
  · simp [h1, h2]

/-- Witness of C10: a fresh buffer (Unsynced) and the Synced, uncompressed
state `plainSynced`, each given the bytes of `sampleFrame`. -/
theorem writeData_unsynced_or_uncompressed_witness :
    (create sampleEnv 512).m_sync = false ∧
    writeData sampleEnv (create sampleEnv 512) sampleFrame = some (create sampleEnv 512) ∧
    (plainSynced.m_sync = true ∧ plainSynced.m_lz4 = false) ∧
    writeData sampleEnv plainSynced sampleFrame = some plainSynced :=
  ⟨rfl, writeData_unsynced_or_uncompressed sampleEnv (create sampleEnv 512) sampleFrame
      (Or.inl rfl),
    ⟨rfl, rfl⟩,
    writeData_unsynced_or_uncompressed sampleEnv plainSynced sampleFrame (Or.inr ⟨rfl, rfl⟩)⟩


/-! ## Invariants of the reachable states -/

/-- What `readMeta` leaves alone whenever it has a result: the three
counters, the sample rate and width and the block size; and the fill count and
compressed size are either both kept or set to 0 and to the byte count of the
record. -/
theorem readMeta_frame (env : Env) (s s' : SDRdaemonBuffer) (array : List Nat) (r : Bool)
    (h : readMeta env s array = some (r, s')) :
    s'.m_nbDecodes = s.m_nbDecodes ∧ s'.m_nbCRCOK = s.m_nbCRCOK ∧
    s'.m_nbSuccessfulDecodes = s.m_nbSuccessfulDecodes ∧
    s'.m_sampleRate = s.m_sampleRate ∧ s'.m_sampleBytes = s.m_sampleBytes ∧
    s'.m_blockSize = s.m_blockSize ∧
    ((s'.m_lz4InCount = 0 ∧ s'.m_lz4InSize = (env.castMeta array).m_nbBytes) ∨
      (s'.m_lz4InCount = s.m_lz4InCount ∧ s'.m_lz4InSize = s.m_lz4InSize)) := by
  unfold readMeta at h
  by_cases hlen : array.length < env.sizeofMetaData + 8
  · simp [hlen] at h
  · rw [if_neg hlen] at h
    by_cases h1 : headerCRC env array = (env.castMeta array).m_crc
    · simp only [if_pos h1] at h
      by_cases h2 : (env.castMeta array).m_blockSize = s.m_blockSize
      · simp only [if_pos h2, Option.map_eq_some'] at h
        obtain ⟨s4, h3, h4⟩ := h
        simp only [Prod.mk.injEq] at h4
        obtain ⟨-, h5⟩ := h4
        subst h5
        by_cases h6 : (env.castMeta array).m_sampleBytes &&& 0x10 ≠ 0 <;>
        by_cases h7 : frameSizeOf (env.castMeta array) = s.m_frameSize <;>
        simp only [h6, h7, updateLZ4Sizes, updateBufferSize, if_true, if_false, ne_eq,
          not_true_eq_false, not_false_eq_true] at h3
        all_goals first
          | (simp only [Option.some.injEq] at h3
             subst h3
             simp)
          | (split_ifs at h3
             simp only [Option.some.injEq] at h3
             subst h3
             simp)
      · simp only [if_neg h2, Option.some.injEq, Prod.mk.injEq] at h
        obtain ⟨-, h5⟩ := h
        subst h5
        simp
    · simp only [if_neg h1, Option.some.injEq, Prod.mk.injEq] at h
      obtain ⟨-, h5⟩ := h
      subst h5
      simp

/-- The first statement of `writeDataLZ4` keeps the fill count below the
compressed size or reaches it; when it copies, it copies
`m_lz4InSize - m_lz4InCount` bytes, which the chunk holds. -/
theorem lz4Accumulate_fill (s s1 : SDRdaemonBuffer) (array : List Nat)
    (hinv : s.m_lz4InCount ≤ s.m_lz4InSize) (hsize : s.m_lz4InSize < 4294967296)
    (h : lz4Accumulate s array = some s1) :
    s1.m_lz4InCount = (s.m_lz4InCount + array.length) % 4294967296 ∧
    (s.m_lz4InCount + array.length < s.m_lz4InSize → s1.m_lz4InCount < s1.m_lz4InSize) := by
  obtain ⟨-, -, a3, -⟩ := lz4Accumulate_frame s s1 array h
  unfold lz4Accumulate at h
  by_cases h1 : s.m_lz4InCount + array.length < s.m_lz4InSize
  · simp only [if_pos h1, Option.some.injEq] at h
    subst h
    refine ⟨rfl, fun _ => ?_⟩
    show (s.m_lz4InCount + array.length) % 4294967296 < s.m_lz4InSize
    omega
  · simp only [if_neg h1] at h
    split_ifs at h
    simp only [Option.some.injEq] at h
    subst h
    exact ⟨rfl, fun h2 => absurd h2 h1⟩

/-- A call of `readMeta` with a result was given at least `sizeof(MetaData) + 8`
bytes. -/
theorem readMeta_some_length (env : Env) (s : SDRdaemonBuffer) (array : List Nat)
    (p : Bool × SDRdaemonBuffer) (h : readMeta env s array = some p) :
    env.sizeofMetaData + 8 ≤ array.length := by
  unfold readMeta at h
  by_cases hlen : array.length < env.sizeofMetaData + 8
  · simp [hlen] at h
  · omega

/-- The three ways a call of `writeData` with a result goes: the frame is
completed and decoded; nothing is done; or the chunk is counted and the fill
count stays below the compressed size. -/
theorem writeData_step (env : Env) (s s' : SDRdaemonBuffer) (array : List Nat)
    (h : writeData env s array = some s') :
    (frameCompletes s (Call.writeData array) = true ∧
      ∃ s1, lz4Accumulate s array = some s1 ∧ s1.m_lz4InCount ≥ s1.m_lz4InSize ∧
        lz4Decode env s1 = some s') ∨
    (frameCompletes s (Call.writeData array) = false ∧ s' = s) ∨
    (frameCompletes s (Call.writeData array) = false ∧ s.m_sync = true ∧ s.m_lz4 = true ∧
      lz4Accumulate s array = some s' ∧ s'.m_lz4InCount < s'.m_lz4InSize) := by
  unfold writeData at h
  by_cases hs : s.m_sync = true
  · by_cases hl : s.m_lz4 = true
    · simp only [hs, hl, if_true] at h
      unfold writeDataLZ4 at h
      cases hacc : lz4Accumulate s array with
      | none => simp [hacc] at h
      | some s1 =>
        simp only [hacc, Option.some_bind] at h
        by_cases hfull : s1.m_lz4InCount ≥ s1.m_lz4InSize
        · rw [if_pos hfull] at h
          refine Or.inl ⟨?_, s1, rfl, hfull, h⟩
          simp [frameCompletes, hs, hl, hacc, hfull]
        · rw [if_neg hfull] at h
          simp only [Option.some.injEq] at h
          subst h
          refine Or.inr (Or.inr ⟨?_, hs, hl, rfl, by omega⟩)
          simp [frameCompletes, hs, hl, hacc, hfull]
    · have hl' : s.m_lz4 = false := by simpa using hl
      rw [hs, hl'] at h
      simp only [if_true, Bool.false_eq_true, if_false, Option.some.injEq] at h
      exact Or.inr (Or.inl ⟨by simp [frameCompletes, hl'], h.symm⟩)
  · have hs' : s.m_sync = false := by simpa using hs
    rw [hs'] at h
    simp only [Bool.false_eq_true, if_false, Option.some.injEq] at h
    exact Or.inr (Or.inl ⟨by simp [frameCompletes, hs'], h.symm⟩)

/-- A state reached from a reachable state by a list of calls that all have a
result is reachable. -/
theorem reachable_of_calls (env : Env) (calls : List Call) :
    ∀ s s' : SDRdaemonBuffer, Reachable env s → calls.foldlM (step env) s = some s' →
      Reachable env s' := by
  induction calls with
  | nil =>
    intro s s' hr h
    simp only [List.foldlM_nil, Option.pure_def, Option.some.injEq] at h
    rw [← h]
    exact hr
  | cons c rest ih =>
    intro s s' hr h
    simp only [List.foldlM_cons, Option.bind_eq_bind, Option.bind_eq_some] at h
    obtain ⟨s1, h1, h2⟩ := h
    exact ih s1 s' (Reachable.call s s1 c hr h1) h2

/-- The state `sampleSynced100` is reached from construction by accepting
`sampleRecord` and writing `sampleFrame` 100 times. -/
theorem reachable_sampleSynced100 : Reachable sampleEnv sampleSynced100 :=
  reachable_of_calls sampleEnv
    (Call.readMeta sampleRecord :: List.replicate 100 (Call.writeData sampleFrame))
    (create sampleEnv 512) sampleSynced100 (Reachable.construct 512) rfl

/-- The fill count of a reachable state does not exceed the compressed size,
which is a 32-bit value when the byte count of every record is. -/
theorem reachable_fill_bound (env : Env) (s : SDRdaemonBuffer)
    (hbytes : ∀ a, (env.castMeta a).m_nbBytes < 4294967296) (hr : Reachable env s) :
    s.m_lz4InCount ≤ s.m_lz4InSize ∧ s.m_lz4InSize < 4294967296 := by
  induction hr with
  | construct blockSize => simp [create]
  | call s s' c _ hstep ih =>
    cases c with
    | readMeta array =>
      simp only [step, Option.map_eq_some'] at hstep
      obtain ⟨p, hp, hs⟩ := hstep
      obtain ⟨r, s2⟩ := p
      simp only at hs
      subst hs
      obtain ⟨-, -, -, -, -, -, e⟩ := readMeta_frame env s s2 array r hp
      have hb := hbytes array
      rcases e with ⟨e1, e2⟩ | ⟨e1, e2⟩ <;> omega
    | writeData array =>
      simp only [step] at hstep
      rcases writeData_step env s s' array hstep with ⟨-, s1, hacc, -, hdec⟩ | ⟨-, he⟩ |
        ⟨-, -, -, hacc, hlt⟩
      · obtain ⟨-, -, a3, -⟩ := lz4Accumulate_frame s s1 array hacc
        obtain ⟨-, -, -, -, -, -, d7, -, d9, -⟩ := lz4Decode_some env s1 s' hdec
        omega
      · subst he
        exact ih
      · obtain ⟨-, -, a3, -⟩ := lz4Accumulate_frame s s' array hacc
        omega

/-- Claim C24: when the byte count of every record is a 32-bit value, every
reachable state has `m_lz4InCount ≤ m_lz4InSize`; the fill count is 0 right
after a call that completes a frame and right after a record with the
compression flag is accepted; and whenever `writeDataLZ4` copies from a chunk
(the chunk reaches the compressed size), the 32-bit difference
`m_lz4InSize - m_lz4InCount` it copies is the true difference and is at most
the length of the chunk. -/
theorem reachable_fill_count (env : Env) (s : SDRdaemonBuffer)
    (hbytes : ∀ a, (env.castMeta a).m_nbBytes < 4294967296) (hr : Reachable env s) :
    s.m_lz4InCount ≤ s.m_lz4InSize ∧
    (∀ c s', step env s c = some s' → frameCompletes s c = true → s'.m_lz4InCount = 0) ∧
    (∀ array r s', readMeta env s array = some (r, s') →
      headerCRC env array = (env.castMeta array).m_crc →
      (env.castMeta array).m_blockSize = s.m_blockSize →
      (env.castMeta array).m_sampleBytes &&& 0x10 ≠ 0 → s'.m_lz4InCount = 0) ∧
    (∀ array : List Nat, ¬ (s.m_lz4InCount + array.length < s.m_lz4InSize) →
      (s.m_lz4InSize + 4294967296 - s.m_lz4InCount) % 4294967296
        = s.m_lz4InSize - s.m_lz4InCount ∧
      s.m_lz4InSize - s.m_lz4InCount ≤ array.length) := by
  obtain ⟨h1, h2⟩ := reachable_fill_bound env s hbytes hr
  refine ⟨h1, ?_, ?_, ?_⟩
  · intro c s' hstep hc
    cases c with
    | readMeta array => simp [frameCompletes] at hc
    | writeData array =>
      simp only [step] at hstep
      rcases writeData_step env s s' array hstep with ⟨-, s1, -, -, hdec⟩ | ⟨hn, -⟩ |
        ⟨hn, -⟩
      · exact (lz4Decode_some env s1 s' hdec).2.2.2.2.2.2.1
      · rw [hn] at hc
        exact absurd hc (by simp)
      · rw [hn] at hc
        exact absurd hc (by simp)
  · intro array r s' h hcrc hbs hflag
    exact (readMeta_accept_lz4 env s s' array r
      (readMeta_some_length env s array (r, s') h) hcrc hbs hflag h).2.2.1
  · intro array hge
    omega

/-- The little-endian value of `n` bytes is below `256 ^ n`. -/
theorem leNat_lt (bytes : List Nat) : leNat bytes < 256 ^ bytes.length := by
  induction bytes with
  | nil => simp [leNat]
  | cons b rest ih =>
    have h : leNat (b :: rest) = b % 256 + 256 * leNat rest := rfl
    rw [h, List.length_cons, Nat.pow_succ]
    have hb : b % 256 < 256 := Nat.mod_lt _ (by decide)
    omega

/-- The packed layout reads the byte count of a record from 4 bytes. -/
theorem packedCast_nbBytes_lt (a : List Nat) : (packedCast a).m_nbBytes < 4294967296 := by
  show leNat ((a.drop 22).take 4) < 4294967296
  have h1 := leNat_lt ((a.drop 22).take 4)
  have h2 : ((a.drop 22).take 4).length ≤ 4 := by
    rw [List.length_take]
    exact Nat.min_le_left _ _
  have h3 : 256 ^ ((a.drop 22).take 4).length ≤ 256 ^ 4 :=
    Nat.pow_le_pow_right (by decide) h2
  have h4 : (256 : Nat) ^ 4 = 4294967296 := by norm_num
  omega

/-- Witness of C24: the state `sampleSynced100` in the sample environment,
whose layout reads the byte count from 4 bytes. -/
theorem reachable_fill_count_witness :
    (∀ a, (sampleEnv.castMeta a).m_nbBytes < 4294967296) ∧
    Reachable sampleEnv sampleSynced100 ∧
    sampleSynced100.m_lz4InCount ≤ sampleSynced100.m_lz4InSize ∧
    (∀ array : List Nat,
      ¬ (sampleSynced100.m_lz4InCount + array.length < sampleSynced100.m_lz4InSize) →
      (sampleSynced100.m_lz4InSize + 4294967296 - sampleSynced100.m_lz4InCount) % 4294967296
        = sampleSynced100.m_lz4InSize - sampleSynced100.m_lz4InCount ∧
      sampleSynced100.m_lz4InSize - sampleSynced100.m_lz4InCount ≤ array.length) :=
  ⟨packedCast_nbBytes_lt, reachable_sampleSynced100,
    (reachable_fill_count sampleEnv sampleSynced100 packedCast_nbBytes_lt
      reachable_sampleSynced100).1,
    (reachable_fill_count sampleEnv sampleSynced100 packedCast_nbBytes_lt
      reachable_sampleSynced100).2.2.2⟩

/-- Claim C25 fails on the code. Accepting the uncompressed `plainRecord` and
then the compressed `sampleRecord` of the same frame size 8 leads to a
reachable state that is Synced with compression enabled, a compressed size of
9 and both LZ4 buffers null; a chunk written there has no defined result.
Accepting `sampleRecord` and then `paddedRecord` (same frame size, 12
compressed bytes) leads to a reachable Synced state with compression enabled
whose input buffer has 9 bytes for a compressed size of 12. -/
theorem reachable_lz4_buffer_too_small :
    Reachable sampleEnv
      { plainSynced with m_lz4 := true, m_lz4InSize := 9, m_currentMeta := sampleMeta } ∧
    ({ plainSynced with m_lz4 := true, m_lz4InSize := 9, m_currentMeta := sampleMeta }
      : SDRdaemonBuffer).m_sync = true ∧
    capacity ({ plainSynced with m_lz4 := true, m_lz4InSize := 9, m_currentMeta := sampleMeta }
      : SDRdaemonBuffer).m_lz4InBuffer = 0 ∧
    capacity ({ plainSynced with m_lz4 := true, m_lz4InSize := 9, m_currentMeta := sampleMeta }
      : SDRdaemonBuffer).m_lz4OutBuffer = 0 ∧
    ({ plainSynced with m_lz4 := true, m_lz4InSize := 9, m_currentMeta := sampleMeta }
      : SDRdaemonBuffer).m_frameSize = 8 ∧
    writeData sampleEnv
      { plainSynced with m_lz4 := true, m_lz4InSize := 9, m_currentMeta := sampleMeta }
      sampleFrame = none ∧
    Reachable sampleEnv
      { sampleSynced with
        m_lz4InSize := 12
        m_currentMeta := { sampleMeta with m_nbBytes := 12, m_crc := 937 } } ∧
    ({ sampleSynced with
        m_lz4InSize := 12
        m_currentMeta := { sampleMeta with m_nbBytes := 12, m_crc := 937 } }
      : SDRdaemonBuffer).m_sync = true ∧
    ({ sampleSynced with
        m_lz4InSize := 12
        m_currentMeta := { sampleMeta with m_nbBytes := 12, m_crc := 937 } }
      : SDRdaemonBuffer).m_lz4 = true ∧
    capacity ({ sampleSynced with
        m_lz4InSize := 12
        m_currentMeta := { sampleMeta with m_nbBytes := 12, m_crc := 937 } }
      : SDRdaemonBuffer).m_lz4InBuffer = 9 :=
  ⟨reachable_of_calls sampleEnv [Call.readMeta plainRecord, Call.readMeta sampleRecord]
      (create sampleEnv 512) _ (Reachable.construct 512) rfl,
    rfl, rfl, rfl, rfl, rfl,
    reachable_of_calls sampleEnv [Call.readMeta sampleRecord, Call.readMeta paddedRecord]
      (create sampleEnv 512) _ (Reachable.construct 512) rfl,
    rfl, rfl, capacity_newBytes 9⟩

/-- Claim C26 fails on the code. The state `sampleSynced` (frame size 8) is
reachable; `zeroRecord` has a valid header checksum, the configured block
size and 0 samples per block, hence a frame size of 0 that differs from 8:
`readMeta` calls `updateBufferSize(0)`, whose division has no result. -/
theorem readMeta_divides_by_zero :
    Reachable sampleEnv sampleSynced ∧
    sampleEnv.sizeofMetaData + 8 ≤ zeroRecord.length ∧
    headerCRC sampleEnv zeroRecord = (sampleEnv.castMeta zeroRecord).m_crc ∧
    (sampleEnv.castMeta zeroRecord).m_blockSize = sampleSynced.m_blockSize ∧
    (sampleEnv.castMeta zeroRecord).m_nbSamples = 0 ∧
    frameSizeOf (sampleEnv.castMeta zeroRecord) = 0 ∧
    sampleSynced.m_frameSize = 8 ∧
    updateBufferSize sampleSynced (frameSizeOf (sampleEnv.castMeta zeroRecord)) = none ∧
    readMeta sampleEnv sampleSynced zeroRecord = none :=
  ⟨reachable_of_calls sampleEnv [Call.readMeta sampleRecord]
      (create sampleEnv 512) sampleSynced (Reachable.construct 512) rfl,
    by decide, by decide, by decide, by decide, by decide, rfl, rfl, rfl⟩

/-- Claim C27: with the sample rate 1000000 and the sample width 2 set at
construction and a frame size `f` with `0 < f < 2^32`, `updateBufferSize`
allocates `nbFrames * f` bytes with `nbFrames = 4000000 / f + 1`; that size is
a multiple of `f`, more than 4000000 and at most `4000000 + f`, and neither
`nbFrames` nor the size reaches 2^32. -/
theorem updateBufferSize_one_second (s : SDRdaemonBuffer) (f : Nat)
    (hrate : s.m_sampleRate = 1000000) (hwidth : s.m_sampleBytes = 2)
    (h0 : 0 < f) (hf : f < 4294967296) :
    updateBufferSize s f = some { s with m_rawBuffer := newBytes ((4000000 / f + 1) * f) } ∧
    f ∣ (4000000 / f + 1) * f ∧
    4000000 < (4000000 / f + 1) * f ∧
    (4000000 / f + 1) * f ≤ 4000000 + f ∧
    4000000 / f + 1 < 4294967296 ∧
    (4000000 / f + 1) * f < 4294967296 := by
  obtain ⟨e1, e2, e3⟩ := nbFrames_mul_frameSize 4000000 f (by decide) (by omega) hf
  have hq : 4000000 / f ≤ 4000000 := Nat.div_le_self _ _
  have h8 : (4000000 / f + 1) * f < 4294967296 := by
    rcases Nat.lt_or_ge 4000000 f with hlt | hge
    · rw [Nat.div_eq_of_lt hlt]
      omega
    · omega
  refine ⟨?_, Dvd.intro_left _ rfl, e2, e3, by omega, h8⟩
  unfold updateBufferSize
  rw [if_neg (by omega), hrate, hwidth]
  have hR : 1000000 * 2 * 2 = 4000000 := by norm_num
  simp only [hR, e1]

/-- Witness of C27: a freshly constructed buffer and the frame size 8. -/
theorem updateBufferSize_one_second_witness :
    (create sampleEnv 512).m_sampleRate = 1000000 ∧ (create sampleEnv 512).m_sampleBytes = 2 ∧
    0 < 8 ∧ 8 < 4294967296 ∧
    updateBufferSize (create sampleEnv 512) 8
      = some { create sampleEnv 512 with m_rawBuffer := newBytes ((4000000 / 8 + 1) * 8) } ∧
    4000000 < (4000000 / 8 + 1) * 8 :=
  ⟨rfl, rfl, by decide, by decide,
    (updateBufferSize_one_second (create sampleEnv 512) 8 rfl rfl (by decide) (by decide)).1,
    (updateBufferSize_one_second (create sampleEnv 512) 8 rfl rfl (by decide) (by decide)).2.2.1⟩

end SDRdaemonBuffer

end SDRdaemon

namespace SDRangel

/-! ## Theorems on the message handling of the modulator -/

/-- The dispatched messages of a trace extended by one event. -/
theorem dispatchedMessages_append (t1 t2 : List Event) :
    dispatchedMessages (t1 ++ t2) = dispatchedMessages t1 ++ dispatchedMessages t2 := by
  simp [dispatchedMessages, List.filterMap_append]

namespace LoRaModBaseband

/-- The method `applySettings` leaves the message queue alone and records no
entry of `handleMessage`. -/
theorem applySettings_queue_dispatched (env : ModEnv) (st : LoRaModBaseband env.World)
    (settings : LoRaModSettings) (force : Bool) :
    (applySettings env st settings force).m_inputMessageQueue = st.m_inputMessageQueue ∧
    dispatchedMessages (applySettings env st settings force).m_trace
      = dispatchedMessages st.m_trace := by
  unfold applySettings
  split_ifs <;>
    simp [call, dispatchedMessages, List.filterMap_append, Event.dispatched]

/-- The method `handleMessage` does not push to or pop from the message queue,
and records exactly one entry, for the message it is given. -/
theorem handleMessage_queue_dispatched (env : ModEnv) (st : LoRaModBaseband env.World)
    (cmd : Message) :
    (handleMessage env st cmd).2.m_inputMessageQueue = st.m_inputMessageQueue ∧
    dispatchedMessages (handleMessage env st cmd).2.m_trace
      = dispatchedMessages st.m_trace ++ [cmd] := by
  cases cmd with
  | MsgConfigureLoRaModBaseband settings force =>
    obtain ⟨h1, h2⟩ := applySettings_queue_dispatched env
      (log Event.lock (log (Event.handleMessage
        (Message.MsgConfigureLoRaModBaseband settings force)) st)) settings force
    simp only [handleMessage, log] at h1 h2 ⊢
    rw [h1, dispatchedMessages_append, h2]
    simp [dispatchedMessages, List.filterMap_append, Event.dispatched]
  | MsgConfigureLoRaModPayload payload =>
    simp [handleMessage, log, call, dispatchedMessages, List.filterMap_append, Event.dispatched]
  | DSPSignalNotification sampleRate centerFrequency =>
    simp [handleMessage, log, call, dispatchedMessages, List.filterMap_append, Event.dispatched]
  | DSPMIMOSignalNotification a b c d =>
    simp [handleMessage, log, dispatchedMessages, List.filterMap_append, Event.dispatched]
  | MsgConfigureBladeRF2MIMO a b =>
    simp [handleMessage, log, dispatchedMessages, List.filterMap_append, Event.dispatched]
  | other a =>
    simp [handleMessage, log, dispatchedMessages, List.filterMap_append, Event.dispatched]

/-- With at least as many iterations as pending messages, the loop of
`handleInputMessages` ends with an empty queue, having entered `handleMessage`
once for each pending message, oldest first. -/
theorem handleInputMessages_drains (env : ModEnv) (fuel : Nat) :
    ∀ st : LoRaModBaseband env.World, st.m_inputMessageQueue.length ≤ fuel →
      ∃ st', handleInputMessages env fuel st = some st' ∧ st'.m_inputMessageQueue = [] ∧
        dispatchedMessages st'.m_trace
          = dispatchedMessages st.m_trace ++ st.m_inputMessageQueue := by
  induction fuel with
  | zero =>
    intro st h
    have hq : st.m_inputMessageQueue = [] := List.length_eq_zero.mp (Nat.le_zero.mp h)
    exact ⟨st, by simp [handleInputMessages, MessageQueue.pop, hq], hq, by simp [hq]⟩
  | succ fuel ih =>
    intro st h
    cases hq : st.m_inputMessageQueue with
    | nil => exact ⟨st, by simp [handleInputMessages, MessageQueue.pop, hq], hq, by simp⟩
    | cons message rest =>
      obtain ⟨h1, h2⟩ := handleMessage_queue_dispatched env
        { st with m_inputMessageQueue := rest } message
      have hlen : (handleMessage env { st with m_inputMessageQueue := rest }
          message).2.m_inputMessageQueue.length ≤ fuel := by
        rw [h1]
        rw [hq] at h
        simpa using h
      obtain ⟨st', e1, e2, e3⟩ := ih _ hlen
      refine ⟨st', ?_, e2, ?_⟩
      · simp only [handleInputMessages, MessageQueue.pop, hq]
        exact e1
      · rw [e3, h2, h1]
        simp

/-- The method `handleMessage` does not read the message queue: with another
queue in the state it returns the same flag and the same state but for the
queue. -/
theorem handleMessage_queue_irrelevant (env : ModEnv) (st : LoRaModBaseband env.World)
    (cmd : Message) (q : List Message) :
    handleMessage env { st with m_inputMessageQueue := q } cmd
      = ((handleMessage env st cmd).1,
          { (handleMessage env st cmd).2 with m_inputMessageQueue := q }) := by
  cases cmd with
  | MsgConfigureLoRaModBaseband settings force =>
    simp only [handleMessage, log, applySettings, call]
    split_ifs <;> rfl
  | MsgConfigureLoRaModPayload payload => rfl
  | DSPSignalNotification sampleRate centerFrequency => rfl
  | DSPMIMOSignalNotification a b c d => rfl
  | MsgConfigureBladeRF2MIMO a b => rfl
  | other a => rfl

/-- Handling a list of messages one after the other commutes with replacing
the queue. -/
theorem foldl_handleMessage_queue (env : ModEnv) (l : List Message) :
    ∀ (st : LoRaModBaseband env.World) (q : List Message),
      l.foldl (fun s m => (handleMessage env s m).2) { st with m_inputMessageQueue := q }
        = { l.foldl (fun s m => (handleMessage env s m).2) st with m_inputMessageQueue := q } := by
  induction l with
  | nil => intro st q; rfl
  | cons m rest ih =>
    intro st q
    simp only [List.foldl_cons, handleMessage_queue_irrelevant env st m q]
    exact ih _ q

/-- With at least as many iterations as pending messages, the state
`handleInputMessages` returns is the state that `handleMessage` leaves when it
is applied to the pending messages one after the other, oldest first, with an
empty queue. -/
theorem handleInputMessages_fold (env : ModEnv) (fuel : Nat) :
    ∀ st : LoRaModBaseband env.World, st.m_inputMessageQueue.length ≤ fuel →
      handleInputMessages env fuel st
        = some { st.m_inputMessageQueue.foldl (fun s m => (handleMessage env s m).2) st with
            m_inputMessageQueue := [] } := by
  induction fuel with
  | zero =>
    intro st h
    have hq : st.m_inputMessageQueue = [] := List.length_eq_zero.mp (Nat.le_zero.mp h)
    simp only [handleInputMessages, MessageQueue.pop, hq, List.foldl_nil]
    rw [← hq]
  | succ fuel ih =>
    intro st h
    cases hq : st.m_inputMessageQueue with
    | nil =>
      simp only [handleInputMessages, MessageQueue.pop, hq, List.foldl_nil]
      rw [← hq]
    | cons message rest =>
      have h1 := (handleMessage_queue_dispatched env
        { st with m_inputMessageQueue := rest } message).1
      have hlen : (handleMessage env { st with m_inputMessageQueue := rest }
          message).2.m_inputMessageQueue.length ≤ fuel := by
        rw [h1]
        rw [hq] at h
        simpa using h
      simp only [handleInputMessages, MessageQueue.pop, hq, List.foldl_cons]
      rw [ih _ hlen, h1, handleMessage_queue_irrelevant env st message rest]
      simp only [foldl_handleMessage_queue]

/-- Claim C12: for every content of the input message queue and at least as
many loop iterations as pending messages, `handleInputMessages` has a result
(the loop ends), the queue is empty afterwards, and `handleMessage` has been
invoked on the pending messages, once each and in submission order: the state
returned is the state that `handleMessage` leaves when it is applied to the
messages of the former queue one after the other, oldest first, and the
messages dispatched during the call are exactly the former queue. -/
theorem handleInputMessages_in_order (env : ModEnv) (fuel : Nat) (st : LoRaModBaseband env.World)
    (hfuel : st.m_inputMessageQueue.length ≤ fuel) :
    handleInputMessages env fuel st
      = some { st.m_inputMessageQueue.foldl (fun s m => (handleMessage env s m).2) st with
          m_inputMessageQueue := [] } ∧
    ∃ st', handleInputMessages env fuel st = some st' ∧ st'.m_inputMessageQueue = [] ∧
      dispatchedMessages st'.m_trace = dispatchedMessages st.m_trace ++ st.m_inputMessageQueue :=
  ⟨handleInputMessages_fold env fuel st hfuel, handleInputMessages_drains env fuel st hfuel⟩

/-- Witness of C12: the three messages of `sampleQueue`, after which the
settings are `otherSettings` and the symbols of the source are `[1, 2, 3]`. -/
theorem handleInputMessages_in_order_witness :
    ({ wrappedBaseband with m_inputMessageQueue := sampleQueue }
      : LoRaModBaseband SampleWorld).m_inputMessageQueue.length ≤ 3 ∧
    (handleInputMessages sampleModEnv 3
        { wrappedBaseband with m_inputMessageQueue := sampleQueue }).map
        (fun st' => (st'.m_settings, st'.m_world.symbols, st'.m_world.sourceSettings))
      = some (otherSettings, [1, 2, 3], some (otherSettings, false)) ∧
    handleInputMessages sampleModEnv 3
        { wrappedBaseband with m_inputMessageQueue := sampleQueue }
      = some { ({ wrappedBaseband with m_inputMessageQueue := sampleQueue }
            : LoRaModBaseband SampleWorld).m_inputMessageQueue.foldl
              (fun s m => (handleMessage sampleModEnv s m).2)
              { wrappedBaseband with m_inputMessageQueue := sampleQueue } with
          m_inputMessageQueue := [] } ∧
    ∃ st', handleInputMessages sampleModEnv 3
        { wrappedBaseband with m_inputMessageQueue := sampleQueue } = some st' ∧
      st'.m_inputMessageQueue = [] ∧
      dispatchedMessages st'.m_trace
        = dispatchedMessages ({ wrappedBaseband with m_inputMessageQueue := sampleQueue }
            : LoRaModBaseband SampleWorld).m_trace
          ++ ({ wrappedBaseband with m_inputMessageQueue := sampleQueue }
            : LoRaModBaseband SampleWorld).m_inputMessageQueue :=
  ⟨by decide, by decide,
    (handleInputMessages_in_order sampleModEnv 3
      { wrappedBaseband with m_inputMessageQueue := sampleQueue } (by decide)).1,
    (handleInputMessages_in_order sampleModEnv 3
      { wrappedBaseband with m_inputMessageQueue := sampleQueue } (by decide)).2⟩

/-- Claim C13: `applySettings(s, force)` calls `setChannelization` exactly
when the bandwidth index or the input frequency offset of `s` differs from the
current setting or `force` is true. Then the channelizer is given the rate
`bandwidths[s.m_bandwidthIndex] * oversampling` and the offset
`s.m_inputFrequencyOffset`: the collaborators are left as by that call, then
`m_source.applyChannelSettings`, then `m_source.applySettings`, and these three
calls are the ones added to the trace. Otherwise the channelizer is not
touched: the collaborators are left as by `m_source.applySettings` alone, the
one call added to the trace. -/
theorem applySettings_channelization (env : ModEnv) (st : LoRaModBaseband env.World)
    (s : LoRaModSettings) (force : Bool) :
    ((s.m_bandwidthIndex ≠ st.m_settings.m_bandwidthIndex
        ∨ s.m_inputFrequencyOffset ≠ st.m_settings.m_inputFrequencyOffset
        ∨ force = true) →
      applySettings env st s force
        = { m_world := env.sourceApplySettings s force
              (env.sourceApplyChannelSettings
                (env.getChannelSampleRate (env.setChannelization
                  (env.bandwidths s.m_bandwidthIndex * env.oversampling)
                  s.m_inputFrequencyOffset st.m_world))
                (env.bandwidths s.m_bandwidthIndex)
                (env.getChannelFrequencyOffset (env.setChannelization
                  (env.bandwidths s.m_bandwidthIndex * env.oversampling)
                  s.m_inputFrequencyOffset st.m_world))
                (env.setChannelization (env.bandwidths s.m_bandwidthIndex * env.oversampling)
                  s.m_inputFrequencyOffset st.m_world))
            m_settings := s
            m_inputMessageQueue := st.m_inputMessageQueue
            m_trace := st.m_trace ++
              [Event.setChannelization (env.bandwidths s.m_bandwidthIndex * env.oversampling)
                  s.m_inputFrequencyOffset,
                Event.sourceApplyChannelSettings
                  (env.getChannelSampleRate (env.setChannelization
                    (env.bandwidths s.m_bandwidthIndex * env.oversampling)
                    s.m_inputFrequencyOffset st.m_world))
                  (env.bandwidths s.m_bandwidthIndex)
                  (env.getChannelFrequencyOffset (env.setChannelization
                    (env.bandwidths s.m_bandwidthIndex * env.oversampling)
                    s.m_inputFrequencyOffset st.m_world)),
                Event.sourceApplySettings s force] }) ∧
    (¬ (s.m_bandwidthIndex ≠ st.m_settings.m_bandwidthIndex
        ∨ s.m_inputFrequencyOffset ≠ st.m_settings.m_inputFrequencyOffset
        ∨ force = true) →
      applySettings env st s force
        = { m_world := env.sourceApplySettings s force st.m_world
            m_settings := s
            m_inputMessageQueue := st.m_inputMessageQueue
            m_trace := st.m_trace ++ [Event.sourceApplySettings s force] }) ∧
    ∃ added, (applySettings env st s force).m_trace = st.m_trace ++ added ∧
      ((∃ rate offset, Event.setChannelization rate offset ∈ added) ↔
        (s.m_bandwidthIndex ≠ st.m_settings.m_bandwidthIndex
          ∨ s.m_inputFrequencyOffset ≠ st.m_settings.m_inputFrequencyOffset
          ∨ force = true)) ∧
      ((s.m_bandwidthIndex ≠ st.m_settings.m_bandwidthIndex
          ∨ s.m_inputFrequencyOffset ≠ st.m_settings.m_inputFrequencyOffset
          ∨ force = true) →
        added.filter Event.onChannelizer
          = [Event.setChannelization (env.bandwidths s.m_bandwidthIndex * env.oversampling)
              s.m_inputFrequencyOffset]) ∧
      (¬ (s.m_bandwidthIndex ≠ st.m_settings.m_bandwidthIndex
          ∨ s.m_inputFrequencyOffset ≠ st.m_settings.m_inputFrequencyOffset
          ∨ force = true) →
        added.filter Event.onChannelizer = []) := by
  refine ⟨fun hc => ?_, fun hc => ?_, ?_⟩
  · simp only [applySettings, if_pos hc, call]
    simp
  · simp only [applySettings, if_neg hc, call]
  by_cases hc : s.m_bandwidthIndex ≠ st.m_settings.m_bandwidthIndex
      ∨ s.m_inputFrequencyOffset ≠ st.m_settings.m_inputFrequencyOffset ∨ force = true
  · refine ⟨[Event.setChannelization (env.bandwidths s.m_bandwidthIndex * env.oversampling)
        s.m_inputFrequencyOffset,
      Event.sourceApplyChannelSettings
        (env.getChannelSampleRate (env.setChannelization
          (env.bandwidths s.m_bandwidthIndex * env.oversampling) s.m_inputFrequencyOffset
          st.m_world))
        (env.bandwidths s.m_bandwidthIndex)
        (env.getChannelFrequencyOffset (env.setChannelization
          (env.bandwidths s.m_bandwidthIndex * env.oversampling) s.m_inputFrequencyOffset
          st.m_world)),
      Event.sourceApplySettings s force], ?_, ?_, ?_, ?_⟩
    · simp only [applySettings, if_pos hc, call]
      simp
    · exact ⟨fun _ => hc, fun _ => ⟨_, _, List.mem_cons_self _ _⟩⟩
    · intro _
      simp [List.filter, Event.onChannelizer]
    · intro hn
      exact absurd hc hn
  · refine ⟨[Event.sourceApplySettings s force], ?_, ?_, ?_, ?_⟩
    · simp only [applySettings, if_neg hc, call]
    · refine ⟨fun h => ?_, fun h => absurd h hc⟩
      obtain ⟨rate, offset, hm⟩ := h
      simp at hm
    · intro h
      exact absurd h hc
    · intro _
      simp [List.filter, Event.onChannelizer]

/-- Witness of C13: on `wrappedBaseband`, `otherSettings` (another bandwidth
index) reach the channelizer as the rate 125000 * 2 and the offset 10000,
while the current settings without force leave the channelizer as it was. -/
theorem applySettings_channelization_witness :
    (otherSettings.m_bandwidthIndex ≠ wrappedBaseband.m_settings.m_bandwidthIndex
      ∨ otherSettings.m_inputFrequencyOffset ≠ wrappedBaseband.m_settings.m_inputFrequencyOffset
      ∨ false = true) ∧
    ((applySettings sampleModEnv wrappedBaseband otherSettings false).m_world.channelSampleRate,
      (applySettings sampleModEnv wrappedBaseband otherSettings false).m_world.channelFrequencyOffset)
      = (250000, 10000) ∧
    applySettings sampleModEnv wrappedBaseband wrappedBaseband.m_settings false
      = { m_world := sampleModEnv.sourceApplySettings wrappedBaseband.m_settings false
            wrappedBaseband.m_world
          m_settings := wrappedBaseband.m_settings
          m_inputMessageQueue := wrappedBaseband.m_inputMessageQueue
          m_trace := wrappedBaseband.m_trace
            ++ [Event.sourceApplySettings wrappedBaseband.m_settings false] } :=
  ⟨by decide, by decide,
    (applySettings_channelization sampleModEnv wrappedBaseband wrappedBaseband.m_settings
      false).2.1 (by decide)⟩

/-- Claim C14: handling a `MsgConfigureLoRaModBaseband` message that carries
the settings `s` returns `true` and leaves `m_settings` equal to `s`, for
every `s`, every force flag and every previous state. -/
theorem handleMessage_configure_replaces_settings (env : ModEnv)
    (st : LoRaModBaseband env.World) (s : LoRaModSettings) (force : Bool) :
    (handleMessage env st (Message.MsgConfigureLoRaModBaseband s force)).1 = true ∧
    (handleMessage env st (Message.MsgConfigureLoRaModBaseband s force)).2.m_settings = s := by
  simp [handleMessage, applySettings, log, call]

/-- Claim C15: handling a `DSPSignalNotification` of rate `r` returns `true`,
leaves `m_settings` as it was, and makes, in this order and under the mutex,
the calls `m_sampleFifo.resize(getSizePolicy(r))`,
`m_channelizer->setBasebandSampleRate(r)` and
`m_source.applyChannelSettings` with the channel sample rate and frequency
offset the channelizer reports after the second call and the bandwidth of the
current settings. -/
theorem handleMessage_rate_changed (env : ModEnv) (st : LoRaModBaseband env.World)
    (r c : Int) :
    (handleMessage env st (Message.DSPSignalNotification r c)).1 = true ∧
    (handleMessage env st (Message.DSPSignalNotification r c)).2.m_settings = st.m_settings ∧
    (handleMessage env st (Message.DSPSignalNotification r c)).2.m_trace
      = st.m_trace ++
        [Event.handleMessage (Message.DSPSignalNotification r c), Event.lock,
          Event.fifoResize (env.getSizePolicy r), Event.setBasebandSampleRate r,
          Event.sourceApplyChannelSettings
            (env.getChannelSampleRate
              (env.setBasebandSampleRate r (env.fifoResize (env.getSizePolicy r) st.m_world)))
            (env.bandwidths st.m_settings.m_bandwidthIndex)
            (env.getChannelFrequencyOffset
              (env.setBasebandSampleRate r (env.fifoResize (env.getSizePolicy r) st.m_world))),
          Event.unlock] ∧
    (handleMessage env st (Message.DSPSignalNotification r c)).2.m_world
      = env.sourceApplyChannelSettings
          (env.getChannelSampleRate
            (env.setBasebandSampleRate r (env.fifoResize (env.getSizePolicy r) st.m_world)))
          (env.bandwidths st.m_settings.m_bandwidthIndex)
          (env.getChannelFrequencyOffset
            (env.setBasebandSampleRate r (env.fifoResize (env.getSizePolicy r) st.m_world)))
          (env.setBasebandSampleRate r (env.fifoResize (env.getSizePolicy r) st.m_world)) := by
  simp [handleMessage, log, call]

/-- Claim C16, as the code has it: a rate-change notification with a
non-positive rate `r` is handled like any other. `handleMessage` returns
`true`, and the calls it adds to the trace contain the resize of the sample
FIFO to `getSizePolicy(r)` followed by `setBasebandSampleRate(r)`; the
collaborators afterwards are those the two calls and the re-application of
the channel settings produce. -/
theorem handleMessage_nonpositive_rate_applied (env : ModEnv) (st : LoRaModBaseband env.World)
    (r c : Int) (hr : r ≤ 0) :
    (handleMessage env st (Message.DSPSignalNotification r c)).1 = true ∧
    (∃ before after, (handleMessage env st (Message.DSPSignalNotification r c)).2.m_trace
      = st.m_trace ++ before
        ++ [Event.fifoResize (env.getSizePolicy r), Event.setBasebandSampleRate r] ++ after) ∧
    (handleMessage env st (Message.DSPSignalNotification r c)).2.m_world
      = env.sourceApplyChannelSettings
          (env.getChannelSampleRate
            (env.setBasebandSampleRate r (env.fifoResize (env.getSizePolicy r) st.m_world)))
          (env.bandwidths st.m_settings.m_bandwidthIndex)
          (env.getChannelFrequencyOffset
            (env.setBasebandSampleRate r (env.fifoResize (env.getSizePolicy r) st.m_world)))
          (env.setBasebandSampleRate r (env.fifoResize (env.getSizePolicy r) st.m_world)) := by
  refine ⟨rfl, ⟨[Event.handleMessage (Message.DSPSignalNotification r c), Event.lock],
    [Event.sourceApplyChannelSettings
        (env.getChannelSampleRate
          (env.setBasebandSampleRate r (env.fifoResize (env.getSizePolicy r) st.m_world)))
        (env.bandwidths st.m_settings.m_bandwidthIndex)
        (env.getChannelFrequencyOffset
          (env.setBasebandSampleRate r (env.fifoResize (env.getSizePolicy r) st.m_world))),
      Event.unlock], ?_⟩, ?_⟩
  · simp [handleMessage, log, call]
  · simp [handleMessage, log, call]

/-- Witness of C16 as amended: the rate 0 on `tunedBaseband`. -/
theorem handleMessage_nonpositive_rate_applied_witness :
    (0 : Int) ≤ 0 ∧
    ((handleMessage sampleModEnv tunedBaseband (Message.DSPSignalNotification 0 0)).1 = true ∧
    (∃ before after,
      (handleMessage sampleModEnv tunedBaseband (Message.DSPSignalNotification 0 0)).2.m_trace
      = tunedBaseband.m_trace ++ before
        ++ [Event.fifoResize (sampleModEnv.getSizePolicy 0), Event.setBasebandSampleRate 0]
        ++ after) ∧
    (handleMessage sampleModEnv tunedBaseband (Message.DSPSignalNotification 0 0)).2.m_world
      = sampleModEnv.sourceApplyChannelSettings
          (sampleModEnv.getChannelSampleRate
            (sampleModEnv.setBasebandSampleRate 0
              (sampleModEnv.fifoResize (sampleModEnv.getSizePolicy 0) tunedBaseband.m_world)))
          (sampleModEnv.bandwidths tunedBaseband.m_settings.m_bandwidthIndex)
          (sampleModEnv.getChannelFrequencyOffset
            (sampleModEnv.setBasebandSampleRate 0
              (sampleModEnv.fifoResize (sampleModEnv.getSizePolicy 0) tunedBaseband.m_world)))
          (sampleModEnv.setBasebandSampleRate 0
            (sampleModEnv.fifoResize (sampleModEnv.getSizePolicy 0) tunedBaseband.m_world))) :=
  ⟨le_refl 0, handleMessage_nonpositive_rate_applied sampleModEnv tunedBaseband 0 0 (le_refl 0)⟩

/-- Counterexample to C16 as stated, with the collaborators of `SampleWorld`:
`tunedBaseband` holds a FIFO of 30720 samples and the baseband rate 48000; a
rate-change notification of rate 0 is handled (`true` is returned) and leaves
a FIFO of 0 samples and the baseband rate 0. -/
theorem handleMessage_zero_rate_installed :
    tunedBaseband.m_world.fifoData.length = 30720 ∧
    tunedBaseband.m_world.basebandSampleRate = 48000 ∧
    (handleMessage sampleModEnv tunedBaseband (Message.DSPSignalNotification 0 0)).1 = true ∧
    (handleMessage sampleModEnv tunedBaseband
      (Message.DSPSignalNotification 0 0)).2.m_world.fifoData.length = 0 ∧
    (handleMessage sampleModEnv tunedBaseband
      (Message.DSPSignalNotification 0 0)).2.m_world.basebandSampleRate = 0 := by
  refine ⟨?_, rfl, rfl, rfl, rfl⟩
  show (List.replicate 30720 ((0, 0) : Sample)).length = 30720
  exact List.length_replicate _ _

/-- A message of a class the modulator does not recognise only leaves its
entry in the trace. -/
theorem handleMessage_unrecognised (env : ModEnv) (st : LoRaModBaseband env.World)
    (cmd : Message) (h : recognises cmd = false) :
    handleMessage env st cmd = (false, log (Event.handleMessage cmd) st) := by
  cases cmd <;> simp_all [recognises, handleMessage]

/-- The flag returned by `handleMessage` of the modulator. -/
theorem handleMessage_flag (env : ModEnv) (st : LoRaModBaseband env.World) (cmd : Message) :
    (handleMessage env st cmd).1 = recognises cmd := by
  cases cmd <;> simp [recognises, handleMessage]

end LoRaModBaseband

namespace BladeRF2MIMOGui

/-- The method `handleMessage` of the GUI does not push to or pop from the
message queue, and records exactly one entry, for the message it is given. -/
theorem gui_handleMessage_queue_dispatched (g : BladeRF2MIMOGui) (message : Message) :
    (handleMessage g message).2.m_inputMessageQueue = g.m_inputMessageQueue ∧
    dispatchedMessages (handleMessage g message).2.m_trace
      = dispatchedMessages g.m_trace ++ [message] := by
  cases message with
  | DSPMIMOSignalNotification a b c d =>
    cases c <;> cases hs : g.m_spectrumRxElseTx <;>
      simp [handleMessage, updateSampleRateAndFrequency, log, hs, dispatchedMessages,
        List.filterMap_append, Event.dispatched]
  | MsgConfigureBladeRF2MIMO a b =>
    simp [handleMessage, log, dispatchedMessages, List.filterMap_append, Event.dispatched]
  | MsgConfigureLoRaModBaseband a b =>
    simp [handleMessage, log, dispatchedMessages, List.filterMap_append, Event.dispatched]
  | MsgConfigureLoRaModPayload a =>
    simp [handleMessage, log, dispatchedMessages, List.filterMap_append, Event.dispatched]
  | DSPSignalNotification a b =>
    simp [handleMessage, log, dispatchedMessages, List.filterMap_append, Event.dispatched]
  | other a =>
    simp [handleMessage, log, dispatchedMessages, List.filterMap_append, Event.dispatched]

/-- With at least as many iterations as pending messages, the loop of the GUI
`handleInputMessages` ends with an empty queue, having entered `handleMessage`
once for each pending message, oldest first. -/
theorem gui_handleInputMessages_drains (fuel : Nat) :
    ∀ g : BladeRF2MIMOGui, g.m_inputMessageQueue.length ≤ fuel →
      ∃ g', handleInputMessages fuel g = some g' ∧ g'.m_inputMessageQueue = [] ∧
        dispatchedMessages g'.m_trace
          = dispatchedMessages g.m_trace ++ g.m_inputMessageQueue := by
  induction fuel with
  | zero =>
    intro g h
    have hq : g.m_inputMessageQueue = [] := List.length_eq_zero.mp (Nat.le_zero.mp h)
    exact ⟨g, by simp [handleInputMessages, MessageQueue.pop, hq], hq, by simp [hq]⟩
  | succ fuel ih =>
    intro g h
    cases hq : g.m_inputMessageQueue with
    | nil => exact ⟨g, by simp [handleInputMessages, MessageQueue.pop, hq], hq, by simp⟩
    | cons message rest =>
      obtain ⟨h1, h2⟩ := gui_handleMessage_queue_dispatched
        { g with m_inputMessageQueue := rest } message
      have hlen : (handleMessage { g with m_inputMessageQueue := rest }
          message).2.m_inputMessageQueue.length ≤ fuel := by
        rw [h1]
        rw [hq] at h
        simpa using h
      obtain ⟨g', e1, e2, e3⟩ := ih _ hlen
      refine ⟨g', ?_, e2, ?_⟩
      · simp only [handleInputMessages, MessageQueue.pop, hq]
        exact e1
      · rw [e3, h2, h1]
        simp

/-- The method `handleMessage` of the GUI does not read the message queue. -/
theorem gui_handleMessage_queue_irrelevant (g : BladeRF2MIMOGui) (message : Message)
    (q : List Message) :
    handleMessage { g with m_inputMessageQueue := q } message
      = ((handleMessage g message).1,
          { (handleMessage g message).2 with m_inputMessageQueue := q }) := by
  cases message with
  | DSPMIMOSignalNotification a b c d =>
    cases c <;> cases hs : g.m_spectrumRxElseTx <;>
      simp [handleMessage, updateSampleRateAndFrequency, log, hs]
  | MsgConfigureBladeRF2MIMO a b => rfl
  | MsgConfigureLoRaModBaseband a b => rfl
  | MsgConfigureLoRaModPayload a => rfl
  | DSPSignalNotification a b => rfl
  | other a => rfl

/-- Handling a list of messages one after the other in the GUI commutes with
replacing the queue. -/
theorem gui_foldl_handleMessage_queue (l : List Message) :
    ∀ (g : BladeRF2MIMOGui) (q : List Message),
      l.foldl (fun s m => (handleMessage s m).2) { g with m_inputMessageQueue := q }
        = { l.foldl (fun s m => (handleMessage s m).2) g with m_inputMessageQueue := q } := by
  induction l with
  | nil => intro g q; rfl
  | cons m rest ih =>
    intro g q
    simp only [List.foldl_cons, gui_handleMessage_queue_irrelevant g m q]
    exact ih _ q

/-- With at least as many iterations as pending messages, the state the GUI
`handleInputMessages` returns is the state that `handleMessage` leaves when it
is applied to the pending messages one after the other, oldest first, with an
empty queue. -/
theorem gui_handleInputMessages_fold (fuel : Nat) :
    ∀ g : BladeRF2MIMOGui, g.m_inputMessageQueue.length ≤ fuel →
      handleInputMessages fuel g
        = some { g.m_inputMessageQueue.foldl (fun s m => (handleMessage s m).2) g with
            m_inputMessageQueue := [] } := by
  induction fuel with
  | zero =>
    intro g h
    have hq : g.m_inputMessageQueue = [] := List.length_eq_zero.mp (Nat.le_zero.mp h)
    simp only [handleInputMessages, MessageQueue.pop, hq, List.foldl_nil]
    rw [← hq]
  | succ fuel ih =>
    intro g h
    cases hq : g.m_inputMessageQueue with
    | nil =>
      simp only [handleInputMessages, MessageQueue.pop, hq, List.foldl_nil]
      rw [← hq]
    | cons message rest =>
      have h1 := (gui_handleMessage_queue_dispatched
        { g with m_inputMessageQueue := rest } message).1
      have hlen : (handleMessage { g with m_inputMessageQueue := rest }
          message).2.m_inputMessageQueue.length ≤ fuel := by
        rw [h1]
        rw [hq] at h
        simpa using h
      simp only [handleInputMessages, MessageQueue.pop, hq, List.foldl_cons]
      rw [ih _ hlen, h1, gui_handleMessage_queue_irrelevant g message rest]
      simp only [gui_foldl_handleMessage_queue]

/-- A message of a class the GUI does not recognise only leaves its entry in
the trace. -/
theorem gui_handleMessage_unrecognised (g : BladeRF2MIMOGui) (message : Message)
    (h : recognises message = false) :
    handleMessage g message = (false, log (Event.handleMessage message) g) := by
  cases message <;> simp_all [recognises, handleMessage]

/-- The flag returned by `handleMessage` of the GUI. -/
theorem gui_handleMessage_flag (g : BladeRF2MIMOGui) (message : Message) :
    (handleMessage g message).1 = recognises message := by
  cases message <;> simp [recognises, handleMessage]

end BladeRF2MIMOGui

/-- Claim C17: `handleMessage` returns `false` exactly for a message of none
of the recognised classes, and then changes nothing but the record of its own
entry (collaborators, settings and queue are as before). A queue that holds
such a message, with enough loop iterations, is still emptied by
`handleInputMessages`: the state returned is the one left by handling the
messages queued before it, recording the entry of the unhandled message, and
then handling every message queued after it, in order; and `handleMessage` has
been entered for every message of the queue. This holds for the modulator and
for the GUI. -/
theorem unhandled_message_does_not_stop (env : ModEnv) (st : LoRaModBaseband env.World)
    (g : BladeRF2MIMOGui) (cmd message : Message) (before after gbefore gafter : List Message)
    (fuel gfuel : Nat)
    (hcmd : LoRaModBaseband.recognises cmd = false)
    (hq : st.m_inputMessageQueue = before ++ cmd :: after)
    (hfuel : st.m_inputMessageQueue.length ≤ fuel)
    (hmessage : BladeRF2MIMOGui.recognises message = false)
    (hgq : g.m_inputMessageQueue = gbefore ++ message :: gafter)
    (hgfuel : g.m_inputMessageQueue.length ≤ gfuel) :
    (∀ m, (LoRaModBaseband.handleMessage env st m).1 = false ↔
      LoRaModBaseband.recognises m = false) ∧
    LoRaModBaseband.handleMessage env st cmd
      = (false, { st with m_trace := st.m_trace ++ [Event.handleMessage cmd] }) ∧
    LoRaModBaseband.handleInputMessages env fuel st
      = some { after.foldl (fun s m => (LoRaModBaseband.handleMessage env s m).2)
            { before.foldl (fun s m => (LoRaModBaseband.handleMessage env s m).2) st with
              m_trace := (before.foldl (fun s m => (LoRaModBaseband.handleMessage env s m).2)
                st).m_trace ++ [Event.handleMessage cmd] } with
          m_inputMessageQueue := [] } ∧
    (∃ st', LoRaModBaseband.handleInputMessages env fuel st = some st' ∧
      st'.m_inputMessageQueue = [] ∧
      dispatchedMessages st'.m_trace = dispatchedMessages st.m_trace ++ before ++ cmd :: after) ∧
    (∀ m, (BladeRF2MIMOGui.handleMessage g m).1 = false ↔
      BladeRF2MIMOGui.recognises m = false) ∧
    BladeRF2MIMOGui.handleMessage g message
      = (false, { g with m_trace := g.m_trace ++ [Event.handleMessage message] }) ∧
    BladeRF2MIMOGui.handleInputMessages gfuel g
      = some { gafter.foldl (fun s m => (BladeRF2MIMOGui.handleMessage s m).2)
            { gbefore.foldl (fun s m => (BladeRF2MIMOGui.handleMessage s m).2) g with
              m_trace := (gbefore.foldl (fun s m => (BladeRF2MIMOGui.handleMessage s m).2)
                g).m_trace ++ [Event.handleMessage message] } with
          m_inputMessageQueue := [] } ∧
    (∃ g', BladeRF2MIMOGui.handleInputMessages gfuel g = some g' ∧
      g'.m_inputMessageQueue = [] ∧
      dispatchedMessages g'.m_trace
        = dispatchedMessages g.m_trace ++ gbefore ++ message :: gafter) := by
  refine ⟨fun m => ?_, ?_, ?_, ?_, fun m => ?_, ?_, ?_, ?_⟩
  · rw [LoRaModBaseband.handleMessage_flag]
  · exact LoRaModBaseband.handleMessage_unrecognised env st cmd hcmd
  · rw [LoRaModBaseband.handleInputMessages_fold env fuel st hfuel, hq, List.foldl_append,
      List.foldl_cons, LoRaModBaseband.handleMessage_unrecognised env _ cmd hcmd]
    rfl
  · obtain ⟨st', e1, e2, e3⟩ := LoRaModBaseband.handleInputMessages_drains env fuel st hfuel
    refine ⟨st', e1, e2, ?_⟩
    rw [e3, hq, List.append_assoc]
  · rw [BladeRF2MIMOGui.gui_handleMessage_flag]
  · exact BladeRF2MIMOGui.gui_handleMessage_unrecognised g message hmessage
  · rw [BladeRF2MIMOGui.gui_handleInputMessages_fold gfuel g hgfuel, hgq, List.foldl_append,
      List.foldl_cons, BladeRF2MIMOGui.gui_handleMessage_unrecognised _ message hmessage]
    rfl
  · obtain ⟨g', e1, e2, e3⟩ := BladeRF2MIMOGui.gui_handleInputMessages_drains gfuel g hgfuel
    refine ⟨g', e1, e2, ?_⟩
    rw [e3, hgq, List.append_assoc]

/-- Witness of C17: the queues `sampleQueue` and `sampleGuiQueue`, whose second
message is of an unknown class. The payload queued after it reaches the source
of the modulator, and the configuration queued after it is displayed by the
GUI. -/
theorem unhandled_message_does_not_stop_witness :
    LoRaModBaseband.recognises (Message.other 42) = false ∧
    BladeRF2MIMOGui.recognises (Message.other 42) = false ∧
    (LoRaModBaseband.handleMessage sampleModEnv
        { wrappedBaseband with m_inputMessageQueue := sampleQueue } (Message.other 42)).1
      = false ∧
    (LoRaModBaseband.handleInputMessages sampleModEnv 3
        { wrappedBaseband with m_inputMessageQueue := sampleQueue }).map
        (fun st' => (st'.m_settings, st'.m_world.symbols))
      = some (otherSettings, [1, 2, 3]) ∧
    (BladeRF2MIMOGui.handleInputMessages 3
        { sampleGui with m_inputMessageQueue := sampleGuiQueue }).map
        (fun g' => (g'.m_rxDeviceCenterFrequency, g'.m_trace.getLast?))
      = some (868000000, some Event.displaySettings) ∧
    LoRaModBaseband.handleInputMessages sampleModEnv 3
        { wrappedBaseband with m_inputMessageQueue := sampleQueue }
      = some { [Message.MsgConfigureLoRaModPayload [1, 2, 3]].foldl
            (fun s m => (LoRaModBaseband.handleMessage sampleModEnv s m).2)
            { [Message.MsgConfigureLoRaModBaseband otherSettings false].foldl
                (fun s m => (LoRaModBaseband.handleMessage sampleModEnv s m).2)
                { wrappedBaseband with m_inputMessageQueue := sampleQueue } with
              m_trace := ([Message.MsgConfigureLoRaModBaseband otherSettings false].foldl
                (fun s m => (LoRaModBaseband.handleMessage sampleModEnv s m).2)
                { wrappedBaseband with m_inputMessageQueue := sampleQueue }).m_trace
                ++ [Event.handleMessage (Message.other 42)] } with
          m_inputMessageQueue := [] } ∧
    BladeRF2MIMOGui.handleInputMessages 3
        { sampleGui with m_inputMessageQueue := sampleGuiQueue }
      = some { [Message.MsgConfigureBladeRF2MIMO sampleGui.m_settings false].foldl
            (fun s m => (BladeRF2MIMOGui.handleMessage s m).2)
            { [Message.DSPMIMOSignalNotification 1536000 868000000 true 0].foldl
                (fun s m => (BladeRF2MIMOGui.handleMessage s m).2)
                { sampleGui with m_inputMessageQueue := sampleGuiQueue } with
              m_trace := ([Message.DSPMIMOSignalNotification 1536000 868000000 true 0].foldl
                (fun s m => (BladeRF2MIMOGui.handleMessage s m).2)
                { sampleGui with m_inputMessageQueue := sampleGuiQueue }).m_trace
                ++ [Event.handleMessage (Message.other 42)] } with
          m_inputMessageQueue := [] } :=
  have h := unhandled_message_does_not_stop sampleModEnv
    { wrappedBaseband with m_inputMessageQueue := sampleQueue }
    { sampleGui with m_inputMessageQueue := sampleGuiQueue }
    (Message.other 42) (Message.other 42)
    [Message.MsgConfigureLoRaModBaseband otherSettings false]
    [Message.MsgConfigureLoRaModPayload [1, 2, 3]]
    [Message.DSPMIMOSignalNotification 1536000 868000000 true 0]
    [Message.MsgConfigureBladeRF2MIMO sampleGui.m_settings false]
    3 3 rfl rfl (by decide) rfl rfl (by decide)
  ⟨rfl, rfl, (h.1 (Message.other 42)).mpr rfl, by decide, by decide, h.2.2.1,
    h.2.2.2.2.2.2.1⟩

namespace LoRaModBaseband


/-! ## Theorems on the data path of the modulator -/

/-- Claim C18, as the code has it: a drain cycle started while messages are
queued does not dispatch them and does not touch the sample data either. For
every number of loop iterations `handleData` has a result, in which the queue
is as before and the only calls made are, under the mutex, `getLevels` and the
emission of `levelChanged`: no entry of `handleMessage`, no FIFO write or
read, no channelizer pull. -/
theorem handleData_pending_messages (env : ModEnv) (fuel : Nat) (st : LoRaModBaseband env.World)
    (hq : st.m_inputMessageQueue ≠ []) :
    handleData env fuel st
      = some { st with
          m_world := env.getLevels st.m_world
          m_trace := st.m_trace
            ++ [Event.lock, Event.getLevels, Event.levelChanged, Event.unlock] } ∧
    dispatchedMessages [Event.lock, Event.getLevels, Event.levelChanged, Event.unlock] = [] ∧
    [Event.lock, Event.getLevels, Event.levelChanged, Event.unlock].filter Event.touchesSamples
      = [] := by
  have hc : handleDataCondition env (log Event.lock st) = false := by
    have hlen : st.m_inputMessageQueue.length ≠ 0 := fun h => hq (List.length_eq_zero.mp h)
    simp [handleDataCondition, MessageQueue.size, log, hlen]
  have hloop : handleDataLoop env fuel (log Event.lock st) = some (log Event.lock st) := by
    cases fuel <;> simp [handleDataLoop, hc]
  refine ⟨?_, rfl, rfl⟩
  unfold handleData
  rw [hloop]
  simp [log, call]

/-- Witness of C18 as amended: `handleData` on a modulator with the three
pending messages of `sampleQueue`. -/
theorem handleData_pending_messages_witness :
    ({ wrappedBaseband with m_inputMessageQueue := sampleQueue }
      : LoRaModBaseband SampleWorld).m_inputMessageQueue ≠ [] ∧
    (handleData sampleModEnv 5 { wrappedBaseband with m_inputMessageQueue := sampleQueue }
      = some { ({ wrappedBaseband with m_inputMessageQueue := sampleQueue }
            : LoRaModBaseband SampleWorld) with
          m_world := sampleModEnv.getLevels
            ({ wrappedBaseband with m_inputMessageQueue := sampleQueue }
              : LoRaModBaseband SampleWorld).m_world
          m_trace := ({ wrappedBaseband with m_inputMessageQueue := sampleQueue }
              : LoRaModBaseband SampleWorld).m_trace
            ++ [Event.lock, Event.getLevels, Event.levelChanged, Event.unlock] } ∧
    dispatchedMessages [Event.lock, Event.getLevels, Event.levelChanged, Event.unlock] = [] ∧
    [Event.lock, Event.getLevels, Event.levelChanged, Event.unlock].filter Event.touchesSamples
      = []) :=
  ⟨by decide,
    handleData_pending_messages sampleModEnv 5
      { wrappedBaseband with m_inputMessageQueue := sampleQueue } (by decide)⟩

/-- Counterexample to C18 as stated: the FIFO of `wrappedBaseband` has 2
writable slots and three messages are queued; `handleData` returns with the
three messages still in the queue and no entry of `handleMessage` in the
trace. -/
theorem handleData_dispatches_nothing :
    sampleModEnv.fifoRemainder wrappedBaseband.m_world = 2 ∧
    handleData sampleModEnv 5 { wrappedBaseband with m_inputMessageQueue := sampleQueue }
      = some { wrappedBaseband with
          m_inputMessageQueue := sampleQueue
          m_trace := [Event.lock, Event.getLevels, Event.levelChanged, Event.unlock] } ∧
    sampleQueue.length = 3 ∧
    dispatchedMessages [Event.lock, Event.getLevels, Event.levelChanged, Event.unlock] = [] :=
  ⟨rfl, rfl, rfl, rfl⟩

/-- The result of `copyRange` for a range of `data` that fits the destination. -/
theorem copyRange_eq (data : List Sample) (first last : Nat) (dest : List Sample) (off : Nat)
    (h1 : first ≤ last) (h2 : last ≤ data.length) (h3 : off + (last - first) ≤ dest.length) :
    copyRange data first last dest off
      = some (dest.take off ++ (data.drop first).take (last - first)
          ++ dest.drop (off + (last - first))) := by
  unfold copyRange
  rw [if_pos ⟨h1, h2, h3⟩]

/-- Length of a range of `data`. -/
theorem slice_length (data : List Sample) (first last : Nat) (h1 : first ≤ last)
    (h2 : last ≤ data.length) : ((data.drop first).take (last - first)).length = last - first := by
  rw [List.length_take, List.length_drop]
  omega

/-- A second piece written right behind a first one of `n1` elements. -/
theorem splice_second (s1 s2 dest : List Sample) (n1 n2 : Nat) (h : s1.length = n1) :
    (s1 ++ dest.drop n1).take n1 ++ s2 ++ (s1 ++ dest.drop n1).drop (n1 + n2)
      = s1 ++ s2 ++ dest.drop (n1 + n2) := by
  subst h
  rw [List.take_left' rfl, List.drop_append, List.drop_drop, Nat.add_comm]

/-- Claim C19: when the FIFO read gives two regions `[p1b, p1e)` and
`[p2b, p2e)` inside the backing store and the destination has room for both,
`pull` has a result: the destination holds `data[p1b..p1e)` from its first
element on, followed at once by `data[p2b..p2e)`, that is
`(p1e - p1b) + (p2e - p2b)` samples, and behind them its former elements; the
state is the one the FIFO read left, so that the data of the FIFO is not
written. -/
theorem pull_concatenates_regions (env : ModEnv) (st : LoRaModBaseband env.World)
    (dest : List Sample) (nbSamples p1b p1e p2b p2e : Nat) (w : env.World)
    (hread : env.fifoRead nbSamples st.m_world = ((p1b, p1e, p2b, p2e), w))
    (h1 : p1b ≤ p1e) (h1e : p1e ≤ (env.fifoData w).length)
    (h2 : p2b ≤ p2e) (h2e : p2e ≤ (env.fifoData w).length)
    (hroom : (p1e - p1b) + (p2e - p2b) ≤ dest.length) :
    pull env st dest nbSamples
      = some (((env.fifoData w).drop p1b).take (p1e - p1b)
          ++ ((env.fifoData w).drop p2b).take (p2e - p2b)
          ++ dest.drop ((p1e - p1b) + (p2e - p2b)),
        { st with m_world := w, m_trace := st.m_trace ++ [Event.fifoRead nbSamples] }) ∧
    (((env.fifoData w).drop p1b).take (p1e - p1b)
      ++ ((env.fifoData w).drop p2b).take (p2e - p2b)).length = (p1e - p1b) + (p2e - p2b) ∧
    (((env.fifoData w).drop p1b).take (p1e - p1b)
      ++ ((env.fifoData w).drop p2b).take (p2e - p2b)
      ++ dest.drop ((p1e - p1b) + (p2e - p2b))).length = dest.length := by
  have l1 := slice_length (env.fifoData w) p1b p1e h1 h1e
  have l2 := slice_length (env.fifoData w) p2b p2e h2 h2e
  refine ⟨?_, ?_, ?_⟩
  · unfold pull
    simp only [hread]
    by_cases e1 : p1b = p1e
    · by_cases e2 : p2b = p2e
      · subst e1 e2
        simp
      · subst e1
        simp only [ne_eq, not_true_eq_false, if_false, Option.some_bind, e2, not_false_eq_true,
          if_true, Nat.sub_self]
        rw [copyRange_eq _ _ _ _ _ h2 h2e (by omega)]
        simp
    · by_cases e2 : p2b = p2e
      · subst e2
        simp only [ne_eq, e1, not_false_eq_true, if_true, not_true_eq_false, if_false]
        rw [copyRange_eq _ _ _ _ _ h1 h1e (by omega)]
        simp
      · simp only [ne_eq, e1, e2, not_false_eq_true, if_true]
        rw [copyRange_eq _ _ _ _ _ h1 h1e (by omega)]
        simp only [Option.some_bind, List.take_zero, List.nil_append, Nat.zero_add]
        rw [copyRange_eq _ _ _ _ _ h2 h2e (by
          rw [List.length_append, l1, List.length_drop]
          omega)]
        simp only [Option.map_some', Option.some.injEq, Prod.mk.injEq, and_true]
        exact splice_second _ _ dest (p1e - p1b) (p2e - p2b) l1
  · rw [List.length_append, l1, l2]
  · rw [List.length_append, List.length_append, l1, l2, List.length_drop]
    omega

/-- Witness of C19: 4 samples pulled from `wrappedBaseband`, whose unread
samples wrap around the end of the backing store. -/
theorem pull_concatenates_regions_witness :
    sampleModEnv.fifoRead 4 wrappedBaseband.m_world
      = ((4, 6, 0, 2), { wrappedWorld with fifoHead := 2, fifoFill := 0 }) ∧
    pull sampleModEnv wrappedBaseband [(1, 1), (2, 2), (3, 3), (4, 4), (5, 5), (6, 6)] 4
      = some ([(14, 0), (15, 0), (10, 0), (11, 0), (5, 5), (6, 6)],
        { wrappedBaseband with
          m_world := { wrappedWorld with fifoHead := 2, fifoFill := 0 }
          m_trace := [Event.fifoRead 4] }) :=
  ⟨rfl,
    (pull_concatenates_regions sampleModEnv wrappedBaseband
      [(1, 1), (2, 2), (3, 3), (4, 4), (5, 5), (6, 6)] 4 4 6 0 2
      { wrappedWorld with fifoHead := 2, fifoFill := 0 } rfl (by decide) (by decide) (by decide)
      (by decide) (by decide)).1⟩

/-- The only call `pull` records is the FIFO read: it does not take the
mutex. -/
theorem pull_trace (env : ModEnv) (st : LoRaModBaseband env.World) (dest : List Sample)
    (nbSamples : Nat) (r : List Sample × LoRaModBaseband env.World)
    (h : pull env st dest nbSamples = some r) :
    r.2.m_trace = st.m_trace ++ [Event.fifoRead nbSamples] := by
  unfold pull at h
  simp only [Option.bind_eq_some, Option.map_eq_some'] at h
  obtain ⟨d1, -, d2, -, h3⟩ := h
  rw [← h3]

/-- Claim C20 fails on the code. Of the operations evaluated here on the
sample modulator, `reset`, `handleMessage` for each recognised class and
`handleData` make their calls on the FIFO and the channelizer while the mutex
is held; `pull` reads the FIFO and records no `lock`: its read is made with
the mutex not held. -/
theorem pull_reads_fifo_without_mutex :
    (pull sampleModEnv wrappedBaseband [(1, 1), (2, 2), (3, 3), (4, 4), (5, 5), (6, 6)] 4).map
      (fun r => r.2.m_trace) = some [Event.fifoRead 4] ∧
    guardedFrom 0 [Event.fifoRead 4] = false ∧
    (reset sampleModEnv wrappedBaseband).m_trace
      = [Event.lock, Event.fifoReset, Event.unlock] ∧
    guardedFrom 0 (reset sampleModEnv wrappedBaseband).m_trace = true ∧
    guardedFrom 0 (handleMessage sampleModEnv wrappedBaseband
      (Message.MsgConfigureLoRaModBaseband otherSettings false)).2.m_trace = true ∧
    guardedFrom 0 (handleMessage sampleModEnv wrappedBaseband
      (Message.MsgConfigureLoRaModPayload [1, 2, 3])).2.m_trace = true ∧
    guardedFrom 0 (handleMessage sampleModEnv wrappedBaseband
      (Message.DSPSignalNotification 800 0)).2.m_trace = true ∧
    (handleData sampleModEnv 5 wrappedBaseband).map (fun s => s.m_trace)
      = some [Event.lock, Event.fifoWrite 2, Event.channelizerPull 2 2, Event.getLevels,
          Event.levelChanged, Event.unlock] ∧
    guardedFrom 0 [Event.lock, Event.fifoWrite 2, Event.channelizerPull 2 2, Event.getLevels,
      Event.levelChanged, Event.unlock] = true :=
  ⟨rfl, rfl, rfl, rfl, rfl, rfl, rfl, rfl, rfl⟩


end LoRaModBaseband

namespace LoRaModBaseband

/-! ## The drain loop of the modulator -/

/-- The `while` of `handleData` is not entered when its condition is false. -/
theorem handleDataLoop_skipped (env : ModEnv) (fuel : Nat) (st : LoRaModBaseband env.World)
    (hc : handleDataCondition env st = false) : handleDataLoop env fuel st = some st := by
  cases fuel <;> simp [handleDataLoop, hc]

/-- The 32-bit count `iEnd - iBegin` of `processFifo` for a region of the FIFO. -/
theorem region_count (iBegin iEnd : Nat) (h : iBegin ≤ iEnd) (he : iEnd < 4294967296) :
    (iEnd + 4294967296 - iBegin) % 4294967296 = iEnd - iBegin := by
  omega

/-- When the indices the FIFO returns are ordered 32-bit values, the body of
the loop of `handleData` does what `drainIterationSpec` states. -/
theorem handleDataStep_eq_spec (env : ModEnv) (st : LoRaModBaseband env.World)
    (h : (env.fifoWrite (env.fifoRemainder st.m_world) st.m_world).1.1
        ≤ (env.fifoWrite (env.fifoRemainder st.m_world) st.m_world).1.2.1
      ∧ (env.fifoWrite (env.fifoRemainder st.m_world) st.m_world).1.2.1 < 4294967296
      ∧ (env.fifoWrite (env.fifoRemainder st.m_world) st.m_world).1.2.2.1
        ≤ (env.fifoWrite (env.fifoRemainder st.m_world) st.m_world).1.2.2.2
      ∧ (env.fifoWrite (env.fifoRemainder st.m_world) st.m_world).1.2.2.2 < 4294967296) :
    handleDataStep env st = drainIterationSpec env st := by
  obtain ⟨h1, h1e, h2, h2e⟩ := h
  unfold handleDataStep drainIterationSpec
  simp only [processFifo, call, region_count _ _ h1 h1e, region_count _ _ h2 h2e]
  by_cases e1 : (env.fifoWrite (env.fifoRemainder st.m_world) st.m_world).1.1
      = (env.fifoWrite (env.fifoRemainder st.m_world) st.m_world).1.2.1 <;>
    by_cases e2 : (env.fifoWrite (env.fifoRemainder st.m_world) st.m_world).1.2.2.1
      = (env.fifoWrite (env.fifoRemainder st.m_world) st.m_world).1.2.2.2
  · simp [List.filter, e1, e2]
  · have l2 := Nat.lt_of_le_of_ne h2 e2
    simp [List.filter, e1, e2, l2]
  · have l1 := Nat.lt_of_le_of_ne h1 e1
    simp [List.filter, e1, e2, l1]
  · have l1 := Nat.lt_of_le_of_ne h1 e1
    have l2 := Nat.lt_of_le_of_ne h2 e2
    simp [List.filter, e1, e2, l1, l2]

/-- A loop of `handleData` whose condition holds for `k` iterations and fails
after them ends, with at least `k` iterations allowed, in the state that `k`
iterations as the specification states them leave. -/
theorem handleDataLoop_iterate (env : ModEnv) (k : Nat) :
    ∀ (fuel : Nat) (st : LoRaModBaseband env.World), k ≤ fuel →
      (∀ i, i < k →
        handleDataCondition env (Nat.iterate (drainIterationSpec env) i st) = true ∧
        (env.fifoWrite (env.fifoRemainder (Nat.iterate (drainIterationSpec env) i st).m_world)
            (Nat.iterate (drainIterationSpec env) i st).m_world).1.1
          ≤ (env.fifoWrite (env.fifoRemainder (Nat.iterate (drainIterationSpec env) i st).m_world)
            (Nat.iterate (drainIterationSpec env) i st).m_world).1.2.1
        ∧ (env.fifoWrite (env.fifoRemainder (Nat.iterate (drainIterationSpec env) i st).m_world)
            (Nat.iterate (drainIterationSpec env) i st).m_world).1.2.1 < 4294967296
        ∧ (env.fifoWrite (env.fifoRemainder (Nat.iterate (drainIterationSpec env) i st).m_world)
            (Nat.iterate (drainIterationSpec env) i st).m_world).1.2.2.1
          ≤ (env.fifoWrite (env.fifoRemainder (Nat.iterate (drainIterationSpec env) i st).m_world)
            (Nat.iterate (drainIterationSpec env) i st).m_world).1.2.2.2
        ∧ (env.fifoWrite (env.fifoRemainder (Nat.iterate (drainIterationSpec env) i st).m_world)
            (Nat.iterate (drainIterationSpec env) i st).m_world).1.2.2.2 < 4294967296) →
      handleDataCondition env (Nat.iterate (drainIterationSpec env) k st) = false →
      handleDataLoop env fuel st = some (Nat.iterate (drainIterationSpec env) k st) := by
  induction k with
  | zero =>
    intro fuel st _ _ hstop
    exact handleDataLoop_skipped env fuel st hstop
  | succ k ih =>
    intro fuel st hk hrun hstop
    obtain ⟨fuel, rfl⟩ : ∃ f, fuel = f + 1 := ⟨fuel - 1, by omega⟩
    have h0 := hrun 0 (Nat.succ_pos k)
    simp only [Function.iterate_zero, id_eq] at h0
    have hstep := handleDataStep_eq_spec env st h0.2
    have hloop : handleDataLoop env (fuel + 1) st
        = handleDataLoop env fuel (handleDataStep env st) := by
      simp [handleDataLoop, h0.1]
    rw [hloop, hstep, Function.iterate_succ_apply]
    refine ih fuel (drainIterationSpec env st) (by omega) (fun i hi => ?_) ?_
    · have := hrun (i + 1) (by omega)
      rw [Function.iterate_succ_apply] at this
      exact this
    · rw [Function.iterate_succ_apply] at hstop
      exact hstop

/-- Claim C21: when the input message queue is not empty on entry,
`handleData` has a result in which the only calls made are the taking of the
mutex, `getLevels`, the emission of `levelChanged` and the release: no FIFO
write and no channelizer pull. And whenever its loop runs `k` iterations (its
condition holds before each of them and fails after the last, the FIFO
returning ordered 32-bit indices), `handleData` has a result with at least `k`
iterations allowed, and that result is the state left by taking the mutex,
then `k` iterations as the specification states them (each non-empty region
passed to the channelizer once, region one before region two, with a count
equal to the region length), then `getLevels`, `levelChanged` and the
release. -/
theorem handleData_regions (env : ModEnv) (fuel : Nat) (st : LoRaModBaseband env.World) :
    (st.m_inputMessageQueue ≠ [] →
      handleData env fuel st
        = some { st with
            m_world := env.getLevels st.m_world
            m_trace := st.m_trace
              ++ [Event.lock, Event.getLevels, Event.levelChanged, Event.unlock] }) ∧
    (∀ k, k ≤ fuel →
      (∀ i, i < k →
        handleDataCondition env
          (Nat.iterate (drainIterationSpec env) i (log Event.lock st)) = true ∧
        (env.fifoWrite
            (env.fifoRemainder (Nat.iterate (drainIterationSpec env) i (log Event.lock st)).m_world)
            (Nat.iterate (drainIterationSpec env) i (log Event.lock st)).m_world).1.1
          ≤ (env.fifoWrite
            (env.fifoRemainder (Nat.iterate (drainIterationSpec env) i (log Event.lock st)).m_world)
            (Nat.iterate (drainIterationSpec env) i (log Event.lock st)).m_world).1.2.1
        ∧ (env.fifoWrite
            (env.fifoRemainder (Nat.iterate (drainIterationSpec env) i (log Event.lock st)).m_world)
            (Nat.iterate (drainIterationSpec env) i (log Event.lock st)).m_world).1.2.1
          < 4294967296
        ∧ (env.fifoWrite
            (env.fifoRemainder (Nat.iterate (drainIterationSpec env) i (log Event.lock st)).m_world)
            (Nat.iterate (drainIterationSpec env) i (log Event.lock st)).m_world).1.2.2.1
          ≤ (env.fifoWrite
            (env.fifoRemainder (Nat.iterate (drainIterationSpec env) i (log Event.lock st)).m_world)
            (Nat.iterate (drainIterationSpec env) i (log Event.lock st)).m_world).1.2.2.2
        ∧ (env.fifoWrite
            (env.fifoRemainder (Nat.iterate (drainIterationSpec env) i (log Event.lock st)).m_world)
            (Nat.iterate (drainIterationSpec env) i (log Event.lock st)).m_world).1.2.2.2
          < 4294967296) →
      handleDataCondition env
        (Nat.iterate (drainIterationSpec env) k (log Event.lock st)) = false →
      handleData env fuel st
        = some { Nat.iterate (drainIterationSpec env) k (log Event.lock st) with
            m_world := env.getLevels
              (Nat.iterate (drainIterationSpec env) k (log Event.lock st)).m_world
            m_trace := (Nat.iterate (drainIterationSpec env) k (log Event.lock st)).m_trace
              ++ [Event.getLevels, Event.levelChanged, Event.unlock] }) := by
  constructor
  · intro hq
    have hc : handleDataCondition env (log Event.lock st) = false := by
      have hlen : st.m_inputMessageQueue.length ≠ 0 := fun h => hq (List.length_eq_zero.mp h)
      simp [handleDataCondition, MessageQueue.size, log, hlen]
    unfold handleData
    rw [handleDataLoop_skipped env fuel _ hc]
    simp [log, call]
  · intro k hk hrun hstop
    unfold handleData
    rw [handleDataLoop_iterate env k fuel _ hk hrun hstop]
    simp [log, call]

/-- Witness of C21: `handleData` with `sampleQueue` pending, and `handleData`
on `drainedBaseband`, whose loop runs once: the FIFO returns the regions
`[4, 6)` and `[0, 4)` for its 6 writable slots, and both are pulled, in this
order. -/
theorem handleData_regions_witness :
    ({ wrappedBaseband with m_inputMessageQueue := sampleQueue }
      : LoRaModBaseband SampleWorld).m_inputMessageQueue ≠ [] ∧
    handleData sampleModEnv 5 { wrappedBaseband with m_inputMessageQueue := sampleQueue }
      = some { ({ wrappedBaseband with m_inputMessageQueue := sampleQueue }
            : LoRaModBaseband SampleWorld) with
          m_world := sampleModEnv.getLevels wrappedBaseband.m_world
          m_trace := wrappedBaseband.m_trace
            ++ [Event.lock, Event.getLevels, Event.levelChanged, Event.unlock] } ∧
    (handleData sampleModEnv 5 drainedBaseband).map (fun st' => st'.m_trace)
      = some [Event.lock, Event.fifoWrite 6, Event.channelizerPull 4 2,
          Event.channelizerPull 0 4, Event.getLevels, Event.levelChanged, Event.unlock] ∧
    (handleData sampleModEnv 5 drainedBaseband).map (fun st' => st'.m_world.fifoData)
      = some [(2, 0), (3, 0), (4, 0), (5, 0), (0, 0), (1, 0)] ∧
    handleData sampleModEnv 5 drainedBaseband
      = some { Nat.iterate (drainIterationSpec sampleModEnv) 1 (log Event.lock drainedBaseband) with
          m_world := sampleModEnv.getLevels
            (Nat.iterate (drainIterationSpec sampleModEnv) 1
              (log Event.lock drainedBaseband)).m_world
          m_trace := (Nat.iterate (drainIterationSpec sampleModEnv) 1
              (log Event.lock drainedBaseband)).m_trace
            ++ [Event.getLevels, Event.levelChanged, Event.unlock] } :=
  ⟨by decide,
    (handleData_regions sampleModEnv 5
      { wrappedBaseband with m_inputMessageQueue := sampleQueue }).1 (by decide),
    by decide, by decide,
    (handleData_regions sampleModEnv 5 drainedBaseband).2 1 (by decide)
      (fun i hi => by
        have h0 : i = 0 := by omega
        subst h0
        decide)
      (by decide)⟩

end LoRaModBaseband

namespace BladeRF2MIMOGui

/-! ## Theorems on the BladeRF2 MIMO GUI -/

/-- Claim C23: for an index outside 0..6, `on_decim_currentIndexChanged`
returns the state it was given (settings unchanged, no call made, update timer
not started); for an index in 0..6 the log2 factor of the selected side
(`m_log2Decim` for Rx, `m_log2Interp` for Tx) becomes the index, the factor of
the other side is unchanged, and the update timer is running afterwards. -/
theorem on_decim_installs_index (env : GuiEnv) (g : BladeRF2MIMOGui) (index : Int) :
    ((index < 0 ∨ index > 6) → on_decim_currentIndexChanged env g index = g) ∧
    ((0 ≤ index ∧ index ≤ 6) →
      ((on_decim_currentIndexChanged env g index).m_updateTimerActive = true) ∧
      (g.m_rxElseTx = true →
        ((on_decim_currentIndexChanged env g index).m_settings.m_log2Decim : Int) = index ∧
        (on_decim_currentIndexChanged env g index).m_settings.m_log2Interp
          = g.m_settings.m_log2Interp) ∧
      (g.m_rxElseTx = false →
        ((on_decim_currentIndexChanged env g index).m_settings.m_log2Interp : Int) = index ∧
        (on_decim_currentIndexChanged env g index).m_settings.m_log2Decim
          = g.m_settings.m_log2Decim)) := by
  constructor
  · intro h
    unfold on_decim_currentIndexChanged
    rw [if_pos h]
  · intro h
    have hn : ¬ (index < 0 ∨ index > 6) := by omega
    have hi : (index.toNat : Int) = index := Int.toNat_of_nonneg h.1
    unfold on_decim_currentIndexChanged
    rw [if_neg hn]
    refine ⟨?_, ?_, ?_⟩
    · cases ht : g.m_updateTimerActive <;> cases hr : g.m_rxElseTx <;>
        simp [sendSettings, log, ht, hr]
    · intro hr
      cases ht : g.m_updateTimerActive <;> simp [sendSettings, log, ht, hr, hi]
    · intro hr
      cases ht : g.m_updateTimerActive <;> simp [sendSettings, log, ht, hr, hi]

/-- Witness of C23: the indices 7 and 3 on `sampleGui`, whose selected side is
Rx. -/
theorem on_decim_installs_index_witness :
    ((7 : Int) < 0 ∨ (7 : Int) > 6) ∧
    on_decim_currentIndexChanged sampleGuiEnv sampleGui 7 = sampleGui ∧
    ((0 : Int) ≤ 3 ∧ (3 : Int) ≤ 6) ∧ sampleGui.m_rxElseTx = true ∧
    ((on_decim_currentIndexChanged sampleGuiEnv sampleGui 3).m_settings.m_log2Decim : Int) = 3 ∧
    (on_decim_currentIndexChanged sampleGuiEnv sampleGui 3).m_settings.m_log2Interp
      = sampleGui.m_settings.m_log2Interp :=
  ⟨by decide, (on_decim_installs_index sampleGuiEnv sampleGui 7).1 (by decide), by decide, rfl,
    (((on_decim_installs_index sampleGuiEnv sampleGui 3).2 (by decide)).2.1 rfl).1,
    (((on_decim_installs_index sampleGuiEnv sampleGui 3).2 (by decide)).2.1 rfl).2⟩

/-- The limits do not depend on the Tx frequency range of the device. -/
theorem frequencyLimits_ignores_tx (env : GuiEnv) (g : BladeRF2MIMOGui) (tx : Nat × Nat) :
    frequencyLimits { env with txFrequencyRange := tx } g = frequencyLimits env g := by
  unfold frequencyLimits
  rfl

/-- The limits are inside `[0, 9999999]`, and ordered when the Rx range of the
device is (64-bit values). -/
theorem frequencyLimits_ordered (env : GuiEnv) (g : BladeRF2MIMOGui)
    (hle : env.rxFrequencyRange.1 ≤ env.rxFrequencyRange.2)
    (hmax : env.rxFrequencyRange.2 < 18446744073709551616)
    (hrx : g.m_settings.m_rxTransverterDeltaFrequency.natAbs ≤ 9223372036854775808)
    (htx : g.m_settings.m_txTransverterDeltaFrequency.natAbs ≤ 9223372036854775808) :
    0 ≤ (frequencyLimits env g).1 ∧ (frequencyLimits env g).1 ≤ (frequencyLimits env g).2 ∧
    (frequencyLimits env g).2 ≤ 9999999 := by
  have e1 := Int.natAbs_tdiv g.m_settings.m_rxTransverterDeltaFrequency 1000
  have e2 := Int.natAbs_tdiv g.m_settings.m_txTransverterDeltaFrequency 1000
  have n1 : (Int.natAbs 1000) = 1000 := rfl
  rw [n1] at e1 e2
  have d1 : g.m_settings.m_rxTransverterDeltaFrequency.natAbs / 1000
      ≤ 9223372036854775 := by omega
  have d2 : g.m_settings.m_txTransverterDeltaFrequency.natAbs / 1000
      ≤ 9223372036854775 := by omega
  have q1 : env.rxFrequencyRange.1 / 1000 ≤ env.rxFrequencyRange.2 / 1000 :=
    Nat.div_le_div_right hle
  have q2 : env.rxFrequencyRange.2 / 1000 ≤ 18446744073709551 := by omega
  have e1' : (Int.tdiv g.m_settings.m_rxTransverterDeltaFrequency 1000).natAbs
      ≤ 9223372036854775 := by
    rw [e1]
    exact d1
  have e2' : (Int.tdiv g.m_settings.m_txTransverterDeltaFrequency 1000).natAbs
      ≤ 9223372036854775 := by
    rw [e2]
    exact d2
  unfold frequencyLimits toInt64
  simp only
  split_ifs <;> simp only <;> omega

/-- Claim C29 fails on the code. With the Tx side selected, no transverter
and a device whose Rx range starts at 70 MHz and whose Tx range starts at
47 MHz, `updateFrequencyLimits` gives the limits 70000 and 6000000 kHz to the
dial: those of the Rx range, not 47000 and 6000000 kHz of the Tx range. With
the Rx side selected it gives the same limits. -/
theorem updateFrequencyLimits_tx_uses_rx_range :
    ({ sampleGui with m_rxElseTx := false } : BladeRF2MIMOGui).m_rxElseTx = false ∧
    sampleGuiEnv.txFrequencyRange = (47000000, 6000000000) ∧
    sampleGuiEnv.rxFrequencyRange = (70000000, 6000000000) ∧
    frequencyLimits sampleGuiEnv { sampleGui with m_rxElseTx := false } = (70000, 6000000) ∧
    (updateFrequencyLimits sampleGuiEnv { sampleGui with m_rxElseTx := false }).m_trace
      = [Event.setValueRange 7 70000 6000000] ∧
    frequencyLimits sampleGuiEnv sampleGui = (70000, 6000000) ∧
    (70000 : Int) ≠ ((sampleGuiEnv.txFrequencyRange.1 / 1000 : Nat) : Int) :=
  ⟨rfl, rfl, rfl, by decide, by decide, by decide, by decide⟩

end BladeRF2MIMOGui


namespace TVScreenAnalog

/-! ## Theorems on the analog TV screen -/

/-- The methods `resizeTVScreen` and `selectRow` leave the image unchanged. -/
theorem image_unchanged (tv : TVScreenAnalog) (a b : Int) :
    (resizeTVScreen tv a b).m_image = tv.m_image ∧ (selectRow tv a b).m_image = tv.m_image := by
  refine ⟨rfl, ?_⟩
  unfold selectRow
  cases h : tv.m_image with
  | none => simp [h]
  | some img =>
    simp only
    split_ifs <;> simp [h]

/-- A call of `setDataColor` that does not pass its test, or that finds no
row selected, returns the screen unchanged. -/
theorem setDataColor_unchanged (tv : TVScreenAnalog) (intCol objColor : Int)
    (h : ¬ (intCol < tv.m_cols - 2 ∧ intCol ≥ -2) ∨ tv.m_objCurrentRow = none) :
    setDataColor tv intCol objColor = some tv := by
  unfold setDataColor
  rcases h with h | h
  · rw [if_neg h]
  · split_ifs <;> simp [h]

/-- While `m_cols` is the width of the image and the selected row is a row of
that image, `setDataColor` stores the colour in the selected row, at the index
`intCol + 2`, which is within the width of the image. -/
theorem setDataColor_in_row (tv : TVScreenAnalog) (img : QImage) (row : RowPointer)
    (intCol objColor : Int)
    (himg : tv.m_image = some img) (hrow : tv.m_objCurrentRow = some row)
    (hid : row.image = img.id) (hline : row.line < img.height)
    (hlen : img.pixels.length = img.width * img.height)
    (hcols : tv.m_cols = img.width)
    (hg : intCol < tv.m_cols - 2 ∧ intCol ≥ -2) :
    (intCol + 2).toNat < img.width ∧
    setDataColor tv intCol objColor
      = some { tv with
          m_image := some { img with
            pixels := img.pixels.set (row.line * img.width + (intCol + 2).toNat) objColor } } := by
  have hw : (intCol + 2).toNat < img.width := by omega
  refine ⟨hw, ?_⟩
  have hin : row.line * img.width + (intCol + 2).toNat < img.pixels.length := by
    rw [hlen]
    calc row.line * img.width + (intCol + 2).toNat
        < row.line * img.width + img.width := by omega
      _ = img.width * (row.line + 1) := by ring
      _ ≤ img.width * img.height := Nat.mul_le_mul_left _ hline
  unfold setDataColor
  rw [if_pos hg]
  simp only [hrow, himg]
  rw [if_pos ⟨hid, hin⟩]

/-- Claim C28 fails on the code. On a screen whose image is 8 pixels wide
and 3 rows high, `resizeTVScreen(12, 3)` makes `m_cols` 16 while the image
stays 8 wide until the textures are initialised again. `selectRow` tests only
the height, so it selects row 0 of that image, and `setDataColor(10, 255)`
passes its test against `m_cols` and stores at index 12 of the row, beyond the
width 8: the pixel changed is column 4 of row 1. With row 2 selected the same
call stores outside the pixels of the image. -/
theorem setDataColor_beyond_width :
    widenedScreen.m_cols = 16 ∧
    widenedScreen.m_image.map (fun img => (img.width, img.height)) = some (8, 3) ∧
    (selectRow widenedScreen 0 127).m_objCurrentRow = some { image := 0, line := 0 } ∧
    ((10 : Int) < (selectRow widenedScreen 0 127).m_cols - 2 ∧ (10 : Int) ≥ -2) ∧
    ¬ ((10 : Int) + 2 < 8) ∧
    (selectRow widenedScreen 0 127).m_image.bind (fun img => img.pixel 4 1) = some 0 ∧
    (setDataColor (selectRow widenedScreen 0 127) 10 255).map
        (fun tv => tv.m_image.map (fun img => img.pixels))
      = some (some [0, 0, 0, 0, 0, 0, 0, 0, 0, 0, 0, 0, 255, 0, 0, 0, 0, 0, 0, 0, 0, 0, 0, 0]) ∧
    (setDataColor (selectRow widenedScreen 0 127) 10 255).map
        (fun tv => tv.m_image.bind (fun img => img.pixel 4 1))
      = some (some 255) ∧
    (selectRow widenedScreen 2 127).m_objCurrentRow = some { image := 0, line := 2 } ∧
    setDataColor (selectRow widenedScreen 2 127) 10 255 = none :=
  ⟨by decide, by decide, by decide, by decide, by decide, by decide, by decide, by decide,
    by decide, by decide⟩

end TVScreenAnalog


namespace SWGMetisMISOSettings

/-! ## Theorems on the Metis MISO settings object -/

/-- The keys after `insert(key, value)` are the key and the keys before. -/
theorem mem_keys_insert (obj : QJsonObject) (key : String) (value : QJsonValue) (k : String) :
    k ∈ (obj.insert key value).keys ↔ k = key ∨ k ∈ obj.keys := by
  simp only [QJsonObject.insert, QJsonObject.keys, List.map_append, List.mem_append,
    List.mem_map, List.mem_filter, List.map_cons, List.map_nil, List.mem_singleton]
  constructor
  · rintro (⟨e, ⟨he, _⟩, rfl⟩ | h)
    · exact Or.inr ⟨e, he, rfl⟩
    · exact Or.inl h
  · rintro (h | ⟨e, he, rfl⟩)
    · exact Or.inr h
    · by_cases hk : e.1 = key
      · exact Or.inr hk
      · exact Or.inl ⟨e, ⟨he, by simpa using hk⟩, rfl⟩

/-- The keys after an `insert` made under a condition. -/
theorem mem_keys_insert_if (c : Prop) [Decidable c] (obj : QJsonObject) (key : String)
    (value : QJsonValue) (k : String) :
    k ∈ QJsonObject.keys (if c then obj.insert key value else obj)
      ↔ (c ∧ key = k) ∨ k ∈ obj.keys := by
  by_cases h : c
  · simp [h, mem_keys_insert, eq_comm]
  · simp [h]

/-- Every member is in `Field.all`. -/
theorem mem_all (f : Field) : f ∈ Field.all := by
  cases f <;> decide

/-- A setter sets the flag of its member and leaves the other flags. -/
theorem flag_apply (s : SWGMetisMISOSettings) (t : Setter) (f : Field) :
    flag (t.apply s) f = (decide (t.field = f) || flag s f) := by
  cases t <;> cases f <;> rfl

/-- After a sequence of setters the flag of a member is set exactly when one of them
assigns the member or the flag was set before. -/
theorem flag_applyAll (setters : List Setter) (s : SWGMetisMISOSettings) (f : Field) :
    flag (applyAll s setters) f = (setters.any (fun t => decide (t.field = f)) || flag s f) := by
  induction setters generalizing s with
  | nil => simp [applyAll]
  | cons t ts ih =>
    have h := ih (t.apply s)
    simp only [applyAll, List.foldl_cons] at h ⊢
    rw [h, flag_apply, List.any_cons, Bool.or_assoc]
    cases (ts.any fun t => decide (t.field = f)) <;> cases decide (t.field = f) <;> simp

/-- The chain of tests of `isSet` is the test `present` on one of the members. -/
theorem isSet_eq_any (s : SWGMetisMISOSettings) : isSet s = Field.all.any (present s) := by
  simp [isSet, Field.all, present, flag]

/-- The keys of `asJsonObject` are the keys of the members that pass the test
`present`, when `toJsonValue` stores the string under the name it is given. -/
theorem mem_keys_asJsonObject (env : SWGEnv)
    (henv : ∀ name str obj type k,
      k ∈ QJsonObject.keys (env.toJsonValue name (some str) obj type) ↔ k = name ∨ k ∈ obj.keys)
    (s : SWGMetisMISOSettings) (k : String) :
    k ∈ (asJsonObject env s).keys ↔ ∃ f, present s f = true ∧ f.key = k := by
  have hall : (∃ f, present s f = true ∧ f.key = k)
      ↔ ∃ f ∈ Field.all.reverse, present s f = true ∧ f.key = k := by
    constructor
    · rintro ⟨f, h⟩
      exact ⟨f, List.mem_reverse.mpr (mem_all f), h⟩
    · rintro ⟨f, _, h⟩
      exact ⟨f, h⟩
  have haddr : ∀ (obj : QJsonObject),
      k ∈ QJsonObject.keys (if s.reverse_api_address ≠ none ∧ s.reverse_api_address ≠ some "" then
          env.toJsonValue "reverseAPIAddress" s.reverse_api_address obj "QString" else obj)
        ↔ ((s.reverse_api_address ≠ none ∧ s.reverse_api_address ≠ some "")
            ∧ "reverseAPIAddress" = k) ∨ k ∈ obj.keys := by
    intro obj
    cases ha : s.reverse_api_address with
    | none => simp
    | some str =>
      by_cases h : str = ""
      · simp [h]
      · simp [h, henv, eq_comm]
  have hnil : k ∉ QJsonObject.keys [] := by simp [QJsonObject.keys]
  rw [hall]
  unfold asJsonObject
  simp only [mem_keys_insert_if, haddr, hnil, or_false]
  simp only [Field.all, List.reverse_cons, List.reverse_nil, List.nil_append, List.cons_append, List.exists_mem_cons_iff, List.not_mem_nil, false_and, exists_false, or_false, present, flag, Field.key, if_true, reduceCtorEq, if_false, decide_eq_true_eq]

/-- Two members have different keys. -/
theorem key_injective (f g : Field) (h : f.key = g.key) : f = g := by
  cases f <;> cases g <;> first | rfl | exact absurd h (by decide)

/-- No flag is set after construction. -/
theorem flag_create (f : Field) : flag create f = false := by
  cases f <;> rfl

/-- No flag is set after `init()`. -/
theorem flag_init (t : SWGMetisMISOSettings) (f : Field) : flag (init t) f = false := by
  cases f <;> rfl

/-- The `toJsonValue` of `sampleSWGEnv` stores the string under its name. -/
theorem sampleSWGEnv_keys (name str : String) (obj : QJsonObject) (type k : String) :
    k ∈ QJsonObject.keys (sampleSWGEnv.toJsonValue name (some str) obj type)
      ↔ k = name ∨ k ∈ obj.keys :=
  mem_keys_insert obj name (QJsonValue.string str) k

/-- Claim C30: for a `SWGMetisMISOSettings` object obtained from construction
or from `init()` by any sequence of setter calls, with a `toJsonValue` that
stores a string under the name it is given: `isSet()` is true exactly when
`asJsonObject()` has at least one key; the key of a member other than
`reverse_api_address` is present exactly when a setter of that member is in
the sequence; the key `reverseAPIAddress` is present exactly when the string
is not null and not empty; every key is the key of a member; and on the object
just constructed or initialised `isSet()` is false and the JSON object has no
key. -/
theorem isSet_iff_keys (env : SWGEnv)
    (henv : ∀ name str obj type k,
      k ∈ QJsonObject.keys (env.toJsonValue name (some str) obj type) ↔ k = name ∨ k ∈ obj.keys)
    (s0 t : SWGMetisMISOSettings) (setters : List Setter)
    (h0 : s0 = create ∨ s0 = init t) :
    (isSet (applyAll s0 setters) = true
      ↔ (asJsonObject env (applyAll s0 setters)).keys ≠ []) ∧
    (∀ f, f ≠ Field.reverse_api_address →
      (f.key ∈ (asJsonObject env (applyAll s0 setters)).keys ↔ ∃ c ∈ setters, c.field = f)) ∧
    ("reverseAPIAddress" ∈ (asJsonObject env (applyAll s0 setters)).keys
      ↔ ∃ str, (applyAll s0 setters).reverse_api_address = some str ∧ str ≠ "") ∧
    (∀ k ∈ (asJsonObject env (applyAll s0 setters)).keys, ∃ f : Field, f.key = k) ∧
    isSet s0 = false ∧ (asJsonObject env s0).keys = [] := by
  have hflag0 : ∀ f, flag s0 f = false := by
    intro f
    rcases h0 with h | h <;> rw [h]
    · exact flag_create f
    · exact flag_init t f
  have haddr0 : ¬ (s0.reverse_api_address ≠ none ∧ s0.reverse_api_address ≠ some "") := by
    rcases h0 with h | h <;> rw [h] <;> simp [create, init]
  have hpresent0 : ∀ f, present s0 f = false := by
    intro f
    unfold present
    split_ifs
    · simpa using haddr0
    · exact hflag0 f
  have hkeys : ∀ s : SWGMetisMISOSettings,
      ((asJsonObject env s).keys ≠ [] ↔ ∃ f, present s f = true) := by
    intro s
    constructor
    · intro h
      obtain ⟨k, hk⟩ := List.exists_mem_of_ne_nil _ h
      obtain ⟨f, hf, _⟩ := (mem_keys_asJsonObject env henv s k).mp hk
      exact ⟨f, hf⟩
    · rintro ⟨f, hf⟩
      exact List.ne_nil_of_mem ((mem_keys_asJsonObject env henv s f.key).mpr ⟨f, hf, rfl⟩)
  have hset : ∀ s : SWGMetisMISOSettings, (isSet s = true ↔ ∃ f, present s f = true) := by
    intro s
    rw [isSet_eq_any, List.any_eq_true]
    constructor
    · rintro ⟨f, _, hf⟩
      exact ⟨f, hf⟩
    · rintro ⟨f, hf⟩
      exact ⟨f, mem_all f, hf⟩
  refine ⟨(hset _).trans (hkeys _).symm, ?_, ?_, ?_, ?_, ?_⟩
  · intro f hf
    rw [mem_keys_asJsonObject env henv]
    constructor
    · rintro ⟨g, hg, hgf⟩
      have hgf' : g = f := key_injective g f hgf
      subst hgf'
      unfold present at hg
      rw [if_neg hf, flag_applyAll, hflag0, Bool.or_false, List.any_eq_true] at hg
      obtain ⟨c, hc, hcg⟩ := hg
      exact ⟨c, hc, by simpa using hcg⟩
    · rintro ⟨c, hc, hcf⟩
      refine ⟨f, ?_, rfl⟩
      unfold present
      rw [if_neg hf, flag_applyAll, hflag0, Bool.or_false, List.any_eq_true]
      exact ⟨c, hc, by simpa using hcf⟩
  · rw [mem_keys_asJsonObject env henv]
    constructor
    · rintro ⟨g, hg, hgf⟩
      have hgf' : g = Field.reverse_api_address := key_injective g Field.reverse_api_address hgf
      subst hgf'
      unfold present at hg
      rw [if_pos rfl] at hg
      cases ha : (applyAll s0 setters).reverse_api_address with
      | none => simp [ha] at hg
      | some str =>
        refine ⟨str, rfl, ?_⟩
        simpa [ha] using hg
    · rintro ⟨str, hs, hne⟩
      refine ⟨Field.reverse_api_address, ?_, rfl⟩
      unfold present
      rw [if_pos rfl, hs]
      simpa using hne
  · intro k hk
    obtain ⟨f, _, hf⟩ := (mem_keys_asJsonObject env henv _ k).mp hk
    exact ⟨f, hf⟩
  · cases h : isSet s0 with
    | false => rfl
    | true =>
      obtain ⟨f, hf⟩ := (hset s0).mp h
      rw [hpresent0] at hf
      exact absurd hf (by decide)
  · by_contra h
    obtain ⟨f, hf⟩ := (hkeys s0).mp h
    rw [hpresent0] at hf
    exact absurd hf (by decide)

/-- Witness of C30: the constructed object after the calls `sampleSetters`, whose
JSON object has the keys `preamp` and `txDrive`. -/
theorem isSet_iff_keys_witness :
    (isSet (applyAll create sampleSetters) = true
      ↔ (asJsonObject sampleSWGEnv (applyAll create sampleSetters)).keys ≠ []) ∧
    (Field.preamp.key ∈ (asJsonObject sampleSWGEnv (applyAll create sampleSetters)).keys
      ↔ ∃ c ∈ sampleSetters, c.field = Field.preamp) ∧
    (asJsonObject sampleSWGEnv (applyAll create sampleSetters)).keys = ["preamp", "txDrive"] ∧
    isSet create = false :=
  have h := isSet_iff_keys sampleSWGEnv sampleSWGEnv_keys create create sampleSetters (Or.inl rfl)
  ⟨h.1, h.2.1 Field.preamp (by decide), by decide, h.2.2.2.2.1⟩

end SWGMetisMISOSettings

end SDRangel
